import Mathlib

/-!
# IEEE 802.15.4 frame codec (`ieee802154_util.c`): header encoders, acknowledgment
builder, frame decoder

A shallow embedding of `ieee802154_util.h` / `ieee802154_util.c`.

Modelling conventions.

* A byte buffer handed over by pointer (`uint8_t *header`) is a function `Nat → Nat`
  from the index relative to that pointer to the byte stored there.
* `uint8_t` arithmetic on `position` is written with an explicit `% 256`.
* A `uint16_t` is stored low byte first (the ESP32 targets are little-endian), and the
  bit-fields of `ieee802154_fcf_t` are allocated from the least significant bit of each
  byte in declaration order (the GCC layout on these targets).
* A nullable pointer argument (`uint8_t *seq_nr`) is an `Option`.
* The decoder only logs; its model returns the list of its log calls, in order, each with
  the values it is given to print.
-/

namespace Ieee802154

/-! ## Constants of `ieee802154_util.h` -/

@[simp] abbrev FRAME_VERSION_STD_2003 : Nat := 0
@[simp] abbrev FRAME_VERSION_STD_2006 : Nat := 1
@[simp] abbrev FRAME_VERSION_STD_2015 : Nat := 2

@[simp] abbrev FRAME_TYPE_BEACON : Nat := 0
@[simp] abbrev FRAME_TYPE_DATA : Nat := 1
@[simp] abbrev FRAME_TYPE_ACK : Nat := 2
@[simp] abbrev FRAME_TYPE_MAC_COMMAND : Nat := 3
@[simp] abbrev FRAME_TYPE_RESERVED : Nat := 4
@[simp] abbrev FRAME_TYPE_MULTIPURPOSE : Nat := 5
@[simp] abbrev FRAME_TYPE_FRAGMENT : Nat := 6
@[simp] abbrev FRAME_TYPE_EXTENDED : Nat := 7

@[simp] abbrev ADDR_MODE_NONE : Nat := 0
@[simp] abbrev ADDR_MODE_RESERVED : Nat := 1
@[simp] abbrev ADDR_MODE_SHORT : Nat := 2
@[simp] abbrev ADDR_MODE_LONG : Nat := 3

/-! ## Data model -/

/-- The bit-field record `ieee802154_fcf_t`: widths 3,1,1,1,1,1 (first byte) and
1,1,2,2,2 (second byte). -/
structure ieee802154_fcf_t where
  frame_type : Nat
  secure : Nat
  frame_pending : Nat
  ack_request : Nat
  pan_id_compression : Nat
  reserved : Nat
  sequence_number_suppression : Nat
  information_elements_present : Nat
  dst_addr_mode : Nat
  frame_ver : Nat
  src_addr_mode : Nat
  deriving DecidableEq, Repr

/-- The record `ieee802154_address_t`: a `uint8_t mode` tag and the two payload members
`short_address` and `long_address[8]`. In C the payload members share storage; every
function below reads only the member selected by the mode tag. -/
structure ieee802154_address_t where
  mode : Nat
  short_address : Nat
  long_address : Fin 8 → Nat

/-- The record is within its widths: what a C object of type `ieee802154_fcf_t` can hold. -/
def fcf_fits (f : ieee802154_fcf_t) : Prop :=
  f.frame_type < 8 ∧ f.secure < 2 ∧ f.frame_pending < 2 ∧ f.ack_request < 2 ∧
  f.pan_id_compression < 2 ∧ f.reserved < 2 ∧ f.sequence_number_suppression < 2 ∧
  f.information_elements_present < 2 ∧ f.dst_addr_mode < 4 ∧ f.frame_ver < 4 ∧
  f.src_addr_mode < 4

instance (f : ieee802154_fcf_t) : Decidable (fcf_fits f) := by
  unfold fcf_fits; infer_instance

/-- The two bytes of the object representation of an `ieee802154_fcf_t`, as copied by
`memcpy(&header[position], &frame_control_field, sizeof(frame_control_field))`.
Each member is cut to its bit width, as a bit-field store does. -/
def fcf_bytes (f : ieee802154_fcf_t) : List Nat :=
  [ f.frame_type % 8 + 8 * (f.secure % 2) + 16 * (f.frame_pending % 2)
      + 32 * (f.ack_request % 2) + 64 * (f.pan_id_compression % 2) + 128 * (f.reserved % 2),
    f.sequence_number_suppression % 2 + 2 * (f.information_elements_present % 2)
      + 4 * (f.dst_addr_mode % 4) + 16 * (f.frame_ver % 4) + 64 * (f.src_addr_mode % 4) ]

/-- The record read through `(ieee802154_fcf_t *)&frame[position]` from the two bytes
`b0 = frame[position]` and `b1 = frame[position + 1]`. -/
def fcf_of_bytes (b0 b1 : Nat) : ieee802154_fcf_t :=
  { frame_type := b0 % 8
    secure := b0 / 8 % 2
    frame_pending := b0 / 16 % 2
    ack_request := b0 / 32 % 2
    pan_id_compression := b0 / 64 % 2
    reserved := b0 / 128 % 2
    sequence_number_suppression := b1 % 2
    information_elements_present := b1 / 2 % 2
    dst_addr_mode := b1 / 4 % 4
    frame_ver := b1 / 16 % 4
    src_addr_mode := b1 / 64 % 4 }

/-! ## Byte buffers -/

/-- Memory seen through a `uint8_t *`: index relative to the pointer ↦ byte. -/
abbrev buffer := Nat → Nat

/-- The assignment `m[i] = v`. -/
def store (m : buffer) (i v : Nat) : buffer := fun j => if j = i then v else m j

/-- The call `memcpy(&dst[off], src, n)` where `src` holds the `n` bytes copied. -/
def memcpy (dst : buffer) (off : Nat) : List Nat → buffer
  | [] => dst
  | b :: bs => memcpy (store dst off b) (off + 1) bs

/-- The loop of `reverse_memcpy(&dst[off], src, n)`: `dst[n - 1 - i] = src[i]` for
`i = 0, …, n - 1`. -/
def reverse_memcpy (dst : buffer) (off : Nat) (src : List Nat) (n : Nat) : buffer :=
  (List.range n).foldl (fun d i => store d (off + (n - 1 - i)) (src.getD i 0)) dst

/-- The two bytes of a `uint16_t` object, low byte first. -/
def uint16_bytes (v : Nat) : List Nat := [v % 256, v / 256 % 256]

/-- The eight bytes of the member `long_address`. -/
def long_address_bytes (a : ieee802154_address_t) : List Nat :=
  [a.long_address 0, a.long_address 1, a.long_address 2, a.long_address 3,
   a.long_address 4, a.long_address 5, a.long_address 6, a.long_address 7]

/-- The record found in the first two bytes of a buffer. -/
def fcf_at (m : buffer) (i : Nat) : ieee802154_fcf_t := fcf_of_bytes (m i) (m (i + 1))

/-! ## Header encoders -/

/-- How a call of a header encoder ends. The C functions return `uint8_t position` and
have no error value; the only other end is a read through a `NULL` pointer, which is
undefined behaviour and hands no value back to the caller. -/
inductive call_end where
  | returns (position : Nat)
  | null_read
  deriving DecidableEq, Repr

/-- What a call of a header encoder leaves behind: whether `ESP_LOGE` was called, the
header buffer, and how the call ended. -/
structure header_call where
  error_logged : Bool
  header : buffer
  ending : call_end

/-- The function `esp_ieee802154_create_2003_data_header`. -/
def esp_ieee802154_create_2003_data_header (dst_pan_id : Nat)
    (dst_addr : ieee802154_address_t) (src_pan_id : Nat) (src_addr : ieee802154_address_t)
    (seq_nr : Option Nat) (ack : Bool) (header : buffer) : header_call :=
  -- if (seq_nr == NULL) ESP_LOGE(...), and execution goes on
  let error_logged := seq_nr.isNone
  let pic : Bool := if dst_pan_id ≠ src_pan_id then false else true
  let frame_control_field : ieee802154_fcf_t :=
    { frame_type := FRAME_TYPE_DATA
      secure := 0
      frame_pending := 0
      ack_request := ack.toNat
      pan_id_compression := pic.toNat
      reserved := 0
      sequence_number_suppression := 0
      information_elements_present := 0
      dst_addr_mode := dst_addr.mode % 4
      frame_ver := FRAME_VERSION_STD_2003
      src_addr_mode := src_addr.mode % 4 }
  let position := 0
  let header := memcpy header position (fcf_bytes frame_control_field)
  let position := 2
  match seq_nr with
  | none =>
    -- memcpy(&header[position], seq_nr, sizeof(uint8_t)) reads through NULL
    { error_logged := error_logged, header := header, ending := call_end.null_read }
  | some seq =>
    let header := memcpy header position [seq]
    let position := (position + 1) % 256
    let header := memcpy header position (uint16_bytes dst_pan_id)
    let position := (position + 2) % 256
    let dst : buffer × Nat :=
      if frame_control_field.dst_addr_mode = ADDR_MODE_SHORT then
        (memcpy header position (uint16_bytes dst_addr.short_address), (position + 2) % 256)
      else if frame_control_field.dst_addr_mode = ADDR_MODE_LONG then
        (reverse_memcpy header position (long_address_bytes dst_addr) 8, (position + 8) % 256)
      else (header, position)
    let header := dst.1
    let position := dst.2
    let span : buffer × Nat :=
      if pic = false then
        (memcpy header position (uint16_bytes src_pan_id), (position + 2) % 256)
      else (header, position)
    let header := span.1
    let position := span.2
    let src : buffer × Nat :=
      if frame_control_field.src_addr_mode = ADDR_MODE_SHORT then
        (memcpy header position (uint16_bytes src_addr.short_address), (position + 2) % 256)
      else if frame_control_field.src_addr_mode = ADDR_MODE_LONG then
        (memcpy header position (long_address_bytes src_addr), (position + 8) % 256)
      else (header, position)
    let header := src.1
    let position := src.2
    { error_logged := error_logged, header := header, ending := call_end.returns position }

/-- The function `esp_ieee802154_create_2015_data_header`. -/
def esp_ieee802154_create_2015_data_header (dst_pan_id : Nat)
    (dst_addr : ieee802154_address_t) (src_pan_id : Nat) (src_addr : ieee802154_address_t)
    (seq_nr : Option Nat) (ack : Bool) (header : buffer) : header_call :=
  let sns : Bool := if seq_nr.isNone then true else false
  let pic : Bool := if dst_pan_id ≠ src_pan_id then false else true
  let frame_control_field : ieee802154_fcf_t :=
    { frame_type := FRAME_TYPE_DATA
      secure := 0
      frame_pending := 0
      ack_request := ack.toNat
      pan_id_compression := pic.toNat
      reserved := 0
      sequence_number_suppression := sns.toNat
      information_elements_present := 0
      dst_addr_mode := dst_addr.mode % 4
      frame_ver := FRAME_VERSION_STD_2015
      src_addr_mode := src_addr.mode % 4 }
  let position := 0
  let header := memcpy header position (fcf_bytes frame_control_field)
  let position := 2
  let sq : buffer × Nat :=
    if sns = false then
      match seq_nr with
      | some seq => (memcpy header position [seq], (position + 1) % 256)
      | none => (header, position) -- not reached: sns is false only when seq_nr is not NULL
    else (header, position)
  let header := sq.1
  let position := sq.2
  let header := memcpy header position (uint16_bytes dst_pan_id)
  let position := (position + 2) % 256
  let dst : buffer × Nat :=
    if frame_control_field.dst_addr_mode = ADDR_MODE_SHORT then
      (memcpy header position (uint16_bytes dst_addr.short_address), (position + 2) % 256)
    else if frame_control_field.dst_addr_mode = ADDR_MODE_LONG then
      (reverse_memcpy header position (long_address_bytes dst_addr) 8, (position + 8) % 256)
    else (header, position)
  let header := dst.1
  let position := dst.2
  let span : buffer × Nat :=
    if pic = false then
      (memcpy header position (uint16_bytes src_pan_id), (position + 2) % 256)
    else (header, position)
  let header := span.1
  let position := span.2
  let src : buffer × Nat :=
    if frame_control_field.src_addr_mode = ADDR_MODE_SHORT then
      (memcpy header position (uint16_bytes src_addr.short_address), (position + 2) % 256)
    else if frame_control_field.src_addr_mode = ADDR_MODE_LONG then
      (memcpy header position (long_address_bytes src_addr), (position + 8) % 256)
    else (header, position)
  let header := src.1
  let position := src.2
  { error_logged := false, header := header, ending := call_end.returns position }

/-- A short address value, as the callers build it: `.mode = ADDR_MODE_SHORT`. -/
def short_addr (v : Nat) : ieee802154_address_t :=
  { mode := ADDR_MODE_SHORT, short_address := v, long_address := fun _ => 0 }

/-- A long address value: `.mode = ADDR_MODE_LONG` and the eight bytes `b`. -/
def long_addr (b : Fin 8 → Nat) : ieee802154_address_t :=
  { mode := ADDR_MODE_LONG, short_address := 0, long_address := b }

/-- The bytes of a buffer at the indices `off, …, off + n - 1`. -/
def bytes_from (m : buffer) (off n : Nat) : List Nat := (List.range n).map fun i => m (off + i)

/-- Length of the address field that the encoders emit for a mode tag: they test the
two-bit member of the FCF, 2 bytes for short, 8 for long, nothing otherwise. -/
def addr_len (mode : Nat) : Nat :=
  if mode % 4 = ADDR_MODE_SHORT then 2 else if mode % 4 = ADDR_MODE_LONG then 8 else 0

/-- The FCF that a call left in the first two bytes of the header buffer. -/
def emitted_fcf (c : header_call) : ieee802154_fcf_t := fcf_at c.header 0

/-- The destination address field as the encoders write it: the two bytes of
`short_address`, or the eight bytes of `long_address` in reversed order. -/
def dst_field (a : ieee802154_address_t) : List Nat :=
  if a.mode % 4 = ADDR_MODE_SHORT then uint16_bytes a.short_address
  else if a.mode % 4 = ADDR_MODE_LONG then (long_address_bytes a).reverse
  else []

/-- The source address field as the encoders write it: the two bytes of `short_address`,
or the eight bytes of `long_address` in their stored order. -/
def src_field (a : ieee802154_address_t) : List Nat :=
  if a.mode % 4 = ADDR_MODE_SHORT then uint16_bytes a.short_address
  else if a.mode % 4 = ADDR_MODE_LONG then long_address_bytes a
  else []

/-- The source PAN id field: two bytes when the PAN ids differ, nothing otherwise. -/
def src_pan_field (dst_pan_id src_pan_id : Nat) : List Nat :=
  if dst_pan_id = src_pan_id then [] else uint16_bytes src_pan_id

/-- The FCF initialiser of the two encoders, with the frame version and the
suppression bit that each of them uses. -/
def data_fcf (ver sns dst_pan_id src_pan_id : Nat) (dst_addr src_addr : ieee802154_address_t)
    (ack : Bool) : ieee802154_fcf_t :=
  { frame_type := FRAME_TYPE_DATA
    secure := 0
    frame_pending := 0
    ack_request := ack.toNat
    pan_id_compression := if dst_pan_id = src_pan_id then 1 else 0
    reserved := 0
    sequence_number_suppression := sns
    information_elements_present := 0
    dst_addr_mode := dst_addr.mode % 4
    frame_ver := ver
    src_addr_mode := src_addr.mode % 4 }

/-- The header byte sequence, field after field, of a 2003 header: the closed form of what
the 2003 encoder writes (`create_2003_eq`). -/
def header_2003_bytes (dst_pan_id : Nat) (dst_addr : ieee802154_address_t) (src_pan_id : Nat)
    (src_addr : ieee802154_address_t) (seq : Nat) (ack : Bool) : List Nat :=
  fcf_bytes (data_fcf FRAME_VERSION_STD_2003 0 dst_pan_id src_pan_id dst_addr src_addr ack)
    ++ [seq] ++ uint16_bytes dst_pan_id ++ dst_field dst_addr
    ++ src_pan_field dst_pan_id src_pan_id ++ src_field src_addr

/-- The header byte sequence, field after field, of a 2015 header: the closed form of what
the 2015 encoder writes (`create_2015_eq`). -/
def header_2015_bytes (dst_pan_id : Nat) (dst_addr : ieee802154_address_t) (src_pan_id : Nat)
    (src_addr : ieee802154_address_t) (seq_nr : Option Nat) (ack : Bool) : List Nat :=
  fcf_bytes (data_fcf FRAME_VERSION_STD_2015 (if seq_nr.isNone then 1 else 0)
      dst_pan_id src_pan_id dst_addr src_addr ack)
    ++ seq_nr.toList ++ uint16_bytes dst_pan_id ++ dst_field dst_addr
    ++ src_pan_field dst_pan_id src_pan_id ++ src_field src_addr

/-! ## Acknowledgment builder -/

/-- The local variables of `esp_ieee802154_create_2015_ack_frame` that change while the
address fields are copied. -/
structure ack_state where
  enhack_frame : buffer
  position : Nat
  frame_src_addr_position : Nat
  frame_dst_addr_position : Nat

/-- The three statements `enhack_frame[position] = frame[frame_src_addr_position];
position += 1; frame_src_addr_position += 1;`. -/
def copy_from_src (frame : buffer) (s : ack_state) : ack_state :=
  { s with
    enhack_frame := store s.enhack_frame s.position (frame s.frame_src_addr_position)
    position := (s.position + 1) % 256
    frame_src_addr_position := (s.frame_src_addr_position + 1) % 256 }

/-- The three statements `enhack_frame[position] = frame[frame_dst_addr_position];
position += 1; frame_dst_addr_position += 1;`. -/
def copy_from_dst (frame : buffer) (s : ack_state) : ack_state :=
  { s with
    enhack_frame := store s.enhack_frame s.position (frame s.frame_dst_addr_position)
    position := (s.position + 1) % 256
    frame_dst_addr_position := (s.frame_dst_addr_position + 1) % 256 }

/-- The function `esp_ieee802154_create_2015_ack_frame`: the content of `enhack_frame`
after the call. -/
def esp_ieee802154_create_2015_ack_frame (frame : buffer) (enhack_frame : buffer) : buffer :=
  let position := 1
  let fcf := fcf_at frame position
  let ack_fcf : ieee802154_fcf_t :=
    { frame_type := FRAME_TYPE_ACK
      secure := 0
      frame_pending := 0
      ack_request := 0
      pan_id_compression := fcf.pan_id_compression
      reserved := 0
      sequence_number_suppression := fcf.sequence_number_suppression
      information_elements_present := 0
      dst_addr_mode := fcf.src_addr_mode
      frame_ver := FRAME_VERSION_STD_2015
      src_addr_mode := fcf.dst_addr_mode }
  let ack_byte_fcf := fcf_bytes ack_fcf
  let enhack_frame := store enhack_frame position (ack_byte_fcf.getD 0 0)
  let position := (position + 1) % 256
  let enhack_frame := store enhack_frame position (ack_byte_fcf.getD 1 0)
  let position := (position + 1) % 256
  let sq : buffer × Nat :=
    if fcf.sequence_number_suppression = 0 then
      (store enhack_frame position (frame position), (position + 1) % 256)
    else (enhack_frame, position)
  let enhack_frame := sq.1
  let position := sq.2
  let s : ack_state :=
    if fcf.pan_id_compression ≠ 0 then
      let enhack_frame := store enhack_frame position (frame position)
      let position := (position + 1) % 256
      let enhack_frame := store enhack_frame position (frame position)
      let position := (position + 1) % 256
      let frame_src_addr_position := position
      let frame_dst_addr_position := position
      let frame_src_addr_position := (frame_src_addr_position + 2) % 256
      let frame_src_addr_position :=
        if fcf.dst_addr_mode = ADDR_MODE_LONG then (frame_src_addr_position + 6) % 256
        else frame_src_addr_position
      let s : ack_state := ⟨enhack_frame, position, frame_src_addr_position,
        frame_dst_addr_position⟩
      let s := copy_from_src frame s
      let s := copy_from_src frame s
      let s :=
        if fcf.src_addr_mode = ADDR_MODE_LONG then
          let s := copy_from_src frame s
          let s := copy_from_src frame s
          let s := copy_from_src frame s
          let s := copy_from_src frame s
          let s := copy_from_src frame s
          copy_from_src frame s
        else s
      let s := copy_from_dst frame s
      let s := copy_from_dst frame s
      if fcf.dst_addr_mode = ADDR_MODE_LONG then
        let s := copy_from_dst frame s
        let s := copy_from_dst frame s
        let s := copy_from_dst frame s
        let s := copy_from_dst frame s
        let s := copy_from_dst frame s
        copy_from_dst frame s
      else s
    else
      let frame_src_addr_position := position
      let frame_dst_addr_position := position
      let frame_src_addr_position := (frame_src_addr_position + 4) % 256
      let frame_src_addr_position :=
        if fcf.dst_addr_mode = ADDR_MODE_LONG then (frame_src_addr_position + 6) % 256
        else frame_src_addr_position
      let s : ack_state := ⟨enhack_frame, position, frame_src_addr_position,
        frame_dst_addr_position⟩
      let s := copy_from_src frame s
      let s := copy_from_src frame s
      let s := copy_from_src frame s
      let s := copy_from_src frame s
      let s :=
        if fcf.src_addr_mode = ADDR_MODE_LONG then
          let s := copy_from_src frame s
          let s := copy_from_src frame s
          let s := copy_from_src frame s
          let s := copy_from_src frame s
          let s := copy_from_src frame s
          copy_from_src frame s
        else s
      let s := copy_from_dst frame s
      let s := copy_from_dst frame s
      let s := copy_from_dst frame s
      let s := copy_from_dst frame s
      if fcf.dst_addr_mode = ADDR_MODE_LONG then
        let s := copy_from_dst frame s
        let s := copy_from_dst frame s
        let s := copy_from_dst frame s
        let s := copy_from_dst frame s
        let s := copy_from_dst frame s
        copy_from_dst frame s
      else s
  store s.enhack_frame 0 ((s.position + 2) % 256)

/-- The FCF initialiser `ack_fcf` of the acknowledgment builder for an inbound FCF. -/
def ack_fcf_of (fcf : ieee802154_fcf_t) : ieee802154_fcf_t :=
  { frame_type := FRAME_TYPE_ACK
    secure := 0
    frame_pending := 0
    ack_request := 0
    pan_id_compression := fcf.pan_id_compression
    reserved := 0
    sequence_number_suppression := fcf.sequence_number_suppression
    information_elements_present := 0
    dst_addr_mode := fcf.src_addr_mode
    frame_ver := FRAME_VERSION_STD_2015
    src_addr_mode := fcf.dst_addr_mode }

/-- Number of address bytes the acknowledgment builder copies for a mode: 8 for long,
2 for every other mode. -/
def ack_addr_len (mode : Nat) : Nat := if mode = ADDR_MODE_LONG then 8 else 2

/-- The sequence number byte the builder copies: `frame[3]` unless the suppression bit of
the inbound FCF is set. -/
def ack_seq_field (frame : buffer) : List Nat :=
  if (fcf_at frame 1).sequence_number_suppression = 0 then [frame 3] else []

/-- The PAN id and address bytes the builder copies, in the order it writes them; `p` is
the inbound index right after the FCF and the optional sequence number. -/
def ack_addr_fields (frame : buffer) (p : Nat) : List Nat :=
  if (fcf_at frame 1).pan_id_compression ≠ 0 then
    bytes_from frame p 2
      ++ bytes_from frame (p + 2 + ack_addr_len (fcf_at frame 1).dst_addr_mode)
          (ack_addr_len (fcf_at frame 1).src_addr_mode)
      ++ bytes_from frame (p + 2) (ack_addr_len (fcf_at frame 1).dst_addr_mode)
  else
    bytes_from frame (p + 2 + ack_addr_len (fcf_at frame 1).dst_addr_mode)
        (2 + ack_addr_len (fcf_at frame 1).src_addr_mode)
      ++ bytes_from frame p (2 + ack_addr_len (fcf_at frame 1).dst_addr_mode)

/-- The bytes the builder writes after the length prefix: closed form of the writes at the
indices 1, 2, … (`ack_frame_eq`). -/
def ack_body (frame : buffer) : List Nat :=
  fcf_bytes (ack_fcf_of (fcf_at frame 1)) ++ ack_seq_field frame
    ++ ack_addr_fields frame (3 + (ack_seq_field frame).length)

/-! ## Frame decoder / printer -/

/-- One `ESP_LOGI`, `ESP_LOGW` or `ESP_LOGE` call of the decoder, with the values it is
given to print. -/
inductive log_line where
  | rule
  | fcf_heading
  | frame_type (name : String)
  | security_enabled (v : Bool)
  | frame_pending (v : Bool)
  | ack_request (v : Bool)
  | pan_id_compression (v : Bool)
  | reserved (v : Bool)
  | sequence_number_suppression (v : Bool)
  | information_elements_present (v : Bool)
  | dst_addr_mode (name : String)
  | frame_version (name : String)
  | src_addr_mode (name : String)
  | unsupported_error
  | reserved_warning
  | packet_heading (name : String)
  | seq_suppressed
  | sequence_number (n : Nat)
  | dst_pan (hi lo : Nat)
  | dst_addr_short (hi lo : Nat) (broadcast_str : String)
  | dst_addr_long (dst_addr : List Nat)
  | no_dst_warning
  | src_pan_intra (hi lo : Nat)
  | src_pan_inter (hi lo : Nat)
  | src_addr_short (hi lo : Nat)
  | src_addr_long (src_addr : List Nat)
  | no_src_warning
  | data_length (n : Nat)
  | data_dump (first : Bool) (bytes : List Nat)
  | ack_contains_data
  | ack_contains_no_data
  | not_supported_warning
  | transmission_heading
  | rssi (v : Int)
  | lqi (v : Nat)
  deriving DecidableEq, Repr

/-- The function `frame_version_to_string`. -/
def frame_version_to_string (frame_version : Nat) : String :=
  if frame_version = FRAME_VERSION_STD_2003 then "2003"
  else if frame_version = FRAME_VERSION_STD_2006 then "2006"
  else if frame_version = FRAME_VERSION_STD_2015 then "2015"
  else "Invalid"

/-- The function `addr_mode_to_string`. -/
def addr_mode_to_string (addr_mode : Nat) : String :=
  if addr_mode = ADDR_MODE_NONE then "None"
  else if addr_mode = ADDR_MODE_RESERVED then "Reserved"
  else if addr_mode = ADDR_MODE_SHORT then "Short"
  else if addr_mode = ADDR_MODE_LONG then "Long"
  else "Invalid"

/-- The function `frame_type_to_string`. -/
def frame_type_to_string (fcf : ieee802154_fcf_t) : String :=
  if fcf.frame_type = FRAME_TYPE_BEACON then "Beacon"
  else if fcf.frame_type = FRAME_TYPE_DATA then "Data"
  else if fcf.frame_type = FRAME_TYPE_ACK then
    (if fcf.frame_ver = FRAME_VERSION_STD_2015 then "Enh-ACK" else "Imm-ACK")
  else if fcf.frame_type = FRAME_TYPE_MAC_COMMAND then "MAC CMD"
  else if fcf.frame_type = FRAME_TYPE_RESERVED then "Reserved"
  else if fcf.frame_type = FRAME_TYPE_MULTIPURPOSE then "Multipurpose (2015)"
  else if fcf.frame_type = FRAME_TYPE_FRAGMENT then "Fragment (2015)"
  else if fcf.frame_type = FRAME_TYPE_EXTENDED then "Extended (2015)"
  else "Invalid"

/-- The read `*((uint16_t *)&packet[position])`: two buffer cells, low byte first. -/
def read_uint16 (packet : buffer) (position : Nat) : Nat :=
  packet position % 256 + 256 * (packet (position + 1) % 256)

/-- The conversion of a buffer cell to `int8_t`. -/
def int8_of (v : Nat) : Int := if v % 256 < 128 then (v % 256 : Nat) else (v % 256 : Nat) - 256

abbrev BYTES_PER_LINE : Nat := 12

/-- The `while (offset < buff_len)` loop of `esp_ieee802154_data_hexdump`: one log line per
iteration, showing the bytes `buffer[offset + i]` for `i < bytesRead`. The first argument
bounds the number of iterations. -/
def esp_ieee802154_data_hexdump_loop (buffer : buffer) (buff_len : Nat) :
    Nat → Nat → Nat → List log_line
  | 0, _, _ => []
  | fuel + 1, line, offset =>
    if offset < buff_len then
      let bytesRead :=
        if buff_len - offset < BYTES_PER_LINE then buff_len - offset else BYTES_PER_LINE
      log_line.data_dump (line = 0) (bytes_from buffer offset bytesRead)
        :: esp_ieee802154_data_hexdump_loop buffer buff_len fuel ((line + 1) % 256)
            ((offset + bytesRead) % 256)
    else []

/-- The function `esp_ieee802154_data_hexdump`. Every iteration moves `offset` forward by
at least one byte, so `buff_len` iterations are enough. -/
def esp_ieee802154_data_hexdump (buffer : buffer) (buff_len : Nat) : List log_line :=
  esp_ieee802154_data_hexdump_loop buffer buff_len buff_len 0 0

/-- The string `broadcast_str` built for a short destination address. -/
def broadcast_str (short_dst_addr dst_pan_id : Nat) : String :=
  if short_dst_addr = 0xFFFF then
    (if dst_pan_id = 0xFFFF then "(global Broadcast)" else "(local Broadcast)")
  else ""

/-- The eight bytes read by `addr[idx] = packet[*position + sizeof(addr) - 1 - idx]`. -/
def read_long_address (packet : buffer) (position : Nat) : List Nat :=
  (List.range 8).map fun idx => packet (position + 8 - 1 - idx)

/-- The part of `esp_ieee802154_print_address_information` after the destination `switch`:
the source PAN id and the source address. -/
def print_source_information (packet : buffer) (fcf : ieee802154_fcf_t) (dst_pan_id : Nat)
    (position : Nat) : List log_line × Nat :=
  let sp : List log_line × Nat :=
    if fcf.dst_addr_mode = ADDR_MODE_SHORT ∨ fcf.dst_addr_mode = ADDR_MODE_LONG then
      if fcf.pan_id_compression ≠ 0 then
        ([log_line.src_pan_intra (dst_pan_id / 256) (dst_pan_id % 256)], position)
      else
        let src_pan_id := read_uint16 packet position
        ([log_line.src_pan_inter (src_pan_id / 256) (src_pan_id % 256)],
          (position + 2) % 256)
    else ([], position)
  let position := sp.2
  if fcf.src_addr_mode = ADDR_MODE_SHORT then
    let short_src_addr := read_uint16 packet position
    (sp.1 ++ [log_line.src_addr_short (short_src_addr / 256) (short_src_addr % 256)],
      (position + 2) % 256)
  else if fcf.src_addr_mode = ADDR_MODE_LONG then
    (sp.1 ++ [log_line.src_addr_long (read_long_address packet position)],
      (position + 8) % 256)
  else (sp.1 ++ [log_line.no_src_warning], position)

/-- The function `esp_ieee802154_print_address_information`: the lines it logs and the
value it leaves in `*position`. -/
def esp_ieee802154_print_address_information (packet : buffer) (position : Nat) :
    List log_line × Nat :=
  let fcf := fcf_at packet 1
  let dp : List log_line × Nat × Nat :=
    if fcf.dst_addr_mode = ADDR_MODE_SHORT ∨ fcf.dst_addr_mode = ADDR_MODE_LONG then
      let dst_pan_id := read_uint16 packet position
      ([log_line.dst_pan (dst_pan_id / 256) (dst_pan_id % 256)], (position + 2) % 256,
        dst_pan_id)
    else ([], position, 0)
  let position := dp.2.1
  let dst_pan_id := dp.2.2
  if fcf.dst_addr_mode = ADDR_MODE_SHORT then
    let short_dst_addr := read_uint16 packet position
    let position := (position + 2) % 256
    let src := print_source_information packet fcf dst_pan_id position
    (dp.1 ++ [log_line.dst_addr_short (short_dst_addr / 256) (short_dst_addr % 256)
        (broadcast_str short_dst_addr dst_pan_id)] ++ src.1, src.2)
  else if fcf.dst_addr_mode = ADDR_MODE_LONG then
    let dst_addr := read_long_address packet position
    let position := (position + 8) % 256
    let src := print_source_information packet fcf dst_pan_id position
    (dp.1 ++ [log_line.dst_addr_long dst_addr] ++ src.1, src.2)
  else
    -- default: ESP_LOGW and return
    (dp.1 ++ [log_line.no_dst_warning], position)

/-- The `ESP_LOGI` calls of `esp_ieee802154_print_packet` that print the FCF. -/
def print_fcf (fcf : ieee802154_fcf_t) : List log_line :=
  [log_line.fcf_heading,
    log_line.frame_type (frame_type_to_string fcf),
    log_line.security_enabled (fcf.secure ≠ 0),
    log_line.frame_pending (fcf.frame_pending ≠ 0),
    log_line.ack_request (fcf.ack_request ≠ 0),
    log_line.pan_id_compression (fcf.pan_id_compression ≠ 0),
    log_line.reserved (fcf.reserved ≠ 0)]
  ++ (if fcf.frame_ver = FRAME_VERSION_STD_2015 then
        [log_line.sequence_number_suppression (fcf.sequence_number_suppression ≠ 0),
          log_line.information_elements_present (fcf.information_elements_present ≠ 0)]
      else [])
  ++ [log_line.dst_addr_mode (addr_mode_to_string fcf.dst_addr_mode),
    log_line.frame_version (frame_version_to_string fcf.frame_ver),
    log_line.src_addr_mode (addr_mode_to_string fcf.src_addr_mode)]

/-- The statements of `esp_ieee802154_print_packet` after the address information of a Data
frame or of a 2015 Ack frame: `data`, `data_length` (computed in 8 bits) and the two
`position` updates. Returns `data_length` and the new `position`. -/
def payload_extent (packet_length position : Nat) : Nat × Nat :=
  let data_length := (packet_length + 512 - position - 2) % 256
  let position := (position + data_length) % 256
  let position := (position + 1) % 256
  (data_length, position)

/-- The closing statements of `esp_ieee802154_print_packet`: the transmission info read at
`position` and `position + 1`. -/
def print_transmission_info (packet : buffer) (position : Nat) : List log_line :=
  [log_line.transmission_heading,
    log_line.rssi (int8_of (packet position)),
    log_line.lqi (packet (position + 1)),
    log_line.rule]

/-- The function `esp_ieee802154_print_packet`: the lines it logs, in order. -/
def esp_ieee802154_print_packet (packet : buffer) : List log_line :=
  let packet_length := packet 0 % 256
  let position := 1
  let fcf := fcf_at packet position
  let position := (position + 2) % 256
  let log := [log_line.rule] ++ print_fcf fcf
  if fcf.secure ≠ 0 ∨ fcf.information_elements_present ≠ 0 then
    log ++ [log_line.unsupported_error, log_line.rule]
  else
    let log := if fcf.reserved ≠ 0 then log ++ [log_line.reserved_warning] else log
    let log := log ++ [log_line.packet_heading (frame_type_to_string fcf)]
    if fcf.frame_type = FRAME_TYPE_DATA then
      let sq : List log_line × Nat :=
        if fcf.sequence_number_suppression ≠ 0 ∧ fcf.frame_ver = FRAME_VERSION_STD_2015 then
          ([log_line.seq_suppressed], position)
        else
          ([log_line.sequence_number (packet position)], (position + 1) % 256)
      let ai := esp_ieee802154_print_address_information packet sq.2
      let position := ai.2
      let data := fun i => packet (position + i)
      let pe := payload_extent packet_length position
      let data_length := pe.1
      let position := pe.2
      log ++ sq.1 ++ ai.1 ++ [log_line.data_length data_length]
        ++ esp_ieee802154_data_hexdump data data_length
        ++ print_transmission_info packet position
    else if fcf.frame_type = FRAME_TYPE_ACK then
      if fcf.frame_ver = FRAME_VERSION_STD_2015 then
        let sq : List log_line × Nat :=
          if fcf.sequence_number_suppression ≠ 0 then
            ([log_line.seq_suppressed], position)
          else
            ([log_line.sequence_number (packet position)], (position + 1) % 256)
        let ai := esp_ieee802154_print_address_information packet sq.2
        let position := ai.2
        let data := fun i => packet (position + i)
        let pe := payload_extent packet_length position
        let data_length := pe.1
        let position := pe.2
        let dl : List log_line :=
          if data_length > 0 then
            [log_line.ack_contains_data, log_line.data_length data_length]
              ++ esp_ieee802154_data_hexdump data data_length
          else [log_line.ack_contains_no_data]
        log ++ sq.1 ++ ai.1 ++ dl ++ print_transmission_info packet position
      else
        let sequence_number := packet position
        let position := (position + 1) % 256
        log ++ [log_line.sequence_number sequence_number]
          ++ print_transmission_info packet position
    else
      log ++ [log_line.not_supported_warning] ++ print_transmission_info packet position

/-- The frame buffer whose cell 0 holds `len` and whose cells from index 1 on are the
header buffer (the encoders are called with `&frame[1]`). -/
def with_length (len : Nat) (header : buffer) : buffer :=
  fun i => if i = 0 then len else header (i - 1)

/-- Number of bytes the acknowledgment builder writes after the length prefix for an inbound
FCF: 2 (FCF) + the optional sequence byte + one or two PAN ids + the two addresses. -/
def ack_bytes_written (fcf : ieee802154_fcf_t) : Nat :=
  2 + (if fcf.sequence_number_suppression = 0 then 1 else 0)
    + (if fcf.pan_id_compression ≠ 0 then 2 else 4)
    + ack_addr_len fcf.src_addr_mode + ack_addr_len fcf.dst_addr_mode

/-- Length of the header that an FCF announces, by the wire-format table: 2 (FCF), the
sequence number (2003 always, 2015 unless suppressed), the destination PAN id (destination
mode not none), the destination address (per mode), the source PAN id (compression clear)
and the source address (per mode). -/
def header_prefix_length (fcf : ieee802154_fcf_t) : Nat :=
  2 + (if fcf.sequence_number_suppression ≠ 0 ∧ fcf.frame_ver = FRAME_VERSION_STD_2015
        then 0 else 1)
    + (if fcf.dst_addr_mode = ADDR_MODE_NONE then 0 else 2) + addr_len fcf.dst_addr_mode
    + (if fcf.pan_id_compression ≠ 0 then 0 else 2) + addr_len fcf.src_addr_mode

/-- Index of the first PAN id byte in the inbound frame as the builder walks it, and in the
acknowledgment it writes: 4 when it copies a sequence number, 3 otherwise. -/
def ack_fields_start (fcf : ieee802154_fcf_t) : Nat :=
  if fcf.sequence_number_suppression = 0 then 4 else 3

/-- An inbound 2015 Data frame with PAN-ID compression: sequence number 7, PAN 0x0001,
destination short 0x0002, source short 0x0003, payload "Hallo". -/
def inbound_compressed : buffer :=
  memcpy (fun _ => 0) 0 [17, 0x61, 0xA8, 7, 1, 0, 2, 0, 3, 0, 72, 97, 108, 108, 111]

/-- An inbound 2015 Data frame without PAN-ID compression: sequence number 7, destination
short 0x0002 in PAN 0x0001, source short 0x0003 in PAN 0x0001. -/
def inbound_uncompressed : buffer :=
  memcpy (fun _ => 0) 0 [19, 0x21, 0xA8, 7, 1, 0, 2, 0, 1, 0, 3, 0, 72, 97, 108, 108, 111]

/-- The lines in which the decoder shows the addressing fields of a header built from the
destination PAN id `dp`, destination address `da`, source PAN id `sp` and source address
`sa` (both modes short or long). A `uint16_t` is shown as its high and its low byte; a long
destination address is shown as the bytes given to the encoder, a long source address as
those bytes in reversed order. -/
def printed_addressing (dp : Nat) (da : ieee802154_address_t) (sp : Nat)
    (sa : ieee802154_address_t) : List log_line :=
  [log_line.dst_pan (dp / 256 % 256) (dp % 256),
    (if da.mode = ADDR_MODE_SHORT then
      log_line.dst_addr_short (da.short_address / 256 % 256) (da.short_address % 256)
        (broadcast_str (da.short_address % 65536) (dp % 65536))
    else log_line.dst_addr_long (long_address_bytes da)),
    (if dp = sp then log_line.src_pan_intra (dp / 256 % 256) (dp % 256)
    else log_line.src_pan_inter (sp / 256 % 256) (sp % 256)),
    (if sa.mode = ADDR_MODE_SHORT then
      log_line.src_addr_short (sa.short_address / 256 % 256) (sa.short_address % 256)
    else log_line.src_addr_long (long_address_bytes sa).reverse)]

/-- The lines in which the decoder shows the flags of a header built by the 2003 encoder. -/
def printed_flags_2003 (dp : Nat) (da : ieee802154_address_t) (sp : Nat)
    (sa : ieee802154_address_t) (ack : Bool) : List log_line :=
  [log_line.rule, log_line.fcf_heading, log_line.frame_type "Data",
    log_line.security_enabled false, log_line.frame_pending false,
    log_line.ack_request ack, log_line.pan_id_compression (dp = sp),
    log_line.reserved false,
    log_line.dst_addr_mode (if da.mode = ADDR_MODE_SHORT then "Short" else "Long"),
    log_line.frame_version "2003",
    log_line.src_addr_mode (if sa.mode = ADDR_MODE_SHORT then "Short" else "Long"),
    log_line.packet_heading "Data"]

/-- The lines in which the decoder shows the flags of a header built by the 2015 encoder. -/
def printed_flags_2015 (dp : Nat) (da : ieee802154_address_t) (sp : Nat)
    (sa : ieee802154_address_t) (seq_nr : Option Nat) (ack : Bool) : List log_line :=
  [log_line.rule, log_line.fcf_heading, log_line.frame_type "Data",
    log_line.security_enabled false, log_line.frame_pending false,
    log_line.ack_request ack, log_line.pan_id_compression (dp = sp),
    log_line.reserved false,
    log_line.sequence_number_suppression seq_nr.isNone,
    log_line.information_elements_present false,
    log_line.dst_addr_mode (if da.mode = ADDR_MODE_SHORT then "Short" else "Long"),
    log_line.frame_version "2015",
    log_line.src_addr_mode (if sa.mode = ADDR_MODE_SHORT then "Short" else "Long"),
    log_line.packet_heading "Data"]

/-- The line in which the decoder shows the sequence number given to the encoder. -/
def printed_seq (seq_nr : Option Nat) : log_line :=
  match seq_nr with
  | some seq => log_line.sequence_number seq
  | none => log_line.seq_suppressed

/-- The lines of the decoder after the header of a Data frame whose header ends right
before index `p`: payload length, payload dump and transmission info. -/
def printed_payload (packet : buffer) (p : Nat) : List log_line :=
  [log_line.data_length (payload_extent (packet 0 % 256) p).1]
    ++ esp_ieee802154_data_hexdump (fun i => packet (p + i)) (payload_extent (packet 0 % 256) p).1
    ++ print_transmission_info packet (payload_extent (packet 0 % 256) p).2

/-- Header length for two addresses with modes short or long, as the encoders return it. -/
def data_header_length (seq_present : Bool) (dp : Nat) (da : ieee802154_address_t) (sp : Nat)
    (sa : ieee802154_address_t) : Nat :=
  2 + (if seq_present then 1 else 0) + 2 + (if da.mode = ADDR_MODE_SHORT then 2 else 8)
    + (if dp = sp then 0 else 2) + (if sa.mode = ADDR_MODE_SHORT then 2 else 8)

/-- The bytes shown by the hexdump lines of a log, in order. -/
def dumped_bytes : List log_line → List Nat
  | [] => []
  | log_line.data_dump _ bytes :: rest => bytes ++ dumped_bytes rest
  | _ :: rest => dumped_bytes rest

/-- The value of `position` when the decoder calls
`esp_ieee802154_print_address_information` for a Data frame or a 2015 Ack frame: 3 when it
skips the sequence number (suppression bit set in a frame of version 2015), 4 after
reading it from index 3. -/
def walk_start (fcf : ieee802154_fcf_t) : Nat :=
  if fcf.sequence_number_suppression ≠ 0 ∧ fcf.frame_ver = FRAME_VERSION_STD_2015 then 3
  else 4

/-- The value of `position` after the header walk of the decoder over a Data frame or a
2015 Ack frame: the index of the first byte after the decoded header. -/
def header_end (packet : buffer) : Nat :=
  (esp_ieee802154_print_address_information packet (walk_start (fcf_at packet 1))).2

/-- The lines the decoder logs for a Data frame or a 2015 Ack frame before it walks the
address fields: FCF, reserved-bit warning, packet heading and sequence number. -/
def preamble_lines (packet : buffer) : List log_line :=
  [log_line.rule] ++ print_fcf (fcf_at packet 1)
    ++ (if (fcf_at packet 1).reserved ≠ 0 then [log_line.reserved_warning] else [])
    ++ [log_line.packet_heading (frame_type_to_string (fcf_at packet 1))]
    ++ (if (fcf_at packet 1).sequence_number_suppression ≠ 0
          ∧ (fcf_at packet 1).frame_ver = FRAME_VERSION_STD_2015
        then [log_line.seq_suppressed] else [log_line.sequence_number (packet 3)])

/-- The lines the decoder logs for a Data frame or a 2015 Ack frame up to the end of its
header walk: the preamble and the address information. -/
def header_lines (packet : buffer) : List log_line :=
  preamble_lines packet
    ++ (esp_ieee802154_print_address_information packet (walk_start (fcf_at packet 1))).1

/-- Number of source PAN id bytes the decoder consumes: 2 when the compression bit is
clear, none when it is set. -/
def src_pan_length (fcf : ieee802154_fcf_t) : Nat :=
  if fcf.pan_id_compression ≠ 0 then 0 else 2

/-- Index right after the destination address in the header walk of the decoder, for a
destination mode short or long: sequence number, destination PAN id and destination
address lie before it. -/
def after_dst_address (packet : buffer) : Nat :=
  walk_start (fcf_at packet 1) + 2 + addr_len (fcf_at packet 1).dst_addr_mode

/-- The line the decoder logs for the source PAN id when the destination mode is short or
long: the destination PAN id again when the compression bit is set, the two bytes at
index `q` otherwise. -/
def src_pan_line (packet : buffer) (q : Nat) : log_line :=
  if (fcf_at packet 1).pan_id_compression ≠ 0 then
    log_line.src_pan_intra (read_uint16 packet (walk_start (fcf_at packet 1)) / 256)
      (read_uint16 packet (walk_start (fcf_at packet 1)) % 256)
  else log_line.src_pan_inter (read_uint16 packet q / 256) (read_uint16 packet q % 256)

/-- The line the decoder logs for the source address read at index `s`: two bytes for
mode short, eight bytes for mode long, a warning for the other modes. -/
def src_addr_line (packet : buffer) (s : Nat) : log_line :=
  if (fcf_at packet 1).src_addr_mode = ADDR_MODE_SHORT then
    log_line.src_addr_short (read_uint16 packet s / 256) (read_uint16 packet s % 256)
  else if (fcf_at packet 1).src_addr_mode = ADDR_MODE_LONG then
    log_line.src_addr_long (read_long_address packet s)
  else log_line.no_src_warning

/-- The two lines the decoder logs for the destination PAN id and address read from index
`p` on, for a destination mode short or long. -/
def dst_lines (packet : buffer) (p : Nat) : List log_line :=
  [log_line.dst_pan (read_uint16 packet p / 256) (read_uint16 packet p % 256),
    (if (fcf_at packet 1).dst_addr_mode = ADDR_MODE_SHORT then
      log_line.dst_addr_short (read_uint16 packet (p + 2) / 256)
        (read_uint16 packet (p + 2) % 256)
        (broadcast_str (read_uint16 packet (p + 2)) (read_uint16 packet p))
    else log_line.dst_addr_long (read_long_address packet (p + 2)))]

/-- A received 2015 Data frame as the receive path stores it: length byte 17, header of
`inbound_compressed`, payload "Hallo", one filler byte, RSSI byte 200 (-56) and LQI byte
255. -/
def received_data : buffer :=
  memcpy (fun _ => 0) 0
    [17, 0x61, 0xA8, 7, 1, 0, 2, 0, 3, 0, 72, 97, 108, 108, 111, 0, 200, 255]

/-! ## Send functions -/

/-- What the send functions read from the radio driver: `esp_ieee802154_get_panid()`,
`esp_ieee802154_get_short_address()` and the eight bytes that
`esp_ieee802154_get_extended_address` stores. -/
structure radio_state where
  panid : Nat
  short_address : Nat
  extended_address : Fin 8 → Nat

/-- What a call of a send function leaves behind: whether `ESP_LOGE` was called, the global
`frame` buffer, and whether `esp_ieee802154_transmit(frame, true)` was reached. -/
structure send_call where
  error_logged : Bool
  frame : buffer
  transmitted : Bool

/-- The call `memset(m, v, n)`. -/
def memset (m : buffer) (v n : Nat) : buffer := fun i => if i < n then v else m i

/-- The local `src_addr` of the send functions: long with the extended address when the
short address is `0xffff`, short otherwise. The member that is not set is never read. -/
def send_src_addr (radio : radio_state) : ieee802154_address_t :=
  if radio.short_address = 0xffff then
    { mode := ADDR_MODE_LONG, short_address := 0, long_address := radio.extended_address }
  else
    { mode := ADDR_MODE_SHORT, short_address := radio.short_address,
      long_address := fun _ => 0 }

/-- The function `esp_ieee802154_send_2003_l2_data_frame`. The header encoder is called on
`&frame[1]`, that is on the buffer `i ↦ frame[i + 1]`. -/
def esp_ieee802154_send_2003_l2_data_frame (radio : radio_state) (frame : buffer)
    (dst_pan_id : Nat) (dst_addr : ieee802154_address_t) (data : buffer) (data_length : Nat)
    (seq_nr : Option Nat) (ack : Bool) : send_call :=
  let src_pan_id := radio.panid
  let src_addr := send_src_addr radio
  let frame := memset frame 0 127
  let c := esp_ieee802154_create_2003_data_header dst_pan_id dst_addr src_pan_id src_addr
    seq_nr ack (fun i => frame (i + 1))
  let frame := with_length (frame 0) c.header
  match c.ending with
  | call_end.null_read =>
    { error_logged := c.error_logged, frame := frame, transmitted := false }
  | call_end.returns hdr_len =>
    let frame := memcpy frame (hdr_len + 1) (bytes_from data 0 data_length)
    let frame := store frame 0 ((1 + hdr_len + data_length + 2) % 256)
    { error_logged := c.error_logged, frame := frame, transmitted := true }

/-- The function `esp_ieee802154_send_2015_l2_data_frame`. -/
def esp_ieee802154_send_2015_l2_data_frame (radio : radio_state) (frame : buffer)
    (dst_pan_id : Nat) (dst_addr : ieee802154_address_t) (data : buffer) (data_length : Nat)
    (seq_nr : Option Nat) (ack : Bool) : send_call :=
  let src_pan_id := radio.panid
  let src_addr := send_src_addr radio
  let frame := memset frame 0 127
  let c := esp_ieee802154_create_2015_data_header dst_pan_id dst_addr src_pan_id src_addr
    seq_nr ack (fun i => frame (i + 1))
  let frame := with_length (frame 0) c.header
  match c.ending with
  | call_end.null_read =>
    { error_logged := c.error_logged, frame := frame, transmitted := false }
  | call_end.returns hdr_len =>
    let frame := memcpy frame (hdr_len + 1) (bytes_from data 0 data_length)
    let frame := store frame 0 ((1 + hdr_len + data_length + 2) % 256)
    { error_logged := c.error_logged, frame := frame, transmitted := true }

/-- The payload "Hallo" of the transmitter's `main.c`. -/
def hallo : buffer := memcpy (fun _ => 0) 0 [72, 97, 108, 108, 111]

/-- An inbound Data frame of version 2003 whose FCF bit 8 (the suppression bit of the 2015
layout) is set: sequence number 7 at index 3, destination short 0x0002 in PAN 0x0001,
source short 0x0003 in PAN 0x0004. -/
def inbound_2003_bit8 : buffer :=
  memcpy (fun _ => 0) 0 [16, 0x01, 0x89, 7, 1, 0, 2, 0, 4, 0, 3, 0, 72, 105]

/-- The radio state of the transmitter's `main.c`: a PAN id and a short address are set. -/
def example_radio : radio_state :=
  { panid := 0x1234, short_address := 0x0001, extended_address := fun _ => 0 }

/-- A received MAC-Command frame as the receive path stores it: length byte 17, sequence
number 7 at index 3, PAN id 0x0001 at the indices 4 and 5, RSSI byte 200 (-56) at index 16
and LQI byte 255 at index 17. -/
def received_mac_command : buffer :=
  memcpy (fun _ => 0) 0
    [17, 0x63, 0xA8, 7, 1, 0, 2, 0, 3, 0, 72, 97, 108, 108, 111, 0, 200, 255]

/-- A Data frame with destination addressing mode none, source mode short and the
compression bit clear: sequence number 7, source PAN id 0x0009, source address 0x0003,
payload "Hallo". -/
def data_without_destination : buffer :=
  memcpy (fun _ => 0) 0 [14, 0x01, 0x80, 7, 9, 0, 3, 0, 72, 97, 108, 108, 111]

/-! ## Buffer lemmas -/

theorem memcpy_apply (l : List Nat) (d : buffer) (off j : Nat) :
    memcpy d off l j = if off ≤ j ∧ j < off + l.length then l.getD (j - off) 0 else d j := by
  induction l generalizing d off with
  | nil =>
    have h : ¬ (off ≤ j ∧ j < off + ([] : List Nat).length) := by
      simp only [List.length_nil]; omega
    rw [memcpy, if_neg h]
  | cons b bs ih =>
    rw [memcpy, ih]
    by_cases hj : j = off
    · subst hj
      have h1 : ¬ (j + 1 ≤ j ∧ j < j + 1 + bs.length) := by omega
      have h2 : j ≤ j ∧ j < j + (b :: bs).length := by
        simp only [List.length_cons]; omega
      rw [if_neg h1, if_pos h2]
      simp [store]
    · by_cases h : off + 1 ≤ j ∧ j < off + 1 + bs.length
      · have h2 : off ≤ j ∧ j < off + (b :: bs).length := by
          simp only [List.length_cons]; omega
        have e : j - off = (j - (off + 1)) + 1 := by omega
        rw [if_pos h, if_pos h2, e, List.getD_cons_succ]
      · have h2 : ¬ (off ≤ j ∧ j < off + (b :: bs).length) := by
          simp only [List.length_cons]; omega
        rw [if_neg h, if_neg h2]
        simp [store, hj]

theorem memcpy_append (l1 l2 : List Nat) (d : buffer) (off : Nat) :
    memcpy (memcpy d off l1) (off + l1.length) l2 = memcpy d off (l1 ++ l2) := by
  induction l1 generalizing d off with
  | nil => simp [memcpy]
  | cons b bs ih =>
    have e : off + (b :: bs).length = off + 1 + bs.length := by
      simp only [List.length_cons]; omega
    rw [List.cons_append, memcpy, memcpy, e, ih]

theorem reverse_memcpy_eight (d : buffer) (off a0 a1 a2 a3 a4 a5 a6 a7 : Nat) :
    reverse_memcpy d off [a0, a1, a2, a3, a4, a5, a6, a7] 8
      = memcpy d off [a7, a6, a5, a4, a3, a2, a1, a0] := by
  funext j
  simp only [reverse_memcpy, List.range, List.range.loop, List.foldl, store, memcpy,
    List.getD_cons_zero, List.getD_cons_succ]
  simp only [Nat.reduceSub, Nat.sub_zero, Nat.add_zero, Nat.reduceAdd, Nat.add_assoc]
  split_ifs <;> first | rfl | omega

theorem create_2015_eq (dp : Nat) (da : ieee802154_address_t) (sp : Nat)
    (sa : ieee802154_address_t) (seq_nr : Option Nat) (ack : Bool) (h : buffer) :
    esp_ieee802154_create_2015_data_header dp da sp sa seq_nr ack h =
      { error_logged := false
        header := memcpy h 0 (header_2015_bytes dp da sp sa seq_nr ack)
        ending := call_end.returns (header_2015_bytes dp da sp sa seq_nr ack).length } := by
  have hd : da.mode % 4 = 0 ∨ da.mode % 4 = 1 ∨ da.mode % 4 = 2 ∨ da.mode % 4 = 3 := by omega
  have hs : sa.mode % 4 = 0 ∨ sa.mode % 4 = 1 ∨ sa.mode % 4 = 2 ∨ sa.mode % 4 = 3 := by omega
  by_cases hp : dp = sp <;> cases seq_nr <;>
    rcases hd with hd | hd | hd | hd <;> rcases hs with hs | hs | hs | hs <;>
    simp [esp_ieee802154_create_2015_data_header, header_2015_bytes, data_fcf, dst_field,
      src_field, src_pan_field, hp, hd, hs, memcpy, reverse_memcpy_eight, uint16_bytes,
      fcf_bytes, long_address_bytes]

theorem create_2003_eq (dp : Nat) (da : ieee802154_address_t) (sp : Nat)
    (sa : ieee802154_address_t) (seq : Nat) (ack : Bool) (h : buffer) :
    esp_ieee802154_create_2003_data_header dp da sp sa (some seq) ack h =
      { error_logged := false
        header := memcpy h 0 (header_2003_bytes dp da sp sa seq ack)
        ending := call_end.returns (header_2003_bytes dp da sp sa seq ack).length } := by
  have hd : da.mode % 4 = 0 ∨ da.mode % 4 = 1 ∨ da.mode % 4 = 2 ∨ da.mode % 4 = 3 := by omega
  have hs : sa.mode % 4 = 0 ∨ sa.mode % 4 = 1 ∨ sa.mode % 4 = 2 ∨ sa.mode % 4 = 3 := by omega
  by_cases hp : dp = sp <;>
    rcases hd with hd | hd | hd | hd <;> rcases hs with hs | hs | hs | hs <;>
    simp [esp_ieee802154_create_2003_data_header, header_2003_bytes, data_fcf, dst_field,
      src_field, src_pan_field, hp, hd, hs, memcpy, reverse_memcpy_eight, uint16_bytes,
      fcf_bytes, long_address_bytes]

theorem create_2003_null (dp : Nat) (da : ieee802154_address_t) (sp : Nat)
    (sa : ieee802154_address_t) (ack : Bool) (h : buffer) :
    esp_ieee802154_create_2003_data_header dp da sp sa none ack h =
      { error_logged := true
        header := memcpy h 0
          (fcf_bytes (data_fcf FRAME_VERSION_STD_2003 0 dp sp da sa ack))
        ending := call_end.null_read } := by
  by_cases hp : dp = sp <;>
    simp [esp_ieee802154_create_2003_data_header, data_fcf, hp]

theorem dst_field_length (a : ieee802154_address_t) : (dst_field a).length = addr_len a.mode := by
  unfold dst_field addr_len
  split_ifs <;> simp [uint16_bytes, long_address_bytes]

theorem src_field_length (a : ieee802154_address_t) : (src_field a).length = addr_len a.mode := by
  unfold src_field addr_len
  split_ifs <;> simp [uint16_bytes, long_address_bytes]

theorem header_2003_bytes_length (dp : Nat) (da : ieee802154_address_t) (sp : Nat)
    (sa : ieee802154_address_t) (seq : Nat) (ack : Bool) :
    (header_2003_bytes dp da sp sa seq ack).length
      = 5 + addr_len da.mode + (src_pan_field dp sp).length + addr_len sa.mode := by
  simp only [header_2003_bytes, List.length_append, dst_field_length, src_field_length,
    fcf_bytes, uint16_bytes, List.length_cons, List.length_nil]

theorem header_2015_bytes_length (dp : Nat) (da : ieee802154_address_t) (sp : Nat)
    (sa : ieee802154_address_t) (seq_nr : Option Nat) (ack : Bool) :
    (header_2015_bytes dp da sp sa seq_nr ack).length
      = 2 + seq_nr.toList.length + 2 + addr_len da.mode + (src_pan_field dp sp).length
        + addr_len sa.mode := by
  simp only [header_2015_bytes, List.length_append, dst_field_length, src_field_length,
    fcf_bytes, uint16_bytes, List.length_cons, List.length_nil]

theorem memcpy_beyond (h : buffer) (l : List Nat) (j : Nat) (hj : l.length ≤ j) :
    memcpy h 0 l j = h j := by
  rw [memcpy_apply, if_neg (by omega)]

theorem memcpy_within (h1 h2 : buffer) (l : List Nat) (j : Nat) (hj : j < l.length) :
    memcpy h1 0 l j = memcpy h2 0 l j := by
  rw [memcpy_apply, memcpy_apply, if_pos (by omega), if_pos (by omega)]

theorem bytes_from_memcpy (h : buffer) (A B C : List Nat) (p k : Nat) (hA : A.length = p)
    (hB : B.length = k) : bytes_from (memcpy h 0 (A ++ B ++ C)) p k = B := by
  subst hA hB
  apply List.ext_getElem
  · simp [bytes_from]
  · intro i h1 h2
    simp only [bytes_from, List.getElem_map, List.getElem_range, memcpy_apply]
    rw [if_pos (by simp only [List.length_append]; omega)]
    simp [List.getD_eq_getElem?_getD, List.getElem?_append_left, List.getElem?_append_right, h2]

theorem fcf_of_bytes_fcf_bytes (f : ieee802154_fcf_t) (h : fcf_fits f) :
    fcf_of_bytes ((fcf_bytes f).getD 0 0) ((fcf_bytes f).getD 1 0) = f := by
  obtain ⟨a, b, c, d, e, g, i, j, k, l, m⟩ := f
  simp only [fcf_fits] at h
  obtain ⟨h1, h2, h3, h4, h5, h6, h7, h8, h9, h10, h11⟩ := h
  simp only [fcf_bytes, fcf_of_bytes, List.getD_cons_zero, List.getD_cons_succ,
    ieee802154_fcf_t.mk.injEq]
  refine ⟨?_, ?_, ?_, ?_, ?_, ?_, ?_, ?_, ?_, ?_, ?_⟩ <;> omega

theorem fcf_at_memcpy (h : buffer) (f : ieee802154_fcf_t) (rest : List Nat)
    (hf : fcf_fits f) : fcf_at (memcpy h 0 (fcf_bytes f ++ rest)) 0 = f := by
  have e : fcf_at (memcpy h 0 (fcf_bytes f ++ rest)) 0
      = fcf_of_bytes ((fcf_bytes f).getD 0 0) ((fcf_bytes f).getD 1 0) := by
    simp [fcf_at, fcf_bytes, memcpy_apply]
  rw [e, fcf_of_bytes_fcf_bytes f hf]

theorem data_fcf_fits (ver sns dp sp : Nat) (da sa : ieee802154_address_t) (ack : Bool)
    (hv : ver < 4) (hs : sns < 2) : fcf_fits (data_fcf ver sns dp sp da sa ack) := by
  simp only [fcf_fits, data_fcf]
  refine ⟨by decide, by omega, by omega, ?_, ?_, by omega, hs, by omega, ?_, hv, ?_⟩
  · cases ack <;> simp
  · split_ifs <;> omega
  · omega
  · omega

theorem emitted_fcf_2003 (dp : Nat) (da : ieee802154_address_t) (sp : Nat)
    (sa : ieee802154_address_t) (seq_nr : Option Nat) (ack : Bool) (h : buffer) :
    emitted_fcf (esp_ieee802154_create_2003_data_header dp da sp sa seq_nr ack h)
      = data_fcf FRAME_VERSION_STD_2003 0 dp sp da sa ack := by
  cases seq_nr with
  | none =>
    rw [create_2003_null, emitted_fcf]
    have := fcf_at_memcpy h (data_fcf FRAME_VERSION_STD_2003 0 dp sp da sa ack) []
      (data_fcf_fits _ _ _ _ _ _ _ (by decide) (by decide))
    simpa using this
  | some seq =>
    rw [create_2003_eq, emitted_fcf]
    simp only [header_2003_bytes, List.append_assoc]
    exact fcf_at_memcpy h _ _ (data_fcf_fits _ _ _ _ _ _ _ (by decide) (by decide))

theorem emitted_fcf_2015 (dp : Nat) (da : ieee802154_address_t) (sp : Nat)
    (sa : ieee802154_address_t) (seq_nr : Option Nat) (ack : Bool) (h : buffer) :
    emitted_fcf (esp_ieee802154_create_2015_data_header dp da sp sa seq_nr ack h)
      = data_fcf FRAME_VERSION_STD_2015 (if seq_nr.isNone then 1 else 0) dp sp da sa ack := by
  rw [create_2015_eq, emitted_fcf]
  simp only [header_2015_bytes, List.append_assoc]
  exact fcf_at_memcpy h _ _ (data_fcf_fits _ _ _ _ _ _ _ (by decide) (by split_ifs <;> decide))

theorem src_pan_field_length (dp sp : Nat) :
    (src_pan_field dp sp).length = if dp = sp then 0 else 2 := by
  unfold src_pan_field
  split_ifs <;> simp [uint16_bytes]

theorem dst_pan_at_2003 (dp : Nat) (da : ieee802154_address_t) (sp : Nat)
    (sa : ieee802154_address_t) (seq : Nat) (ack : Bool) (h : buffer) :
    bytes_from (memcpy h 0 (header_2003_bytes dp da sp sa seq ack)) 3 2 = uint16_bytes dp := by
  have e := bytes_from_memcpy h
    (fcf_bytes (data_fcf FRAME_VERSION_STD_2003 0 dp sp da sa ack) ++ [seq])
    (uint16_bytes dp) (dst_field da ++ src_pan_field dp sp ++ src_field sa) 3 2 rfl rfl
  simp only [List.append_assoc] at e
  simp only [header_2003_bytes, List.append_assoc]
  exact e

theorem dst_pan_at_2015 (dp : Nat) (da : ieee802154_address_t) (sp : Nat)
    (sa : ieee802154_address_t) (seq_nr : Option Nat) (ack : Bool) (h : buffer) :
    bytes_from (memcpy h 0 (header_2015_bytes dp da sp sa seq_nr ack))
      (2 + seq_nr.toList.length) 2 = uint16_bytes dp := by
  have e := bytes_from_memcpy h
    (fcf_bytes (data_fcf FRAME_VERSION_STD_2015 (if seq_nr.isNone then 1 else 0)
      dp sp da sa ack) ++ seq_nr.toList)
    (uint16_bytes dp) (dst_field da ++ src_pan_field dp sp ++ src_field sa)
    (2 + seq_nr.toList.length) 2 (by simp [fcf_bytes]; omega) rfl
  simp only [List.append_assoc] at e
  simp only [header_2015_bytes, List.append_assoc]
  exact e

theorem dst_field_at_2003 (dp : Nat) (da : ieee802154_address_t) (sp : Nat)
    (sa : ieee802154_address_t) (seq : Nat) (ack : Bool) (h : buffer) :
    bytes_from (memcpy h 0 (header_2003_bytes dp da sp sa seq ack)) 5 (addr_len da.mode)
      = dst_field da := by
  have e := bytes_from_memcpy h
    (fcf_bytes (data_fcf FRAME_VERSION_STD_2003 0 dp sp da sa ack) ++ [seq] ++ uint16_bytes dp)
    (dst_field da) (src_pan_field dp sp ++ src_field sa) 5 (addr_len da.mode) rfl
    (dst_field_length da)
  simp only [List.append_assoc] at e
  simp only [header_2003_bytes, List.append_assoc]
  exact e

theorem dst_field_at_2015 (dp : Nat) (da : ieee802154_address_t) (sp : Nat)
    (sa : ieee802154_address_t) (seq_nr : Option Nat) (ack : Bool) (h : buffer) :
    bytes_from (memcpy h 0 (header_2015_bytes dp da sp sa seq_nr ack))
      (2 + seq_nr.toList.length + 2) (addr_len da.mode) = dst_field da := by
  have e := bytes_from_memcpy h
    (fcf_bytes (data_fcf FRAME_VERSION_STD_2015 (if seq_nr.isNone then 1 else 0)
      dp sp da sa ack) ++ seq_nr.toList ++ uint16_bytes dp)
    (dst_field da) (src_pan_field dp sp ++ src_field sa)
    (2 + seq_nr.toList.length + 2) (addr_len da.mode)
    (by simp [fcf_bytes, uint16_bytes]; omega) (dst_field_length da)
  simp only [List.append_assoc] at e
  simp only [header_2015_bytes, List.append_assoc]
  exact e

theorem tail_at_2003 (dp : Nat) (da : ieee802154_address_t) (sp : Nat)
    (sa : ieee802154_address_t) (seq : Nat) (ack : Bool) (h : buffer) :
    bytes_from (memcpy h 0 (header_2003_bytes dp da sp sa seq ack)) (5 + addr_len da.mode)
      ((if dp = sp then 0 else 2) + addr_len sa.mode)
      = src_pan_field dp sp ++ src_field sa := by
  have e := bytes_from_memcpy h
    (fcf_bytes (data_fcf FRAME_VERSION_STD_2003 0 dp sp da sa ack) ++ [seq] ++ uint16_bytes dp
      ++ dst_field da)
    (src_pan_field dp sp ++ src_field sa) [] (5 + addr_len da.mode)
    ((if dp = sp then 0 else 2) + addr_len sa.mode)
    (by rw [List.length_append, dst_field_length]; rfl)
    (by rw [List.length_append, src_pan_field_length, src_field_length])
  simp only [List.append_assoc, List.append_nil] at e
  simp only [header_2003_bytes, List.append_assoc]
  exact e

theorem tail_at_2015 (dp : Nat) (da : ieee802154_address_t) (sp : Nat)
    (sa : ieee802154_address_t) (seq_nr : Option Nat) (ack : Bool) (h : buffer) :
    bytes_from (memcpy h 0 (header_2015_bytes dp da sp sa seq_nr ack))
      (2 + seq_nr.toList.length + 2 + addr_len da.mode)
      ((if dp = sp then 0 else 2) + addr_len sa.mode)
      = src_pan_field dp sp ++ src_field sa := by
  have e := bytes_from_memcpy h
    (fcf_bytes (data_fcf FRAME_VERSION_STD_2015 (if seq_nr.isNone then 1 else 0)
      dp sp da sa ack) ++ seq_nr.toList ++ uint16_bytes dp ++ dst_field da)
    (src_pan_field dp sp ++ src_field sa) []
    (2 + seq_nr.toList.length + 2 + addr_len da.mode)
    ((if dp = sp then 0 else 2) + addr_len sa.mode)
    (by rw [List.length_append, dst_field_length]; simp [fcf_bytes, uint16_bytes]; omega)
    (by rw [List.length_append, src_pan_field_length, src_field_length])
  simp only [List.append_assoc, List.append_nil] at e
  simp only [header_2015_bytes, List.append_assoc]
  exact e

theorem src_field_at_2003 (dp : Nat) (da : ieee802154_address_t) (sp : Nat)
    (sa : ieee802154_address_t) (seq : Nat) (ack : Bool) (h : buffer) :
    bytes_from (memcpy h 0 (header_2003_bytes dp da sp sa seq ack))
      (5 + addr_len da.mode + (if dp = sp then 0 else 2)) (addr_len sa.mode)
      = src_field sa := by
  have e := bytes_from_memcpy h
    (fcf_bytes (data_fcf FRAME_VERSION_STD_2003 0 dp sp da sa ack) ++ [seq] ++ uint16_bytes dp
      ++ dst_field da ++ src_pan_field dp sp)
    (src_field sa) [] (5 + addr_len da.mode + (if dp = sp then 0 else 2)) (addr_len sa.mode)
    (by rw [List.length_append, List.length_append, dst_field_length, src_pan_field_length]
        rfl)
    (src_field_length sa)
  simp only [List.append_assoc, List.append_nil] at e
  simp only [header_2003_bytes, List.append_assoc]
  exact e

theorem src_field_at_2015 (dp : Nat) (da : ieee802154_address_t) (sp : Nat)
    (sa : ieee802154_address_t) (seq_nr : Option Nat) (ack : Bool) (h : buffer) :
    bytes_from (memcpy h 0 (header_2015_bytes dp da sp sa seq_nr ack))
      (2 + seq_nr.toList.length + 2 + addr_len da.mode + (if dp = sp then 0 else 2))
      (addr_len sa.mode) = src_field sa := by
  have e := bytes_from_memcpy h
    (fcf_bytes (data_fcf FRAME_VERSION_STD_2015 (if seq_nr.isNone then 1 else 0)
      dp sp da sa ack) ++ seq_nr.toList ++ uint16_bytes dp ++ dst_field da
      ++ src_pan_field dp sp)
    (src_field sa) []
    (2 + seq_nr.toList.length + 2 + addr_len da.mode + (if dp = sp then 0 else 2))
    (addr_len sa.mode)
    (by rw [List.length_append, List.length_append, dst_field_length, src_pan_field_length]
        simp [fcf_bytes, uint16_bytes]; omega)
    (src_field_length sa)
  simp only [List.append_assoc, List.append_nil] at e
  simp only [header_2015_bytes, List.append_assoc]
  exact e

theorem ack_frame_eq (frame e : buffer) :
    esp_ieee802154_create_2015_ack_frame frame e
      = store (memcpy e 1 (ack_body frame)) 0 ((1 + (ack_body frame).length + 2) % 256) := by
  by_cases h1 : (fcf_at frame 1).sequence_number_suppression = 0 <;>
    by_cases h2 : (fcf_at frame 1).pan_id_compression = 0 <;>
    by_cases h3 : (fcf_at frame 1).dst_addr_mode = 3 <;>
    by_cases h4 : (fcf_at frame 1).src_addr_mode = 3 <;>
    simp [esp_ieee802154_create_2015_ack_frame, ack_body, ack_seq_field, ack_addr_fields,
      ack_addr_len, ack_fcf_of, h1, h2, h3, h4, copy_from_src, copy_from_dst, memcpy,
      bytes_from, List.range, List.range.loop, fcf_bytes]

theorem store_memcpy_zero (e : buffer) (v : Nat) (l : List Nat) :
    store (memcpy e 1 l) 0 v = memcpy e 0 (v :: l) := by
  funext j
  simp only [store]
  rw [memcpy_apply, memcpy_apply]
  by_cases h0 : j = 0
  · subst h0
    simp
  · have h1 : 1 ≤ j := by omega
    obtain ⟨k, rfl⟩ : ∃ k, j = k + 1 := ⟨j - 1, by omega⟩
    have h2 : (k + 1 < 1 + l.length) = (k < l.length) := by
      apply propext; constructor <;> intro h <;> omega
    simp [h2]

theorem ack_frame_memcpy (frame e : buffer) :
    esp_ieee802154_create_2015_ack_frame frame e
      = memcpy e 0 (((1 + (ack_body frame).length + 2) % 256) :: ack_body frame) := by
  rw [ack_frame_eq, store_memcpy_zero]

theorem bytes_from_length (m : buffer) (off n : Nat) : (bytes_from m off n).length = n := by
  simp [bytes_from]

theorem ack_seq_field_length (frame : buffer) :
    (ack_seq_field frame).length
      = if (fcf_at frame 1).sequence_number_suppression = 0 then 1 else 0 := by
  unfold ack_seq_field
  split_ifs <;> rfl

theorem ack_addr_fields_length (frame : buffer) (p : Nat) :
    (ack_addr_fields frame p).length
      = (if (fcf_at frame 1).pan_id_compression ≠ 0 then 2 else 4)
        + ack_addr_len (fcf_at frame 1).src_addr_mode
        + ack_addr_len (fcf_at frame 1).dst_addr_mode := by
  unfold ack_addr_fields
  split_ifs
  · simp only [List.length_append, bytes_from_length]
  · simp only [List.length_append, bytes_from_length]
    omega

theorem ack_body_length (frame : buffer) :
    (ack_body frame).length = ack_bytes_written (fcf_at frame 1) := by
  simp only [ack_body, List.length_append, ack_seq_field_length, ack_addr_fields_length,
    ack_bytes_written, fcf_bytes, List.length_cons, List.length_nil]
  omega

theorem ack_addr_len_le (mode : Nat) : ack_addr_len mode ≤ 8 ∧ 2 ≤ ack_addr_len mode := by
  unfold ack_addr_len
  split_ifs <;> omega

theorem ack_bytes_written_le (fcf : ieee802154_fcf_t) :
    8 ≤ ack_bytes_written fcf ∧ ack_bytes_written fcf ≤ 23 := by
  have h1 := ack_addr_len_le fcf.src_addr_mode
  have h2 := ack_addr_len_le fcf.dst_addr_mode
  unfold ack_bytes_written
  split_ifs <;> omega

theorem ack_fcf_of_fits (frame : buffer) : fcf_fits (ack_fcf_of (fcf_at frame 1)) := by
  simp only [fcf_fits, ack_fcf_of, fcf_at, fcf_of_bytes]
  refine ⟨by decide, by omega, by omega, by omega, by omega, by omega, by omega, by omega,
    by omega, by decide, by omega⟩

theorem ack_fcf_at (frame e : buffer) :
    fcf_at (esp_ieee802154_create_2015_ack_frame frame e) 1 = ack_fcf_of (fcf_at frame 1) := by
  have e1 : fcf_at (esp_ieee802154_create_2015_ack_frame frame e) 1
      = fcf_of_bytes ((fcf_bytes (ack_fcf_of (fcf_at frame 1))).getD 0 0)
          ((fcf_bytes (ack_fcf_of (fcf_at frame 1))).getD 1 0) := by
    rw [ack_frame_memcpy]
    simp [fcf_at, ack_body, fcf_bytes, memcpy_apply]
  rw [e1, fcf_of_bytes_fcf_bytes _ (ack_fcf_of_fits frame)]

theorem ack_fields_start_eq (frame : buffer) :
    3 + (ack_seq_field frame).length = ack_fields_start (fcf_at frame 1) := by
  rw [ack_seq_field_length, ack_fields_start]
  split_ifs <;> rfl

theorem ack_addr_len_eq (mode : Nat) (h : mode = ADDR_MODE_SHORT ∨ mode = ADDR_MODE_LONG) :
    ack_addr_len mode = addr_len mode := by
  rcases h with h | h <;> simp [h, ack_addr_len, addr_len]

theorem ack_seq_at (frame e : buffer) :
    bytes_from (esp_ieee802154_create_2015_ack_frame frame e) 3 (ack_seq_field frame).length
      = ack_seq_field frame := by
  rw [ack_frame_memcpy]
  have h := bytes_from_memcpy e
    (((1 + (ack_body frame).length + 2) % 256) :: fcf_bytes (ack_fcf_of (fcf_at frame 1)))
    (ack_seq_field frame) (ack_addr_fields frame (3 + (ack_seq_field frame).length))
    3 (ack_seq_field frame).length rfl rfl
  simp only [List.append_assoc, List.cons_append] at h
  simp only [ack_body, List.append_assoc]
  exact h

theorem ack_block_at (frame e : buffer) (X B Y : List Nat)
    (h : ack_addr_fields frame (ack_fields_start (fcf_at frame 1)) = X ++ B ++ Y) :
    bytes_from (esp_ieee802154_create_2015_ack_frame frame e)
      (ack_fields_start (fcf_at frame 1) + X.length) B.length = B := by
  rw [ack_frame_memcpy]
  generalize (1 + (ack_body frame).length + 2) % 256 = len
  have hb : ack_body frame
      = fcf_bytes (ack_fcf_of (fcf_at frame 1)) ++ ack_seq_field frame ++ (X ++ B ++ Y) := by
    rw [ack_body, ack_fields_start_eq, h]
  have e1 := bytes_from_memcpy e
    (len :: (fcf_bytes (ack_fcf_of (fcf_at frame 1)) ++ ack_seq_field frame ++ X)) B Y
    (ack_fields_start (fcf_at frame 1) + X.length) B.length
    (by rw [← ack_fields_start_eq]
        simp only [List.length_cons, List.length_append, fcf_bytes, List.length_nil]
        omega) rfl
  rw [hb]
  simp only [List.append_assoc, List.cons_append] at e1 ⊢
  exact e1

theorem ack_length_byte (frame e : buffer) :
    esp_ieee802154_create_2015_ack_frame frame e 0
      = ack_bytes_written (fcf_at frame 1) + 3 := by
  rw [ack_frame_memcpy, memcpy_apply, if_pos (by simp), ack_body_length]
  have h := ack_bytes_written_le (fcf_at frame 1)
  simp only [Nat.sub_self, List.getD_cons_zero]
  omega

theorem bytes_from_congr (f1 f2 : buffer) (off n : Nat)
    (h : ∀ i, off ≤ i → i < off + n → f1 i = f2 i) :
    bytes_from f1 off n = bytes_from f2 off n := by
  unfold bytes_from
  apply List.map_congr_left
  intro i hi
  rw [List.mem_range] at hi
  exact h (off + i) (by omega) (by omega)

theorem ack_body_congr (f1 f2 : buffer)
    (h : ∀ i, 1 ≤ i → i ≤ ack_bytes_written (fcf_at f1 1) → f1 i = f2 i) :
    ack_body f1 = ack_body f2 := by
  have hb := ack_bytes_written_le (fcf_at f1 1)
  have hf : fcf_at f2 1 = fcf_at f1 1 := by
    unfold fcf_at
    rw [h 1 (by omega) (by omega), h (1 + 1) (by omega) (by omega)]
  have hq : (ack_seq_field f1).length
      = if (fcf_at f1 1).sequence_number_suppression = 0 then 1 else 0 :=
    ack_seq_field_length f1
  have hs : ack_seq_field f1 = ack_seq_field f2 := by
    unfold ack_seq_field
    rw [hf]
    split_ifs with h0
    · rw [h 3 (by omega) (by omega)]
    · rfl
  have key : ∀ off n, 1 ≤ off → off + n ≤ ack_bytes_written (fcf_at f1 1) + 1 →
      bytes_from f1 off n = bytes_from f2 off n := by
    intro off n h1 h2
    exact bytes_from_congr f1 f2 off n (fun i hi1 hi2 => h i (by omega) (by omega))
  have hl := ack_addr_len_le (fcf_at f1 1).src_addr_mode
  have hl2 := ack_addr_len_le (fcf_at f1 1).dst_addr_mode
  unfold ack_body
  rw [← hs, hf]
  congr 1
  unfold ack_addr_fields
  rw [hf]
  unfold ack_bytes_written at key
  rw [hq]
  by_cases hp : (fcf_at f1 1).pan_id_compression ≠ 0
  · rw [if_pos hp] at key
    rw [if_pos hp, if_pos hp]
    rw [key _ 2 (by omega) (by split_ifs <;> omega),
      key _ (ack_addr_len (fcf_at f1 1).src_addr_mode) (by omega) (by split_ifs <;> omega),
      key _ (ack_addr_len (fcf_at f1 1).dst_addr_mode) (by omega) (by split_ifs <;> omega)]
  · rw [if_neg hp] at key
    rw [if_neg hp, if_neg hp]
    rw [key _ (2 + ack_addr_len (fcf_at f1 1).src_addr_mode) (by omega)
        (by split_ifs <;> omega),
      key _ (2 + ack_addr_len (fcf_at f1 1).dst_addr_mode) (by omega)
        (by split_ifs <;> omega)]

theorem ack_bytes_written_le_prefix (fcf : ieee802154_fcf_t)
    (hd : fcf.dst_addr_mode = ADDR_MODE_SHORT ∨ fcf.dst_addr_mode = ADDR_MODE_LONG)
    (hs : fcf.src_addr_mode = ADDR_MODE_SHORT ∨ fcf.src_addr_mode = ADDR_MODE_LONG) :
    ack_bytes_written fcf ≤ header_prefix_length fcf := by
  unfold ack_bytes_written header_prefix_length
  rw [ack_addr_len_eq _ hd, ack_addr_len_eq _ hs]
  have hn : fcf.dst_addr_mode ≠ ADDR_MODE_NONE := by rcases hd with hd | hd <;> simp [hd]
  rw [if_neg hn]
  split_ifs <;> omega

theorem uint16_join (x : Nat) : x % 256 + 256 * (x / 256 % 256) = x % 65536 := by omega

theorem uint16_hi (x : Nat) : x % 65536 / 256 = x / 256 % 256 := by omega

theorem uint16_lo (x : Nat) : x % 65536 % 256 = x % 256 := by omega

set_option maxHeartbeats 4000000 in
theorem print_packet_encoded_2015 (dp : Nat) (da : ieee802154_address_t) (sp : Nat)
    (sa : ieee802154_address_t) (seq_nr : Option Nat) (ack : Bool) (len : Nat) (h : buffer)
    (hd : da.mode = ADDR_MODE_SHORT ∨ da.mode = ADDR_MODE_LONG)
    (hs : sa.mode = ADDR_MODE_SHORT ∨ sa.mode = ADDR_MODE_LONG) :
    esp_ieee802154_print_packet (with_length len
        (esp_ieee802154_create_2015_data_header dp da sp sa seq_nr ack h).header)
      = printed_flags_2015 dp da sp sa seq_nr ack ++ [printed_seq seq_nr]
        ++ printed_addressing dp da sp sa
        ++ printed_payload (with_length len
            (esp_ieee802154_create_2015_data_header dp da sp sa seq_nr ack h).header)
            (1 + data_header_length seq_nr.isSome dp da sp sa) := by
  rw [create_2015_eq]
  rcases hd with hd | hd <;> rcases hs with hs | hs <;> by_cases hp : dp = sp <;>
    cases ack <;> cases seq_nr <;>
    simp [esp_ieee802154_print_packet, header_2015_bytes, data_fcf, dst_field, src_field,
      src_pan_field, hd, hs, hp, uint16_bytes, fcf_bytes, long_address_bytes, fcf_at,
      fcf_of_bytes, with_length, memcpy, store, print_fcf,
      esp_ieee802154_print_address_information, print_source_information, read_uint16,
      read_long_address, List.range, List.range.loop, frame_type_to_string,
      addr_mode_to_string, frame_version_to_string, printed_flags_2015, printed_seq,
      printed_addressing, printed_payload, data_header_length, uint16_join, uint16_hi,
      uint16_lo]

set_option maxHeartbeats 4000000 in
theorem print_packet_encoded_2003 (dp : Nat) (da : ieee802154_address_t) (sp : Nat)
    (sa : ieee802154_address_t) (seq : Nat) (ack : Bool) (len : Nat) (h : buffer)
    (hd : da.mode = ADDR_MODE_SHORT ∨ da.mode = ADDR_MODE_LONG)
    (hs : sa.mode = ADDR_MODE_SHORT ∨ sa.mode = ADDR_MODE_LONG) :
    esp_ieee802154_print_packet (with_length len
        (esp_ieee802154_create_2003_data_header dp da sp sa (some seq) ack h).header)
      = printed_flags_2003 dp da sp sa ack ++ [printed_seq (some seq)]
        ++ printed_addressing dp da sp sa
        ++ printed_payload (with_length len
            (esp_ieee802154_create_2003_data_header dp da sp sa (some seq) ack h).header)
            (1 + data_header_length true dp da sp sa) := by
  rw [create_2003_eq]
  rcases hd with hd | hd <;> rcases hs with hs | hs <;> by_cases hp : dp = sp <;>
    cases ack <;>
    simp [esp_ieee802154_print_packet, header_2003_bytes, data_fcf, dst_field, src_field,
      src_pan_field, hd, hs, hp, uint16_bytes, fcf_bytes, long_address_bytes, fcf_at,
      fcf_of_bytes, with_length, memcpy, store, print_fcf,
      esp_ieee802154_print_address_information, print_source_information, read_uint16,
      read_long_address, List.range, List.range.loop, frame_type_to_string,
      addr_mode_to_string, frame_version_to_string, printed_flags_2003, printed_seq,
      printed_addressing, printed_payload, data_header_length, uint16_join, uint16_hi,
      uint16_lo]

/-! ## Decoder, acknowledgment and send lemmas -/

theorem bytes_from_add (m : buffer) (p a b : Nat) :
    bytes_from m p (a + b) = bytes_from m p a ++ bytes_from m (p + a) b := by
  simp only [bytes_from, List.range_add, List.map_append, List.map_map]
  congr 1
  apply List.map_congr_left
  intro i _
  simp [Function.comp, Nat.add_assoc]

theorem dumped_bytes_loop (buf : buffer) (n : Nat) (hn : n < 256) :
    ∀ (fuel line offset : Nat), offset ≤ n → n - offset ≤ fuel →
      dumped_bytes (esp_ieee802154_data_hexdump_loop buf n fuel line offset)
        = bytes_from buf offset (n - offset) := by
  intro fuel
  induction fuel with
  | zero =>
    intro line offset h1 h2
    have h0 : n - offset = 0 := by omega
    rw [h0]
    rfl
  | succ fuel ih =>
    intro line offset h1 h2
    unfold esp_ieee802154_data_hexdump_loop
    by_cases hlt : offset < n
    · rw [if_pos hlt]
      simp only [dumped_bytes]
      by_cases h12 : n - offset < BYTES_PER_LINE
      · rw [if_pos h12]
        have e1 : (offset + (n - offset)) % 256 = n := by
          rw [Nat.mod_eq_of_lt (by omega)]; omega
        rw [e1, ih _ n (le_refl n) (by omega)]
        simp [bytes_from]
      · rw [if_neg h12]
        have h12' : 12 ≤ n - offset := by
          simp only [BYTES_PER_LINE] at h12; omega
        have e1 : (offset + BYTES_PER_LINE) % 256 = offset + 12 := by
          simp only [BYTES_PER_LINE]
          rw [Nat.mod_eq_of_lt (by omega)]
        rw [e1, ih _ (offset + 12) (by omega) (by omega)]
        have e2 : n - offset = 12 + (n - (offset + 12)) := by omega
        rw [e2, bytes_from_add]
    · rw [if_neg hlt]
      have h0 : n - offset = 0 := by omega
      rw [h0]
      rfl

theorem dumped_bytes_hexdump (buf : buffer) (n : Nat) (hn : n < 256) :
    dumped_bytes (esp_ieee802154_data_hexdump buf n) = bytes_from buf 0 n := by
  unfold esp_ieee802154_data_hexdump
  rw [dumped_bytes_loop buf n hn n 0 0 (Nat.zero_le n) (by omega)]
  rfl

theorem address_information_lt (packet : buffer) (p : Nat) (hp : p < 256) :
    (esp_ieee802154_print_address_information packet p).2 < 256 := by
  unfold esp_ieee802154_print_address_information print_source_information
  simp only
  split_ifs <;> simp only <;> omega

theorem print_packet_data (packet : buffer)
    (hsec : (fcf_at packet 1).secure = 0)
    (hie : (fcf_at packet 1).information_elements_present = 0)
    (ht : (fcf_at packet 1).frame_type = FRAME_TYPE_DATA) :
    esp_ieee802154_print_packet packet
      = header_lines packet ++ printed_payload packet (header_end packet) := by
  have hc : ¬ ((fcf_at packet 1).secure ≠ 0 ∨
      (fcf_at packet 1).information_elements_present ≠ 0) := by
    rw [hsec, hie]; decide
  unfold esp_ieee802154_print_packet
  simp only [if_neg hc, if_pos ht, header_lines, preamble_lines, printed_payload, header_end,
    walk_start]
  split_ifs <;> simp

theorem print_packet_ack_2015 (packet : buffer)
    (hsec : (fcf_at packet 1).secure = 0)
    (hie : (fcf_at packet 1).information_elements_present = 0)
    (ht : (fcf_at packet 1).frame_type = FRAME_TYPE_ACK)
    (hv : (fcf_at packet 1).frame_ver = FRAME_VERSION_STD_2015) :
    esp_ieee802154_print_packet packet
      = header_lines packet
        ++ (if (payload_extent (packet 0 % 256) (header_end packet)).1 > 0 then
              [log_line.ack_contains_data,
                log_line.data_length (payload_extent (packet 0 % 256) (header_end packet)).1]
              ++ esp_ieee802154_data_hexdump (fun i => packet (header_end packet + i))
                  (payload_extent (packet 0 % 256) (header_end packet)).1
            else [log_line.ack_contains_no_data])
        ++ print_transmission_info packet
            (payload_extent (packet 0 % 256) (header_end packet)).2 := by
  have hc : ¬ ((fcf_at packet 1).secure ≠ 0 ∨
      (fcf_at packet 1).information_elements_present ≠ 0) := by
    rw [hsec, hie]; decide
  have hd : (fcf_at packet 1).frame_type ≠ FRAME_TYPE_DATA := by rw [ht]; decide
  unfold esp_ieee802154_print_packet
  simp only [if_neg hc, if_neg hd, if_pos ht, if_pos hv, header_lines, preamble_lines, header_end,
    walk_start, hv, and_true]
  split_ifs <;> simp

theorem payload_extent_length (len p : Nat) (h : p + 2 ≤ len) (hl : len < 256) :
    (payload_extent len p).1 = len - p - 2 := by
  simp only [payload_extent]
  omega

theorem payload_extent_wrapped (len p : Nat) (h : len < p + 2) (hp : p ≤ 254) :
    (payload_extent len p).1 = len + 256 - p - 2 := by
  simp only [payload_extent]
  omega

theorem payload_extent_position (len p : Nat) (hl : len < 256) (hp : p < 256) :
    (payload_extent len p).2 = (len + 255) % 256 := by
  simp only [payload_extent]
  omega

theorem fcf_at_modes_lt (packet : buffer) :
    (fcf_at packet 1).dst_addr_mode < 4 ∧ (fcf_at packet 1).src_addr_mode < 4 := by
  simp only [fcf_at, fcf_of_bytes]
  omega

theorem walk_start_cases (fcf : ieee802154_fcf_t) : walk_start fcf = 3 ∨ walk_start fcf = 4 := by
  unfold walk_start
  split_ifs
  · exact Or.inl rfl
  · exact Or.inr rfl

theorem address_information_eq (packet : buffer)
    (hd : (fcf_at packet 1).dst_addr_mode = ADDR_MODE_SHORT ∨
      (fcf_at packet 1).dst_addr_mode = ADDR_MODE_LONG) :
    esp_ieee802154_print_address_information packet (walk_start (fcf_at packet 1))
      = (dst_lines packet (walk_start (fcf_at packet 1))
          ++ [src_pan_line packet (after_dst_address packet),
              src_addr_line packet
                (after_dst_address packet + src_pan_length (fcf_at packet 1))],
          after_dst_address packet + src_pan_length (fcf_at packet 1)
            + addr_len (fcf_at packet 1).src_addr_mode) := by
  have hm := (fcf_at_modes_lt packet).2
  have hs : addr_len (fcf_at packet 1).src_addr_mode
      = if (fcf_at packet 1).src_addr_mode = ADDR_MODE_SHORT then 2
        else if (fcf_at packet 1).src_addr_mode = ADDR_MODE_LONG then 8 else 0 := by
    unfold addr_len
    rw [Nat.mod_eq_of_lt hm]
  rw [hs]
  unfold after_dst_address
  rcases walk_start_cases (fcf_at packet 1) with hw | hw <;> rw [hw] <;>
    rcases hd with hd | hd <;>
    by_cases hp : (fcf_at packet 1).pan_id_compression = 0 <;>
    by_cases h2 : (fcf_at packet 1).src_addr_mode = 2 <;>
    by_cases h3 : (fcf_at packet 1).src_addr_mode = 3 <;>
    simp [esp_ieee802154_print_address_information, print_source_information, dst_lines,
      src_pan_line, src_addr_line, src_pan_length, addr_len, hw, hd, hp, h2, h3]

theorem addr_len_le (mode : Nat) : addr_len mode ≤ 8 := by
  unfold addr_len
  split_ifs <;> omega

theorem header_end_eq (packet : buffer)
    (hd : (fcf_at packet 1).dst_addr_mode = ADDR_MODE_SHORT ∨
      (fcf_at packet 1).dst_addr_mode = ADDR_MODE_LONG) :
    header_end packet
      = after_dst_address packet + src_pan_length (fcf_at packet 1)
        + addr_len (fcf_at packet 1).src_addr_mode := by
  unfold header_end
  rw [address_information_eq packet hd]

theorem header_end_le (packet : buffer) : header_end packet ≤ 24 := by
  have hw := walk_start_cases (fcf_at packet 1)
  by_cases hd : (fcf_at packet 1).dst_addr_mode = ADDR_MODE_SHORT ∨
      (fcf_at packet 1).dst_addr_mode = ADDR_MODE_LONG
  · rw [header_end_eq packet hd]
    have h1 := addr_len_le (fcf_at packet 1).dst_addr_mode
    have h2 := addr_len_le (fcf_at packet 1).src_addr_mode
    unfold after_dst_address src_pan_length
    split_ifs <;> omega
  · have h2 : ¬ (fcf_at packet 1).dst_addr_mode = ADDR_MODE_SHORT := fun h => hd (Or.inl h)
    have h3 : ¬ (fcf_at packet 1).dst_addr_mode = ADDR_MODE_LONG := fun h => hd (Or.inr h)
    unfold header_end esp_ieee802154_print_address_information
    simp only [if_neg hd, if_neg h2, if_neg h3]
    omega

theorem print_packet_data_lines (packet : buffer)
    (hsec : (fcf_at packet 1).secure = 0)
    (hie : (fcf_at packet 1).information_elements_present = 0)
    (ht : (fcf_at packet 1).frame_type = FRAME_TYPE_DATA) :
    esp_ieee802154_print_packet packet
      = header_lines packet
        ++ [log_line.data_length (payload_extent (packet 0 % 256) (header_end packet)).1]
        ++ esp_ieee802154_data_hexdump (fun i => packet (header_end packet + i))
            (payload_extent (packet 0 % 256) (header_end packet)).1
        ++ [log_line.transmission_heading,
            log_line.rssi (int8_of
              (packet (payload_extent (packet 0 % 256) (header_end packet)).2)),
            log_line.lqi (packet ((payload_extent (packet 0 % 256) (header_end packet)).2 + 1)),
            log_line.rule] := by
  rw [print_packet_data packet hsec hie ht]
  simp only [printed_payload, print_transmission_info, List.append_assoc]

theorem header_lines_eq (packet : buffer)
    (hd : (fcf_at packet 1).dst_addr_mode = ADDR_MODE_SHORT ∨
      (fcf_at packet 1).dst_addr_mode = ADDR_MODE_LONG) :
    header_lines packet
      = preamble_lines packet ++ dst_lines packet (walk_start (fcf_at packet 1))
        ++ [src_pan_line packet (after_dst_address packet),
            src_addr_line packet
              (after_dst_address packet + src_pan_length (fcf_at packet 1))] := by
  unfold header_lines
  rw [address_information_eq packet hd, List.append_assoc]

theorem bytes_from_pointwise (m1 m2 : buffer) (o1 o2 n : Nat)
    (h : bytes_from m1 o1 n = bytes_from m2 o2 n) (i : Nat) (hi : i < n) :
    m1 (o1 + i) = m2 (o2 + i) := by
  unfold bytes_from at h
  exact (List.map_inj_left.mp h) i (List.mem_range.mpr hi)

theorem ack_seq_copied (frame e : buffer) (h0 : (fcf_at frame 1).sequence_number_suppression = 0) :
    esp_ieee802154_create_2015_ack_frame frame e 3 = frame 3 := by
  have e1 := ack_seq_at frame e
  simp only [ack_seq_field, h0, if_true, List.length_cons, List.length_nil, bytes_from,
    List.range, List.range.loop, List.map, Nat.add_zero, List.cons.injEq, and_true] at e1
  simpa using e1

theorem ack_apply_compressed (frame e : buffer) (hp : (fcf_at frame 1).pan_id_compression ≠ 0) :
    (∀ j, ack_fields_start (fcf_at frame 1) ≤ j → j < ack_fields_start (fcf_at frame 1) + 2 → esp_ieee802154_create_2015_ack_frame frame e j = frame j) ∧
    (∀ j, ack_fields_start (fcf_at frame 1) + 2 ≤ j → j < ack_fields_start (fcf_at frame 1) + 2 + ack_addr_len (fcf_at frame 1).src_addr_mode → esp_ieee802154_create_2015_ack_frame frame e j = frame (j + ack_addr_len (fcf_at frame 1).dst_addr_mode)) ∧
    (∀ j, ack_fields_start (fcf_at frame 1) + 2 + ack_addr_len (fcf_at frame 1).src_addr_mode ≤ j → j < ack_fields_start (fcf_at frame 1) + 2 + ack_addr_len (fcf_at frame 1).src_addr_mode + ack_addr_len (fcf_at frame 1).dst_addr_mode →
      esp_ieee802154_create_2015_ack_frame frame e j = frame (j - ack_addr_len (fcf_at frame 1).src_addr_mode)) := by
  have hf : ack_addr_fields frame (ack_fields_start (fcf_at frame 1))
      = bytes_from frame (ack_fields_start (fcf_at frame 1)) 2
        ++ bytes_from frame (ack_fields_start (fcf_at frame 1) + 2 + ack_addr_len (fcf_at frame 1).dst_addr_mode) (ack_addr_len (fcf_at frame 1).src_addr_mode)
        ++ bytes_from frame (ack_fields_start (fcf_at frame 1) + 2) (ack_addr_len (fcf_at frame 1).dst_addr_mode) := by
    unfold ack_addr_fields
    rw [if_pos hp]
  have b1 := ack_block_at frame e [] (bytes_from frame (ack_fields_start (fcf_at frame 1)) 2)
    (bytes_from frame (ack_fields_start (fcf_at frame 1) + 2 + ack_addr_len (fcf_at frame 1).dst_addr_mode) (ack_addr_len (fcf_at frame 1).src_addr_mode) ++ bytes_from frame (ack_fields_start (fcf_at frame 1) + 2) (ack_addr_len (fcf_at frame 1).dst_addr_mode))
    (by rw [hf]; simp)
  have b2 := ack_block_at frame e (bytes_from frame (ack_fields_start (fcf_at frame 1)) 2)
    (bytes_from frame (ack_fields_start (fcf_at frame 1) + 2 + ack_addr_len (fcf_at frame 1).dst_addr_mode) (ack_addr_len (fcf_at frame 1).src_addr_mode)) (bytes_from frame (ack_fields_start (fcf_at frame 1) + 2) (ack_addr_len (fcf_at frame 1).dst_addr_mode)) hf
  have b3 := ack_block_at frame e
    (bytes_from frame (ack_fields_start (fcf_at frame 1)) 2 ++ bytes_from frame (ack_fields_start (fcf_at frame 1) + 2 + ack_addr_len (fcf_at frame 1).dst_addr_mode) (ack_addr_len (fcf_at frame 1).src_addr_mode))
    (bytes_from frame (ack_fields_start (fcf_at frame 1) + 2) (ack_addr_len (fcf_at frame 1).dst_addr_mode)) [] (by rw [hf]; simp)
  simp only [List.length_nil, List.length_append, bytes_from_length, Nat.add_zero] at b1 b2 b3
  refine ⟨?_, ?_, ?_⟩
  · intro j h1 h2
    have := bytes_from_pointwise _ _ _ _ _ b1 (j - ack_fields_start (fcf_at frame 1)) (by omega)
    have e1 : ack_fields_start (fcf_at frame 1) + (j - ack_fields_start (fcf_at frame 1)) = j := by omega
    rw [e1] at this
    exact this
  · intro j h1 h2
    have := bytes_from_pointwise _ _ _ _ _ b2 (j - (ack_fields_start (fcf_at frame 1) + 2)) (by omega)
    have e1 : ack_fields_start (fcf_at frame 1) + 2 + (j - (ack_fields_start (fcf_at frame 1) + 2)) = j := by omega
    have e2 : ack_fields_start (fcf_at frame 1) + 2 + ack_addr_len (fcf_at frame 1).dst_addr_mode + (j - (ack_fields_start (fcf_at frame 1) + 2)) = j + ack_addr_len (fcf_at frame 1).dst_addr_mode := by omega
    rw [e1, e2] at this
    exact this
  · intro j h1 h2
    have := bytes_from_pointwise _ _ _ _ _ b3 (j - (ack_fields_start (fcf_at frame 1) + (2 + ack_addr_len (fcf_at frame 1).src_addr_mode))) (by omega)
    have e1 : ack_fields_start (fcf_at frame 1) + (2 + ack_addr_len (fcf_at frame 1).src_addr_mode) + (j - (ack_fields_start (fcf_at frame 1) + (2 + ack_addr_len (fcf_at frame 1).src_addr_mode))) = j := by omega
    have e2 : ack_fields_start (fcf_at frame 1) + 2 + (j - (ack_fields_start (fcf_at frame 1) + (2 + ack_addr_len (fcf_at frame 1).src_addr_mode))) = j - ack_addr_len (fcf_at frame 1).src_addr_mode := by omega
    rw [e1, e2] at this
    exact this

theorem ack_apply_uncompressed (frame e : buffer) (hp : (fcf_at frame 1).pan_id_compression = 0) :
    (∀ j, ack_fields_start (fcf_at frame 1) ≤ j → j < ack_fields_start (fcf_at frame 1) + 2 + ack_addr_len (fcf_at frame 1).src_addr_mode → esp_ieee802154_create_2015_ack_frame frame e j = frame (j + 2 + ack_addr_len (fcf_at frame 1).dst_addr_mode)) ∧
    (∀ j, ack_fields_start (fcf_at frame 1) + 2 + ack_addr_len (fcf_at frame 1).src_addr_mode ≤ j → j < ack_fields_start (fcf_at frame 1) + 2 + ack_addr_len (fcf_at frame 1).src_addr_mode + 2 + ack_addr_len (fcf_at frame 1).dst_addr_mode →
      esp_ieee802154_create_2015_ack_frame frame e j = frame (j - 2 - ack_addr_len (fcf_at frame 1).src_addr_mode)) := by
  have hf : ack_addr_fields frame (ack_fields_start (fcf_at frame 1))
      = bytes_from frame (ack_fields_start (fcf_at frame 1) + 2 + ack_addr_len (fcf_at frame 1).dst_addr_mode) (2 + ack_addr_len (fcf_at frame 1).src_addr_mode) ++ bytes_from frame (ack_fields_start (fcf_at frame 1)) (2 + ack_addr_len (fcf_at frame 1).dst_addr_mode) := by
    unfold ack_addr_fields
    rw [if_neg (by rw [hp]; decide)]
  have b1 := ack_block_at frame e [] (bytes_from frame (ack_fields_start (fcf_at frame 1) + 2 + ack_addr_len (fcf_at frame 1).dst_addr_mode) (2 + ack_addr_len (fcf_at frame 1).src_addr_mode))
    (bytes_from frame (ack_fields_start (fcf_at frame 1)) (2 + ack_addr_len (fcf_at frame 1).dst_addr_mode)) (by rw [hf]; simp)
  have b2 := ack_block_at frame e (bytes_from frame (ack_fields_start (fcf_at frame 1) + 2 + ack_addr_len (fcf_at frame 1).dst_addr_mode) (2 + ack_addr_len (fcf_at frame 1).src_addr_mode))
    (bytes_from frame (ack_fields_start (fcf_at frame 1)) (2 + ack_addr_len (fcf_at frame 1).dst_addr_mode)) [] (by rw [hf]; simp)
  simp only [List.length_nil, bytes_from_length, Nat.add_zero] at b1 b2
  refine ⟨?_, ?_⟩
  · intro j h1 h2
    have := bytes_from_pointwise _ _ _ _ _ b1 (j - ack_fields_start (fcf_at frame 1)) (by omega)
    have e1 : ack_fields_start (fcf_at frame 1) + (j - ack_fields_start (fcf_at frame 1)) = j := by omega
    have e2 : ack_fields_start (fcf_at frame 1) + 2 + ack_addr_len (fcf_at frame 1).dst_addr_mode + (j - ack_fields_start (fcf_at frame 1)) = j + 2 + ack_addr_len (fcf_at frame 1).dst_addr_mode := by omega
    rw [e1, e2] at this
    exact this
  · intro j h1 h2
    have := bytes_from_pointwise _ _ _ _ _ b2 (j - (ack_fields_start (fcf_at frame 1) + (2 + ack_addr_len (fcf_at frame 1).src_addr_mode))) (by omega)
    have e1 : ack_fields_start (fcf_at frame 1) + (2 + ack_addr_len (fcf_at frame 1).src_addr_mode) + (j - (ack_fields_start (fcf_at frame 1) + (2 + ack_addr_len (fcf_at frame 1).src_addr_mode))) = j := by omega
    have e2 : ack_fields_start (fcf_at frame 1) + (j - (ack_fields_start (fcf_at frame 1) + (2 + ack_addr_len (fcf_at frame 1).src_addr_mode))) = j - 2 - ack_addr_len (fcf_at frame 1).src_addr_mode := by omega
    rw [e1, e2] at this
    exact this

theorem store_memcpy_with_length (z v k : Nat) (m : buffer) (l : List Nat) :
    store (memcpy (with_length z m) (k + 1) l) 0 v = with_length v (memcpy m k l) := by
  funext j
  simp only [store, with_length]
  by_cases h0 : j = 0
  · simp [h0]
  · rw [if_neg h0, if_neg h0, memcpy_apply, memcpy_apply]
    obtain ⟨i, rfl⟩ : ∃ i, j = i + 1 := ⟨j - 1, by omega⟩
    have e1 : (k + 1 ≤ i + 1 ∧ i + 1 < k + 1 + l.length) = (k ≤ i ∧ i < k + l.length) := by
      apply propext; constructor <;> intro h <;> omega
    have e2 : i + 1 - (k + 1) = i - k := by omega
    simp only [e1, e2, Nat.add_sub_cancel, with_length, if_neg (Nat.succ_ne_zero i)]

theorem memcpy_swap (h : buffer) (A B : List Nat) :
    memcpy (memcpy h 0 A) A.length B = memcpy (memcpy h A.length B) 0 A := by
  funext j
  rw [memcpy_apply, memcpy_apply, memcpy_apply, memcpy_apply]
  by_cases h1 : j < A.length
  · rw [if_neg (by omega), if_pos (by omega), if_pos (by omega)]
  · rw [if_neg (by omega : ¬ (0 ≤ j ∧ j < 0 + A.length)),
      if_neg (by omega : ¬ (0 ≤ j ∧ j < 0 + A.length))]

theorem send_2015_frame (radio : radio_state) (frame : buffer) (dp : Nat)
    (da : ieee802154_address_t) (data : buffer) (n : Nat) (seq_nr : Option Nat) (ack : Bool) :
    esp_ieee802154_send_2015_l2_data_frame radio frame dp da data n seq_nr ack
      = { error_logged := false
          frame := with_length
            ((1 + (header_2015_bytes dp da radio.panid (send_src_addr radio) seq_nr ack).length
              + n + 2) % 256)
            (esp_ieee802154_create_2015_data_header dp da radio.panid (send_src_addr radio) seq_nr ack
              (memcpy (fun i => memset frame 0 127 (i + 1))
                (header_2015_bytes dp da radio.panid (send_src_addr radio) seq_nr ack).length
                (bytes_from data 0 n))).header
          transmitted := true } := by
  unfold esp_ieee802154_send_2015_l2_data_frame
  simp only [create_2015_eq]
  rw [store_memcpy_with_length, memcpy_swap]

theorem send_2003_frame (radio : radio_state) (frame : buffer) (dp : Nat)
    (da : ieee802154_address_t) (data : buffer) (n : Nat) (seq : Nat) (ack : Bool) :
    esp_ieee802154_send_2003_l2_data_frame radio frame dp da data n (some seq) ack
      = { error_logged := false
          frame := with_length
            ((1 + (header_2003_bytes dp da radio.panid (send_src_addr radio) seq ack).length
              + n + 2) % 256)
            (esp_ieee802154_create_2003_data_header dp da radio.panid (send_src_addr radio) (some seq) ack
              (memcpy (fun i => memset frame 0 127 (i + 1))
                (header_2003_bytes dp da radio.panid (send_src_addr radio) seq ack).length
                (bytes_from data 0 n))).header
          transmitted := true } := by
  unfold esp_ieee802154_send_2003_l2_data_frame
  simp only [create_2003_eq]
  rw [store_memcpy_with_length, memcpy_swap]

theorem bytes_from_with_length (len : Nat) (m : buffer) (k n : Nat) :
    bytes_from (with_length len m) (1 + k) n = bytes_from m k n := by
  unfold bytes_from
  apply List.map_congr_left
  intro i _
  have e : 1 + k + i = (k + i) + 1 := by omega
  rw [e]
  simp [with_length]

theorem payload_after_header (h0 : buffer) (hb : List Nat) (data : buffer) (n len : Nat) :
    bytes_from (with_length len (memcpy (memcpy h0 hb.length (bytes_from data 0 n)) 0 hb))
      (1 + hb.length) n = bytes_from data 0 n := by
  rw [bytes_from_with_length, ← memcpy_swap]
  have e := memcpy_append hb (bytes_from data 0 n) h0 0
  rw [Nat.zero_add] at e
  rw [e]
  have e2 := bytes_from_memcpy h0 hb (bytes_from data 0 n) [] hb.length n rfl
    (bytes_from_length data 0 n)
  rw [List.append_nil] at e2
  exact e2

theorem send_src_addr_mode (radio : radio_state) :
    (send_src_addr radio).mode = ADDR_MODE_SHORT ∨ (send_src_addr radio).mode = ADDR_MODE_LONG := by
  unfold send_src_addr
  split_ifs
  · exact Or.inr rfl
  · exact Or.inl rfl

theorem header_2015_length_modes (dp : Nat) (da : ieee802154_address_t) (sp : Nat)
    (sa : ieee802154_address_t) (seq_nr : Option Nat) (ack : Bool)
    (hd : da.mode = ADDR_MODE_SHORT ∨ da.mode = ADDR_MODE_LONG)
    (hs : sa.mode = ADDR_MODE_SHORT ∨ sa.mode = ADDR_MODE_LONG) :
    (header_2015_bytes dp da sp sa seq_nr ack).length
      = data_header_length seq_nr.isSome dp da sp sa := by
  rw [header_2015_bytes_length, src_pan_field_length]
  rcases hd with hd | hd <;> rcases hs with hs | hs <;> cases seq_nr <;>
    simp [addr_len, data_header_length, hd, hs]

theorem header_2003_length_modes (dp : Nat) (da : ieee802154_address_t) (sp : Nat)
    (sa : ieee802154_address_t) (seq : Nat) (ack : Bool)
    (hd : da.mode = ADDR_MODE_SHORT ∨ da.mode = ADDR_MODE_LONG)
    (hs : sa.mode = ADDR_MODE_SHORT ∨ sa.mode = ADDR_MODE_LONG) :
    (header_2003_bytes dp da sp sa seq ack).length
      = data_header_length true dp da sp sa := by
  rw [header_2003_bytes_length, src_pan_field_length]
  rcases hd with hd | hd <;> rcases hs with hs | hs <;>
    simp [addr_len, data_header_length, hd, hs]

theorem printed_payload_sent (fr : buffer) (hl n : Nat) (h0 : fr 0 = 1 + hl + n + 2)
    (hb : 3 + hl + n ≤ 127) :
    printed_payload fr (1 + hl)
      = [log_line.data_length n]
        ++ esp_ieee802154_data_hexdump (fun i => fr (1 + hl + i)) n
        ++ print_transmission_info fr (hl + n + 2) := by
  have e0 : fr 0 % 256 = 1 + hl + n + 2 := by rw [h0]; omega
  have e1 : (payload_extent (1 + hl + n + 2) (1 + hl)).1 = n := by
    simp only [payload_extent]; omega
  have e2 : (payload_extent (1 + hl + n + 2) (1 + hl)).2 = hl + n + 2 := by
    simp only [payload_extent]; omega
  rw [printed_payload, e0, e1, e2]

theorem create_2015_eq_header (dp : Nat) (da : ieee802154_address_t) (sp : Nat)
    (sa : ieee802154_address_t) (seq_nr : Option Nat) (ack : Bool) (h : buffer) :
    (esp_ieee802154_create_2015_data_header dp da sp sa seq_nr ack h).header
      = memcpy h 0 (header_2015_bytes dp da sp sa seq_nr ack) := by
  rw [create_2015_eq]

theorem create_2003_eq_header (dp : Nat) (da : ieee802154_address_t) (sp : Nat)
    (sa : ieee802154_address_t) (seq : Nat) (ack : Bool) (h : buffer) :
    (esp_ieee802154_create_2003_data_header dp da sp sa (some seq) ack h).header
      = memcpy h 0 (header_2003_bytes dp da sp sa seq ack) := by
  rw [create_2003_eq]

theorem send_2015_decoded (radio : radio_state) (frame : buffer) (dp : Nat)
    (da : ieee802154_address_t) (data : buffer) (n : Nat) (seq_nr : Option Nat) (ack : Bool)
    (hd : da.mode = ADDR_MODE_SHORT ∨ da.mode = ADDR_MODE_LONG)
    (hb : 3 + data_header_length seq_nr.isSome dp da radio.panid (send_src_addr radio) + n ≤ 127) :
    (esp_ieee802154_send_2015_l2_data_frame radio frame dp da data n seq_nr ack).transmitted = true ∧
    (esp_ieee802154_create_2015_data_header dp da radio.panid (send_src_addr radio) seq_nr ack
      (fun i => memset frame 0 127 (i + 1))).ending
      = call_end.returns (data_header_length seq_nr.isSome dp da radio.panid (send_src_addr radio)) ∧
    (esp_ieee802154_send_2015_l2_data_frame radio frame dp da data n seq_nr ack).frame 0 = 1 + data_header_length seq_nr.isSome dp da radio.panid (send_src_addr radio) + n + 2 ∧
    esp_ieee802154_print_packet (esp_ieee802154_send_2015_l2_data_frame radio frame dp da data n seq_nr ack).frame
      = printed_flags_2015 dp da radio.panid (send_src_addr radio) seq_nr ack
        ++ [printed_seq seq_nr]
        ++ printed_addressing dp da radio.panid (send_src_addr radio)
        ++ [log_line.data_length n]
        ++ esp_ieee802154_data_hexdump
            (fun i => (esp_ieee802154_send_2015_l2_data_frame radio frame dp da data n seq_nr ack).frame (1 + data_header_length seq_nr.isSome dp da radio.panid (send_src_addr radio) + i)) n
        ++ print_transmission_info (esp_ieee802154_send_2015_l2_data_frame radio frame dp da data n seq_nr ack).frame (data_header_length seq_nr.isSome dp da radio.panid (send_src_addr radio) + n + 2) ∧
    dumped_bytes (esp_ieee802154_data_hexdump
        (fun i => (esp_ieee802154_send_2015_l2_data_frame radio frame dp da data n seq_nr ack).frame (1 + data_header_length seq_nr.isSome dp da radio.panid (send_src_addr radio) + i)) n) = bytes_from data 0 n ∧
    bytes_from (esp_ieee802154_send_2015_l2_data_frame radio frame dp da data n seq_nr ack).frame (1 + data_header_length seq_nr.isSome dp da radio.panid (send_src_addr radio)) n = bytes_from data 0 n := by
  have hs := send_src_addr_mode radio
  have hlen := header_2015_length_modes dp da radio.panid (send_src_addr radio) seq_nr ack hd hs
  have hS := send_2015_frame radio frame dp da data n seq_nr ack
  have hmod : (1 + data_header_length seq_nr.isSome dp da radio.panid (send_src_addr radio) + n + 2) % 256 = 1 + data_header_length seq_nr.isSome dp da radio.panid (send_src_addr radio) + n + 2 := Nat.mod_eq_of_lt (by omega)
  rw [hlen, hmod] at hS
  have hpay := payload_after_header (fun i => memset frame 0 127 (i + 1))
    (header_2015_bytes dp da radio.panid (send_src_addr radio) seq_nr ack) data n
    (1 + data_header_length seq_nr.isSome dp da radio.panid (send_src_addr radio) + n + 2)
  rw [← create_2015_eq_header, hlen] at hpay
  have key := print_packet_encoded_2015 dp da radio.panid (send_src_addr radio) seq_nr ack
    (1 + data_header_length seq_nr.isSome dp da radio.panid (send_src_addr radio) + n + 2)
    (memcpy (fun i => memset frame 0 127 (i + 1)) (data_header_length seq_nr.isSome dp da radio.panid (send_src_addr radio)) (bytes_from data 0 n)) hd hs
  rw [hS]
  simp only
  generalize hfr : with_length (1 + data_header_length seq_nr.isSome dp da radio.panid (send_src_addr radio) + n + 2)
    (esp_ieee802154_create_2015_data_header dp da radio.panid (send_src_addr radio) seq_nr ack
      (memcpy (fun i => memset frame 0 127 (i + 1)) (data_header_length seq_nr.isSome dp da radio.panid (send_src_addr radio)) (bytes_from data 0 n))).header = fr
    at hpay key ⊢
  have h0 : fr 0 = 1 + data_header_length seq_nr.isSome dp da radio.panid (send_src_addr radio) + n + 2 := by
    rw [← hfr]; rfl
  rw [printed_payload_sent fr _ n h0 hb] at key
  have hdump : bytes_from (fun i => fr (1 + data_header_length seq_nr.isSome dp da radio.panid (send_src_addr radio) + i)) 0 n
      = bytes_from fr (1 + data_header_length seq_nr.isSome dp da radio.panid (send_src_addr radio)) n := by
    unfold bytes_from
    simp
  refine ⟨trivial, ?_, h0, ?_, ?_, hpay⟩
  · rw [create_2015_eq, hlen]
  · simp only [List.append_assoc] at key ⊢
    exact key
  · rw [dumped_bytes_hexdump _ n (by omega), hdump]
    exact hpay

theorem send_2003_decoded (radio : radio_state) (frame : buffer) (dp : Nat)
    (da : ieee802154_address_t) (data : buffer) (n : Nat) (seq : Nat) (ack : Bool)
    (hd : da.mode = ADDR_MODE_SHORT ∨ da.mode = ADDR_MODE_LONG)
    (hb : 3 + data_header_length true dp da radio.panid (send_src_addr radio) + n ≤ 127) :
    (esp_ieee802154_send_2003_l2_data_frame radio frame dp da data n (some seq) ack).transmitted = true ∧
    (esp_ieee802154_create_2003_data_header dp da radio.panid (send_src_addr radio) (some seq) ack
      (fun i => memset frame 0 127 (i + 1))).ending
      = call_end.returns (data_header_length true dp da radio.panid (send_src_addr radio)) ∧
    (esp_ieee802154_send_2003_l2_data_frame radio frame dp da data n (some seq) ack).frame 0 = 1 + data_header_length true dp da radio.panid (send_src_addr radio) + n + 2 ∧
    esp_ieee802154_print_packet (esp_ieee802154_send_2003_l2_data_frame radio frame dp da data n (some seq) ack).frame
      = printed_flags_2003 dp da radio.panid (send_src_addr radio) ack
        ++ [printed_seq (some seq)]
        ++ printed_addressing dp da radio.panid (send_src_addr radio)
        ++ [log_line.data_length n]
        ++ esp_ieee802154_data_hexdump
            (fun i => (esp_ieee802154_send_2003_l2_data_frame radio frame dp da data n (some seq) ack).frame (1 + data_header_length true dp da radio.panid (send_src_addr radio) + i)) n
        ++ print_transmission_info (esp_ieee802154_send_2003_l2_data_frame radio frame dp da data n (some seq) ack).frame (data_header_length true dp da radio.panid (send_src_addr radio) + n + 2) ∧
    dumped_bytes (esp_ieee802154_data_hexdump
        (fun i => (esp_ieee802154_send_2003_l2_data_frame radio frame dp da data n (some seq) ack).frame (1 + data_header_length true dp da radio.panid (send_src_addr radio) + i)) n) = bytes_from data 0 n ∧
    bytes_from (esp_ieee802154_send_2003_l2_data_frame radio frame dp da data n (some seq) ack).frame (1 + data_header_length true dp da radio.panid (send_src_addr radio)) n = bytes_from data 0 n := by
  have hs := send_src_addr_mode radio
  have hlen := header_2003_length_modes dp da radio.panid (send_src_addr radio) seq ack hd hs
  have hS := send_2003_frame radio frame dp da data n seq ack
  have hmod : (1 + data_header_length true dp da radio.panid (send_src_addr radio) + n + 2) % 256 = 1 + data_header_length true dp da radio.panid (send_src_addr radio) + n + 2 := Nat.mod_eq_of_lt (by omega)
  rw [hlen, hmod] at hS
  have hpay := payload_after_header (fun i => memset frame 0 127 (i + 1))
    (header_2003_bytes dp da radio.panid (send_src_addr radio) seq ack) data n
    (1 + data_header_length true dp da radio.panid (send_src_addr radio) + n + 2)
  rw [← create_2003_eq_header, hlen] at hpay
  have key := print_packet_encoded_2003 dp da radio.panid (send_src_addr radio) seq ack
    (1 + data_header_length true dp da radio.panid (send_src_addr radio) + n + 2)
    (memcpy (fun i => memset frame 0 127 (i + 1)) (data_header_length true dp da radio.panid (send_src_addr radio)) (bytes_from data 0 n)) hd hs
  rw [hS]
  simp only
  generalize hfr : with_length (1 + data_header_length true dp da radio.panid (send_src_addr radio) + n + 2)
    (esp_ieee802154_create_2003_data_header dp da radio.panid (send_src_addr radio) (some seq) ack
      (memcpy (fun i => memset frame 0 127 (i + 1)) (data_header_length true dp da radio.panid (send_src_addr radio)) (bytes_from data 0 n))).header = fr
    at hpay key ⊢
  have h0 : fr 0 = 1 + data_header_length true dp da radio.panid (send_src_addr radio) + n + 2 := by
    rw [← hfr]; rfl
  rw [printed_payload_sent fr _ n h0 hb] at key
  have hdump : bytes_from (fun i => fr (1 + data_header_length true dp da radio.panid (send_src_addr radio) + i)) 0 n
      = bytes_from fr (1 + data_header_length true dp da radio.panid (send_src_addr radio)) n := by
    unfold bytes_from
    simp
  refine ⟨trivial, ?_, h0, ?_, ?_, hpay⟩
  · rw [create_2003_eq, hlen]
  · simp only [List.append_assoc] at key ⊢
    exact key
  · rw [dumped_bytes_hexdump _ n (by omega), hdump]
    exact hpay

theorem memcpy_second_byte (h : buffer) (b0 b1 c1 : Nat) (T : List Nat) :
    memcpy h 0 (b0 :: c1 :: T) = store (memcpy h 0 (b0 :: b1 :: T)) 1 c1 := by
  funext j
  simp only [store, memcpy_apply, List.length_cons, Nat.zero_le, true_and, Nat.sub_zero,
    Nat.zero_add]
  rcases j with _ | _ | k
  · simp
  · simp
  · simp

theorem header_2003_bytes_cons (dp : Nat) (da : ieee802154_address_t) (sp : Nat)
    (sa : ieee802154_address_t) (seq : Nat) (ack : Bool) :
    header_2003_bytes dp da sp sa seq ack
      = (1 + 32 * (ack.toNat % 2) + 64 * ((if dp = sp then 1 else 0) % 2))
        :: (4 * (da.mode % 4) + 64 * (sa.mode % 4))
        :: ([seq] ++ uint16_bytes dp ++ dst_field da ++ src_pan_field dp sp
              ++ src_field sa) := by
  simp [header_2003_bytes, fcf_bytes, data_fcf]

theorem header_2015_bytes_cons (dp : Nat) (da : ieee802154_address_t) (sp : Nat)
    (sa : ieee802154_address_t) (seq : Nat) (ack : Bool) :
    header_2015_bytes dp da sp sa (some seq) ack
      = (1 + 32 * (ack.toNat % 2) + 64 * ((if dp = sp then 1 else 0) % 2))
        :: (4 * (da.mode % 4) + 64 * (sa.mode % 4) + 32)
        :: ([seq] ++ uint16_bytes dp ++ dst_field da ++ src_pan_field dp sp
              ++ src_field sa) := by
  simp [header_2015_bytes, fcf_bytes, data_fcf]
  omega

theorem print_packet_unsupported (packet : buffer)
    (hsec : (fcf_at packet 1).secure = 0)
    (hie : (fcf_at packet 1).information_elements_present = 0)
    (ht : (fcf_at packet 1).frame_type = FRAME_TYPE_BEACON ∨
      (fcf_at packet 1).frame_type = FRAME_TYPE_MAC_COMMAND ∨
      (fcf_at packet 1).frame_type = FRAME_TYPE_MULTIPURPOSE ∨
      (fcf_at packet 1).frame_type = FRAME_TYPE_FRAGMENT ∨
      (fcf_at packet 1).frame_type = FRAME_TYPE_EXTENDED) :
    esp_ieee802154_print_packet packet
      = [log_line.rule] ++ print_fcf (fcf_at packet 1)
        ++ (if (fcf_at packet 1).reserved ≠ 0 then [log_line.reserved_warning] else [])
        ++ [log_line.packet_heading (frame_type_to_string (fcf_at packet 1)),
            log_line.not_supported_warning,
            log_line.transmission_heading,
            log_line.rssi (int8_of (packet 3)),
            log_line.lqi (packet 4),
            log_line.rule] := by
  have hc : ¬ ((fcf_at packet 1).secure ≠ 0 ∨
      (fcf_at packet 1).information_elements_present ≠ 0) := by
    rw [hsec, hie]; decide
  have hd : (fcf_at packet 1).frame_type ≠ FRAME_TYPE_DATA := by
    rcases ht with ht | ht | ht | ht | ht <;> rw [ht] <;> decide
  have ha : (fcf_at packet 1).frame_type ≠ FRAME_TYPE_ACK := by
    rcases ht with ht | ht | ht | ht | ht <;> rw [ht] <;> decide
  unfold esp_ieee802154_print_packet
  simp only [if_neg hc, if_neg hd, if_neg ha, print_transmission_info]
  split_ifs <;> simp

theorem address_information_none (packet : buffer) (p : Nat)
    (hd : ¬ ((fcf_at packet 1).dst_addr_mode = ADDR_MODE_SHORT ∨
      (fcf_at packet 1).dst_addr_mode = ADDR_MODE_LONG)) :
    esp_ieee802154_print_address_information packet p = ([log_line.no_dst_warning], p) := by
  have h1 : ¬ (fcf_at packet 1).dst_addr_mode = ADDR_MODE_SHORT := fun h => hd (Or.inl h)
  have h2 : ¬ (fcf_at packet 1).dst_addr_mode = ADDR_MODE_LONG := fun h => hd (Or.inr h)
  simp only [esp_ieee802154_print_address_information, if_neg hd, if_neg h1, if_neg h2,
    List.nil_append]

/-! ## Theorems -/

/-- C1: for every FCF record whose members fit their bit widths, the two wire bytes are
byte 0 = frame_type (bits 0-2), secure (3), frame_pending (4), ack_request (5),
pan_id_compression (6), reserved (7) and byte 1 = sequence_number_suppression (bit 0),
information_elements_present (1), dst_addr_mode (2-3), frame_ver (4-5), src_addr_mode (6-7),
and unpacking those two bytes returns the same record. -/
theorem fcf_roundtrip (f : ieee802154_fcf_t) (h : fcf_fits f) :
    fcf_bytes f
      = [ f.frame_type + 8 * f.secure + 16 * f.frame_pending + 32 * f.ack_request
            + 64 * f.pan_id_compression + 128 * f.reserved,
          f.sequence_number_suppression + 2 * f.information_elements_present
            + 4 * f.dst_addr_mode + 16 * f.frame_ver + 64 * f.src_addr_mode ] ∧
    fcf_of_bytes ((fcf_bytes f).getD 0 0) ((fcf_bytes f).getD 1 0) = f := by
  refine ⟨?_, fcf_of_bytes_fcf_bytes f h⟩
  obtain ⟨h1, h2, h3, h4, h5, h6, h7, h8, h9, h10, h11⟩ := h
  simp only [fcf_bytes, Nat.mod_eq_of_lt h1, Nat.mod_eq_of_lt h2, Nat.mod_eq_of_lt h3,
    Nat.mod_eq_of_lt h4, Nat.mod_eq_of_lt h5, Nat.mod_eq_of_lt h6, Nat.mod_eq_of_lt h7,
    Nat.mod_eq_of_lt h8, Nat.mod_eq_of_lt h9, Nat.mod_eq_of_lt h10, Nat.mod_eq_of_lt h11]

/-- Witness of C1 at the FCF of a 2015 data frame with short addresses, ack request and
PAN-ID compression: the wire bytes are 0x61 0xA8. -/
theorem fcf_roundtrip_witness :
    fcf_fits ⟨1, 0, 0, 1, 1, 0, 0, 0, 2, 2, 2⟩ ∧
    fcf_bytes ⟨1, 0, 0, 1, 1, 0, 0, 0, 2, 2, 2⟩ = [0x61, 0xA8] ∧
    fcf_of_bytes 0x61 0xA8 = ⟨1, 0, 0, 1, 1, 0, 0, 0, 2, 2, 2⟩ :=
  ⟨by decide, (fcf_roundtrip ⟨1, 0, 0, 1, 1, 0, 0, 0, 2, 2, 2⟩ (by decide)).1,
    (fcf_roundtrip ⟨1, 0, 0, 1, 1, 0, 0, 0, 2, 2, 2⟩ (by decide)).2⟩

/-- C2: the 2015 encoder called with dst_pan = 0x0001, dst_addr = short 0x0002,
src_pan = 0x0001, src_addr = short 0x0003, seq = 7, ack = true returns 9 and leaves the nine
header bytes `61 A8 07 01 00 02 00 03 00`, whose first two bytes unpack to frame type Data,
version 2015, compression 1, suppression 0, ack request 1 and both addressing modes short. -/
theorem create_2015_example (h : buffer) :
    (esp_ieee802154_create_2015_data_header 0x0001 (short_addr 0x0002) 0x0001
        (short_addr 0x0003) (some 7) true h).ending = call_end.returns 9 ∧
    bytes_from (esp_ieee802154_create_2015_data_header 0x0001 (short_addr 0x0002) 0x0001
        (short_addr 0x0003) (some 7) true h).header 0 9
      = [0x61, 0xA8, 0x07, 0x01, 0x00, 0x02, 0x00, 0x03, 0x00] ∧
    emitted_fcf (esp_ieee802154_create_2015_data_header 0x0001 (short_addr 0x0002) 0x0001
        (short_addr 0x0003) (some 7) true h)
      = { frame_type := FRAME_TYPE_DATA
          secure := 0
          frame_pending := 0
          ack_request := 1
          pan_id_compression := 1
          reserved := 0
          sequence_number_suppression := 0
          information_elements_present := 0
          dst_addr_mode := ADDR_MODE_SHORT
          frame_ver := FRAME_VERSION_STD_2015
          src_addr_mode := ADDR_MODE_SHORT } := by
  refine ⟨?_, ?_, ?_⟩
  · rw [create_2015_eq]
    simp [header_2015_bytes, short_addr, dst_field, src_field, src_pan_field, fcf_bytes,
      uint16_bytes]
  · rw [create_2015_eq]
    have e := bytes_from_memcpy h [] (header_2015_bytes 1 (short_addr 2) 1 (short_addr 3)
      (some 7) true) [] 0 9 rfl (by
        simp [header_2015_bytes, short_addr, dst_field, src_field, src_pan_field, fcf_bytes,
          uint16_bytes])
    simp only [List.nil_append, List.append_nil] at e
    rw [e]
    simp [header_2015_bytes, short_addr, dst_field, src_field, src_pan_field, fcf_bytes,
      uint16_bytes, data_fcf]
  · rw [emitted_fcf_2015]
    simp [data_fcf, short_addr]

/-- C3: in both encoders the pan_id_compression bit of the emitted FCF is 1 exactly when
the destination PAN id equals the source PAN id, whatever the other arguments are. -/
theorem pan_id_compression_iff (dp : Nat) (da : ieee802154_address_t) (sp : Nat)
    (sa : ieee802154_address_t) (seq_nr : Option Nat) (ack : Bool) (h : buffer) :
    ((emitted_fcf (esp_ieee802154_create_2003_data_header dp da sp sa seq_nr ack h)
        ).pan_id_compression = 1 ↔ dp = sp) ∧
    ((emitted_fcf (esp_ieee802154_create_2015_data_header dp da sp sa seq_nr ack h)
        ).pan_id_compression = 1 ↔ dp = sp) := by
  rw [emitted_fcf_2003, emitted_fcf_2015]
  simp only [data_fcf]
  constructor <;> split_ifs <;> simp_all

/-- C4: for address tags in {none, short, long}, the first two header bytes written by
either encoder unpack to frame type Data, secure = frame_pending = reserved =
information_elements_present = 0, ack_request = the ack flag, the two addressing modes equal
to the two address tags, and frame version 2003 (2003 encoder) or 2015 (2015 encoder). -/
theorem encoder_fcf_fields (dp : Nat) (da : ieee802154_address_t) (sp : Nat)
    (sa : ieee802154_address_t) (seq_nr : Option Nat) (ack : Bool) (h : buffer)
    (hd : da.mode = ADDR_MODE_NONE ∨ da.mode = ADDR_MODE_SHORT ∨ da.mode = ADDR_MODE_LONG)
    (hs : sa.mode = ADDR_MODE_NONE ∨ sa.mode = ADDR_MODE_SHORT ∨ sa.mode = ADDR_MODE_LONG) :
    ((emitted_fcf (esp_ieee802154_create_2003_data_header dp da sp sa seq_nr ack h)
        ).frame_type = FRAME_TYPE_DATA ∧
      (emitted_fcf (esp_ieee802154_create_2003_data_header dp da sp sa seq_nr ack h)
        ).secure = 0 ∧
      (emitted_fcf (esp_ieee802154_create_2003_data_header dp da sp sa seq_nr ack h)
        ).frame_pending = 0 ∧
      (emitted_fcf (esp_ieee802154_create_2003_data_header dp da sp sa seq_nr ack h)
        ).reserved = 0 ∧
      (emitted_fcf (esp_ieee802154_create_2003_data_header dp da sp sa seq_nr ack h)
        ).information_elements_present = 0 ∧
      (emitted_fcf (esp_ieee802154_create_2003_data_header dp da sp sa seq_nr ack h)
        ).ack_request = ack.toNat ∧
      (emitted_fcf (esp_ieee802154_create_2003_data_header dp da sp sa seq_nr ack h)
        ).dst_addr_mode = da.mode ∧
      (emitted_fcf (esp_ieee802154_create_2003_data_header dp da sp sa seq_nr ack h)
        ).src_addr_mode = sa.mode ∧
      (emitted_fcf (esp_ieee802154_create_2003_data_header dp da sp sa seq_nr ack h)
        ).frame_ver = FRAME_VERSION_STD_2003) ∧
    ((emitted_fcf (esp_ieee802154_create_2015_data_header dp da sp sa seq_nr ack h)
        ).frame_type = FRAME_TYPE_DATA ∧
      (emitted_fcf (esp_ieee802154_create_2015_data_header dp da sp sa seq_nr ack h)
        ).secure = 0 ∧
      (emitted_fcf (esp_ieee802154_create_2015_data_header dp da sp sa seq_nr ack h)
        ).frame_pending = 0 ∧
      (emitted_fcf (esp_ieee802154_create_2015_data_header dp da sp sa seq_nr ack h)
        ).reserved = 0 ∧
      (emitted_fcf (esp_ieee802154_create_2015_data_header dp da sp sa seq_nr ack h)
        ).information_elements_present = 0 ∧
      (emitted_fcf (esp_ieee802154_create_2015_data_header dp da sp sa seq_nr ack h)
        ).ack_request = ack.toNat ∧
      (emitted_fcf (esp_ieee802154_create_2015_data_header dp da sp sa seq_nr ack h)
        ).dst_addr_mode = da.mode ∧
      (emitted_fcf (esp_ieee802154_create_2015_data_header dp da sp sa seq_nr ack h)
        ).src_addr_mode = sa.mode ∧
      (emitted_fcf (esp_ieee802154_create_2015_data_header dp da sp sa seq_nr ack h)
        ).frame_ver = FRAME_VERSION_STD_2015) := by
  rw [emitted_fcf_2003, emitted_fcf_2015]
  have e1 : da.mode % 4 = da.mode := by rcases hd with hd | hd | hd <;> simp [hd]
  have e2 : sa.mode % 4 = sa.mode := by rcases hs with hs | hs | hs <;> simp [hs]
  simp only [data_fcf, e1, e2, and_self]

/-- Witness of C4: a short destination and a long source address. -/
theorem encoder_fcf_fields_witness :
    ((short_addr 2).mode = ADDR_MODE_NONE ∨ (short_addr 2).mode = ADDR_MODE_SHORT ∨
      (short_addr 2).mode = ADDR_MODE_LONG) ∧
    ((long_addr fun _ => 9).mode = ADDR_MODE_NONE ∨
      (long_addr fun _ => 9).mode = ADDR_MODE_SHORT ∨
      (long_addr fun _ => 9).mode = ADDR_MODE_LONG) ∧
    (emitted_fcf (esp_ieee802154_create_2003_data_header 1 (short_addr 2) 5
        (long_addr fun _ => 9) (some 7) true fun _ => 0)).dst_addr_mode = ADDR_MODE_SHORT ∧
    (emitted_fcf (esp_ieee802154_create_2015_data_header 1 (short_addr 2) 5
        (long_addr fun _ => 9) (some 7) true fun _ => 0)).src_addr_mode = ADDR_MODE_LONG :=
  ⟨Or.inr (Or.inl rfl), Or.inr (Or.inr rfl),
    (encoder_fcf_fields 1 (short_addr 2) 5 (long_addr fun _ => 9) (some 7) true (fun _ => 0)
      (Or.inr (Or.inl rfl)) (Or.inr (Or.inr rfl))).1.2.2.2.2.2.2.1,
    (encoder_fcf_fields 1 (short_addr 2) 5 (long_addr fun _ => 9) (some 7) true (fun _ => 0)
      (Or.inr (Or.inl rfl)) (Or.inr (Or.inr rfl))).2.2.2.2.2.2.2.2.1⟩

/-- C5: in the 2015 encoder the sequence_number_suppression bit of the emitted FCF is 1
exactly when no sequence number is supplied; a supplied sequence number is header byte 2
and the destination PAN id occupies bytes 3 and 4; when none is supplied the destination
PAN id occupies bytes 2 and 3 and the header is one byte shorter. -/
theorem seq_suppression_2015 (dp : Nat) (da : ieee802154_address_t) (sp : Nat)
    (sa : ieee802154_address_t) (seq_nr : Option Nat) (seq : Nat) (ack : Bool) (h : buffer) :
    ((emitted_fcf (esp_ieee802154_create_2015_data_header dp da sp sa seq_nr ack h)
        ).sequence_number_suppression = 1 ↔ seq_nr = none) ∧
    (esp_ieee802154_create_2015_data_header dp da sp sa (some seq) ack h).header 2 = seq ∧
    bytes_from (esp_ieee802154_create_2015_data_header dp da sp sa (some seq) ack h).header 3 2
      = [dp % 256, dp / 256 % 256] ∧
    bytes_from (esp_ieee802154_create_2015_data_header dp da sp sa none ack h).header 2 2
      = [dp % 256, dp / 256 % 256] ∧
    (esp_ieee802154_create_2015_data_header dp da sp sa (some seq) ack h).ending
      = call_end.returns (5 + addr_len da.mode + (if dp = sp then 0 else 2) + addr_len sa.mode) ∧
    (esp_ieee802154_create_2015_data_header dp da sp sa none ack h).ending
      = call_end.returns (4 + addr_len da.mode + (if dp = sp then 0 else 2) + addr_len sa.mode) := by
  have hl : (src_pan_field dp sp).length = if dp = sp then 0 else 2 := by
    unfold src_pan_field; split_ifs <;> simp [uint16_bytes]
  refine ⟨?_, ?_, ?_, ?_, ?_, ?_⟩
  · rw [emitted_fcf_2015]
    cases seq_nr <;> simp [data_fcf]
  · rw [create_2015_eq]
    have e := bytes_from_memcpy h
      (fcf_bytes (data_fcf FRAME_VERSION_STD_2015 0 dp sp da sa ack)) [seq]
      (uint16_bytes dp ++ dst_field da ++ src_pan_field dp sp ++ src_field sa) 2 1 rfl rfl
    simp only [bytes_from, List.range, List.range.loop, List.map, Nat.add_zero,
      List.cons.injEq, and_true] at e
    simpa [header_2015_bytes, List.append_assoc] using e
  · rw [create_2015_eq]
    have e := bytes_from_memcpy h
      (fcf_bytes (data_fcf FRAME_VERSION_STD_2015 0 dp sp da sa ack) ++ [seq])
      (uint16_bytes dp) (dst_field da ++ src_pan_field dp sp ++ src_field sa) 3 2 rfl rfl
    simpa [header_2015_bytes, List.append_assoc, uint16_bytes] using e
  · rw [create_2015_eq]
    have e := bytes_from_memcpy h
      (fcf_bytes (data_fcf FRAME_VERSION_STD_2015 1 dp sp da sa ack))
      (uint16_bytes dp) (dst_field da ++ src_pan_field dp sp ++ src_field sa) 2 2 rfl rfl
    simpa [header_2015_bytes, List.append_assoc, uint16_bytes] using e
  · rw [create_2015_eq, header_2015_bytes_length, hl]
    simp only [Option.toList, List.length_cons, List.length_nil]
  · rw [create_2015_eq, header_2015_bytes_length, hl]
    simp only [Option.toList, List.length_nil]

/-- C6 (the code at the failing input): called without a sequence number, the 2003 encoder
calls `ESP_LOGE`, does not return there, writes the FCF into header bytes 0-1 and then reads
the sequence number through the `NULL` pointer; no error value reaches the caller. -/
theorem create_2003_without_seq (dp : Nat) (da : ieee802154_address_t) (sp : Nat)
    (sa : ieee802154_address_t) (ack : Bool) (h : buffer) :
    (esp_ieee802154_create_2003_data_header dp da sp sa none ack h).error_logged = true ∧
    (esp_ieee802154_create_2003_data_header dp da sp sa none ack h).ending = call_end.null_read ∧
    bytes_from (esp_ieee802154_create_2003_data_header dp da sp sa none ack h).header 0 2
      = fcf_bytes (data_fcf FRAME_VERSION_STD_2003 0 dp sp da sa ack) := by
  rw [create_2003_null]
  refine ⟨rfl, rfl, ?_⟩
  have e := bytes_from_memcpy h []
    (fcf_bytes (data_fcf FRAME_VERSION_STD_2003 0 dp sp da sa ack)) [] 0 2 rfl rfl
  simpa using e

/-- C7: for every eight bytes b0..b7 and either encoder, a long destination address is
written into the destination address field as b7..b0, and the same bytes given as a long
source address are written into the source address field as b0..b7. -/
theorem long_address_asymmetry (b : Fin 8 → Nat) (x dp sp : Nat) (oa : ieee802154_address_t)
    (seq : Nat) (seq_nr : Option Nat) (ack : Bool) (h : buffer) :
    bytes_from (esp_ieee802154_create_2003_data_header dp ⟨ADDR_MODE_LONG, x, b⟩ sp oa (some seq) ack h).header 5 8
      = [b 7, b 6, b 5, b 4, b 3, b 2, b 1, b 0] ∧
    bytes_from (esp_ieee802154_create_2015_data_header dp ⟨ADDR_MODE_LONG, x, b⟩ sp oa seq_nr ack h).header
        (2 + seq_nr.toList.length + 2) 8
      = [b 7, b 6, b 5, b 4, b 3, b 2, b 1, b 0] ∧
    bytes_from (esp_ieee802154_create_2003_data_header dp oa sp ⟨ADDR_MODE_LONG, x, b⟩ (some seq) ack h).header
        (5 + addr_len oa.mode + (if dp = sp then 0 else 2)) 8
      = [b 0, b 1, b 2, b 3, b 4, b 5, b 6, b 7] ∧
    bytes_from (esp_ieee802154_create_2015_data_header dp oa sp ⟨ADDR_MODE_LONG, x, b⟩ seq_nr ack h).header
        (2 + seq_nr.toList.length + 2 + addr_len oa.mode + (if dp = sp then 0 else 2)) 8
      = [b 0, b 1, b 2, b 3, b 4, b 5, b 6, b 7] := by
  refine ⟨?_, ?_, ?_, ?_⟩
  · rw [create_2003_eq]
    have e := dst_field_at_2003 dp ⟨ADDR_MODE_LONG, x, b⟩ sp oa seq ack h
    simpa [addr_len, dst_field, long_address_bytes] using e
  · rw [create_2015_eq]
    have e := dst_field_at_2015 dp ⟨ADDR_MODE_LONG, x, b⟩ sp oa seq_nr ack h
    simpa [addr_len, dst_field, long_address_bytes] using e
  · rw [create_2003_eq]
    have e := src_field_at_2003 dp oa sp ⟨ADDR_MODE_LONG, x, b⟩ seq ack h
    simpa [addr_len, src_field, long_address_bytes] using e
  · rw [create_2015_eq]
    have e := src_field_at_2015 dp oa sp ⟨ADDR_MODE_LONG, x, b⟩ seq_nr ack h
    simpa [addr_len, src_field, long_address_bytes] using e

/-- C8 (the code at the failing input): with destination addressing mode none both
encoders still write the destination PAN id into header bytes 3 and 4 and count its two
bytes in the returned length, while the FCF they emit says destination mode none. -/
theorem dst_pan_emitted_for_mode_none (b : Fin 8 → Nat) (x dp sp : Nat)
    (sa : ieee802154_address_t) (seq : Nat) (ack : Bool) (h : buffer) :
    ((emitted_fcf (esp_ieee802154_create_2003_data_header dp ⟨ADDR_MODE_NONE, x, b⟩ sp sa (some seq) ack h)).dst_addr_mode = ADDR_MODE_NONE ∧
      bytes_from (esp_ieee802154_create_2003_data_header dp ⟨ADDR_MODE_NONE, x, b⟩ sp sa (some seq) ack h).header 3 2
        = [dp % 256, dp / 256 % 256] ∧
      (esp_ieee802154_create_2003_data_header dp ⟨ADDR_MODE_NONE, x, b⟩ sp sa (some seq) ack h).ending
        = call_end.returns (2 + 1 + 2 + (if dp = sp then 0 else 2) + addr_len sa.mode)) ∧
    ((emitted_fcf (esp_ieee802154_create_2015_data_header dp ⟨ADDR_MODE_NONE, x, b⟩ sp sa (some seq) ack h)).dst_addr_mode = ADDR_MODE_NONE ∧
      bytes_from (esp_ieee802154_create_2015_data_header dp ⟨ADDR_MODE_NONE, x, b⟩ sp sa (some seq) ack h).header 3 2
        = [dp % 256, dp / 256 % 256] ∧
      (esp_ieee802154_create_2015_data_header dp ⟨ADDR_MODE_NONE, x, b⟩ sp sa (some seq) ack h).ending
        = call_end.returns (2 + 1 + 2 + (if dp = sp then 0 else 2) + addr_len sa.mode)) := by
  refine ⟨⟨?_, ?_, ?_⟩, ?_, ?_, ?_⟩
  · rw [emitted_fcf_2003]; simp [data_fcf]
  · rw [create_2003_eq]
    exact dst_pan_at_2003 dp ⟨ADDR_MODE_NONE, x, b⟩ sp sa seq ack h
  · rw [create_2003_eq, header_2003_bytes_length, src_pan_field_length]
    simp [addr_len]
  · rw [emitted_fcf_2015]; simp [data_fcf]
  · rw [create_2015_eq]
    exact dst_pan_at_2015 dp ⟨ADDR_MODE_NONE, x, b⟩ sp sa (some seq) ack h
  · rw [create_2015_eq, header_2015_bytes_length, src_pan_field_length]
    simp [addr_len]

/-- C9: in the header of either encoder the bytes that follow the destination address field
are the two bytes of the source PAN id, low byte first, and then the source address field
when the PAN ids differ (compression bit 0), and the source address field alone when they
are equal (compression bit 1); the header ends there. -/
theorem src_pan_iff_not_compressed (dp : Nat) (da : ieee802154_address_t) (sp : Nat)
    (sa : ieee802154_address_t) (seq : Nat) (seq_nr : Option Nat) (ack : Bool) (h : buffer) :
    (((emitted_fcf (esp_ieee802154_create_2003_data_header dp da sp sa (some seq) ack h)).pan_id_compression
        = if dp = sp then 1 else 0) ∧
      bytes_from (esp_ieee802154_create_2003_data_header dp da sp sa (some seq) ack h).header (2 + 1 + 2 + addr_len da.mode)
          ((if dp = sp then 0 else 2) + addr_len sa.mode)
        = (if dp = sp then [] else [sp % 256, sp / 256 % 256]) ++ src_field sa ∧
      (esp_ieee802154_create_2003_data_header dp da sp sa (some seq) ack h).ending
        = call_end.returns (2 + 1 + 2 + addr_len da.mode
            + ((if dp = sp then 0 else 2) + addr_len sa.mode))) ∧
    (((emitted_fcf (esp_ieee802154_create_2015_data_header dp da sp sa seq_nr ack h)).pan_id_compression
        = if dp = sp then 1 else 0) ∧
      bytes_from (esp_ieee802154_create_2015_data_header dp da sp sa seq_nr ack h).header
          (2 + seq_nr.toList.length + 2 + addr_len da.mode)
          ((if dp = sp then 0 else 2) + addr_len sa.mode)
        = (if dp = sp then [] else [sp % 256, sp / 256 % 256]) ++ src_field sa ∧
      (esp_ieee802154_create_2015_data_header dp da sp sa seq_nr ack h).ending
        = call_end.returns (2 + seq_nr.toList.length + 2 + addr_len da.mode
            + ((if dp = sp then 0 else 2) + addr_len sa.mode))) := by
  refine ⟨⟨?_, ?_, ?_⟩, ?_, ?_, ?_⟩
  · rw [emitted_fcf_2003]; rfl
  · rw [create_2003_eq]
    have e := tail_at_2003 dp da sp sa seq ack h
    simpa [src_pan_field, uint16_bytes] using e
  · rw [create_2003_eq, header_2003_bytes_length, src_pan_field_length]
    show call_end.returns _ = call_end.returns _
    congr 1
    omega
  · rw [emitted_fcf_2015]; rfl
  · rw [create_2015_eq]
    have e := tail_at_2015 dp da sp sa seq_nr ack h
    simpa [src_pan_field, uint16_bytes] using e
  · rw [create_2015_eq, header_2015_bytes_length, src_pan_field_length]
    show call_end.returns _ = call_end.returns _
    congr 1
    omega

/-- C10: with both address modes in {short, long}, either encoder returns
2 + (1 if a sequence byte is emitted) + 2 + (2 or 8 for the destination address)
+ (2 if the PAN ids differ) + (2 or 8 for the source address); every header byte below
that index is written (its value does not depend on the previous buffer content) and every
byte at or above it is left as it was. -/
theorem returned_length_is_bytes_written (dp : Nat) (da : ieee802154_address_t) (sp : Nat)
    (sa : ieee802154_address_t) (seq : Nat) (seq_nr : Option Nat) (ack : Bool) (h : buffer)
    (hd : da.mode = ADDR_MODE_SHORT ∨ da.mode = ADDR_MODE_LONG)
    (hs : sa.mode = ADDR_MODE_SHORT ∨ sa.mode = ADDR_MODE_LONG) :
    ((esp_ieee802154_create_2003_data_header dp da sp sa (some seq) ack h).ending
        = call_end.returns (2 + 1 + 2 + (if da.mode = ADDR_MODE_SHORT then 2 else 8) + (if dp = sp then 0 else 2)
          + (if sa.mode = ADDR_MODE_SHORT then 2 else 8)) ∧
      (∀ (h2 : buffer) (j : Nat), j < (2 + 1 + 2 + (if da.mode = ADDR_MODE_SHORT then 2 else 8) + (if dp = sp then 0 else 2)
          + (if sa.mode = ADDR_MODE_SHORT then 2 else 8)) →
        (esp_ieee802154_create_2003_data_header dp da sp sa (some seq) ack h).header j
          = (esp_ieee802154_create_2003_data_header dp da sp sa (some seq) ack h2).header j) ∧
      (∀ j : Nat, (2 + 1 + 2 + (if da.mode = ADDR_MODE_SHORT then 2 else 8) + (if dp = sp then 0 else 2)
          + (if sa.mode = ADDR_MODE_SHORT then 2 else 8)) ≤ j →
        (esp_ieee802154_create_2003_data_header dp da sp sa (some seq) ack h).header j = h j)) ∧
    ((esp_ieee802154_create_2015_data_header dp da sp sa seq_nr ack h).ending
        = call_end.returns (2 + (if seq_nr.isSome then 1 else 0) + 2 + (if da.mode = ADDR_MODE_SHORT then 2 else 8)
          + (if dp = sp then 0 else 2) + (if sa.mode = ADDR_MODE_SHORT then 2 else 8)) ∧
      (∀ (h2 : buffer) (j : Nat), j < (2 + (if seq_nr.isSome then 1 else 0) + 2 + (if da.mode = ADDR_MODE_SHORT then 2 else 8)
          + (if dp = sp then 0 else 2) + (if sa.mode = ADDR_MODE_SHORT then 2 else 8)) →
        (esp_ieee802154_create_2015_data_header dp da sp sa seq_nr ack h).header j
          = (esp_ieee802154_create_2015_data_header dp da sp sa seq_nr ack h2).header j) ∧
      (∀ j : Nat, (2 + (if seq_nr.isSome then 1 else 0) + 2 + (if da.mode = ADDR_MODE_SHORT then 2 else 8)
          + (if dp = sp then 0 else 2) + (if sa.mode = ADDR_MODE_SHORT then 2 else 8)) ≤ j →
        (esp_ieee802154_create_2015_data_header dp da sp sa seq_nr ack h).header j = h j)) := by
  have e1 : addr_len da.mode = if da.mode = ADDR_MODE_SHORT then 2 else 8 := by
    rcases hd with hd | hd <;> simp [addr_len, hd]
  have e2 : addr_len sa.mode = if sa.mode = ADDR_MODE_SHORT then 2 else 8 := by
    rcases hs with hs | hs <;> simp [addr_len, hs]
  have e3 : seq_nr.toList.length = if seq_nr.isSome then 1 else 0 := by
    cases seq_nr <;> simp
  have l3 := header_2003_bytes_length dp da sp sa seq ack
  have l5 := header_2015_bytes_length dp da sp sa seq_nr ack
  rw [src_pan_field_length, e1, e2] at l3
  rw [src_pan_field_length, e1, e2, e3] at l5
  simp only [create_2003_eq, create_2015_eq]
  refine ⟨⟨?_, ?_, ?_⟩, ?_, ?_, ?_⟩
  · rw [l3]
  · intro h2 j hj
    exact memcpy_within h h2 _ j (by omega)
  · intro j hj
    exact memcpy_beyond h _ j (by omega)
  · rw [l5]
  · intro h2 j hj
    exact memcpy_within h h2 _ j (by omega)
  · intro j hj
    exact memcpy_beyond h _ j (by omega)

/-- Witness of C10: a short destination and a long source address in different PANs; the
2003 header has 2 + 1 + 2 + 2 + 2 + 8 = 17 bytes, the 2015 header without a sequence number
has 16. -/
theorem returned_length_is_bytes_written_witness :
    ((short_addr 2).mode = ADDR_MODE_SHORT ∨ (short_addr 2).mode = ADDR_MODE_LONG) ∧
    ((long_addr fun _ => 9).mode = ADDR_MODE_SHORT ∨
      (long_addr fun _ => 9).mode = ADDR_MODE_LONG) ∧
    (esp_ieee802154_create_2003_data_header 1 (short_addr 2) 5 (long_addr fun _ => 9) (some 7) true
        fun _ => 0).ending = call_end.returns 17 ∧
    (esp_ieee802154_create_2015_data_header 1 (short_addr 2) 5 (long_addr fun _ => 9) none true
        fun _ => 0).ending = call_end.returns 16 ∧
    (∀ j : Nat, 17 ≤ j →
      (esp_ieee802154_create_2003_data_header 1 (short_addr 2) 5 (long_addr fun _ => 9) (some 7) true
        fun _ => 0).header j = 0) :=
  ⟨Or.inl rfl, Or.inr rfl,
    (returned_length_is_bytes_written 1 (short_addr 2) 5 (long_addr fun _ => 9) 7 none true
      (fun _ => 0) (Or.inl rfl) (Or.inr rfl)).1.1,
    (returned_length_is_bytes_written 1 (short_addr 2) 5 (long_addr fun _ => 9) 7 none true
      (fun _ => 0) (Or.inl rfl) (Or.inr rfl)).2.1,
    (returned_length_is_bytes_written 1 (short_addr 2) 5 (long_addr fun _ => 9) 7 none true
      (fun _ => 0) (Or.inl rfl) (Or.inr rfl)).1.2.2⟩



/-- C11: when the mode tag of an address is none or reserved, either encoder logs no error,
returns, and writes no byte for that address. As destination: the source PAN id (if any)
and the source address start at the index where the destination address would have started.
As source: the header ends right after the optional source PAN id and the buffer beyond is
untouched. The returned length counts 0 bytes for the address. -/
theorem zero_length_address_field (na oa : ieee802154_address_t) (dp sp seq : Nat)
    (seq_nr : Option Nat) (ack : Bool) (h : buffer)
    (hn : na.mode = ADDR_MODE_NONE ∨ na.mode = ADDR_MODE_RESERVED) :
    ((esp_ieee802154_create_2003_data_header dp na sp oa (some seq) ack h).error_logged = false ∧
      (esp_ieee802154_create_2003_data_header dp na sp oa (some seq) ack h).ending
        = call_end.returns (2 + 1 + 2 + 0 + (if dp = sp then 0 else 2) + addr_len oa.mode) ∧
      bytes_from (esp_ieee802154_create_2003_data_header dp na sp oa (some seq) ack h).header (2 + 1 + 2)
          ((if dp = sp then 0 else 2) + addr_len oa.mode)
        = (if dp = sp then [] else [sp % 256, sp / 256 % 256]) ++ src_field oa) ∧
    ((esp_ieee802154_create_2015_data_header dp na sp oa seq_nr ack h).error_logged = false ∧
      (esp_ieee802154_create_2015_data_header dp na sp oa seq_nr ack h).ending
        = call_end.returns (2 + seq_nr.toList.length + 2 + 0 + (if dp = sp then 0 else 2)
            + addr_len oa.mode) ∧
      bytes_from (esp_ieee802154_create_2015_data_header dp na sp oa seq_nr ack h).header (2 + seq_nr.toList.length + 2)
          ((if dp = sp then 0 else 2) + addr_len oa.mode)
        = (if dp = sp then [] else [sp % 256, sp / 256 % 256]) ++ src_field oa) ∧
    ((esp_ieee802154_create_2003_data_header dp oa sp na (some seq) ack h).error_logged = false ∧
      (esp_ieee802154_create_2003_data_header dp oa sp na (some seq) ack h).ending
        = call_end.returns (2 + 1 + 2 + addr_len oa.mode + (if dp = sp then 0 else 2) + 0) ∧
      (∀ j : Nat, 2 + 1 + 2 + addr_len oa.mode + (if dp = sp then 0 else 2) ≤ j →
        (esp_ieee802154_create_2003_data_header dp oa sp na (some seq) ack h).header j = h j)) ∧
    ((esp_ieee802154_create_2015_data_header dp oa sp na seq_nr ack h).error_logged = false ∧
      (esp_ieee802154_create_2015_data_header dp oa sp na seq_nr ack h).ending
        = call_end.returns (2 + seq_nr.toList.length + 2 + addr_len oa.mode
            + (if dp = sp then 0 else 2) + 0) ∧
      (∀ j : Nat,
        2 + seq_nr.toList.length + 2 + addr_len oa.mode + (if dp = sp then 0 else 2) ≤ j →
        (esp_ieee802154_create_2015_data_header dp oa sp na seq_nr ack h).header j = h j)) := by
  have e0 : addr_len na.mode = 0 := by
    rcases hn with hn | hn <;> simp [addr_len, hn]
  have t3 := tail_at_2003 dp na sp oa seq ack h
  have t5 := tail_at_2015 dp na sp oa seq_nr ack h
  have l3 := header_2003_bytes_length dp na sp oa seq ack
  have l5 := header_2015_bytes_length dp na sp oa seq_nr ack
  have m3 := header_2003_bytes_length dp oa sp na seq ack
  have m5 := header_2015_bytes_length dp oa sp na seq_nr ack
  rw [e0, src_pan_field_length] at l3 l5 m3 m5
  rw [e0] at t3 t5
  simp only [create_2003_eq, create_2015_eq]
  refine ⟨⟨trivial, ?_, ?_⟩, ⟨trivial, ?_, ?_⟩, ⟨trivial, ?_, ?_⟩, ⟨trivial, ?_, ?_⟩⟩
  · rw [l3]
  · simpa [src_pan_field, uint16_bytes] using t3
  · rw [l5]
  · simpa [src_pan_field, uint16_bytes] using t5
  · rw [m3]
  · intro j hj
    exact memcpy_beyond h _ j (by omega)
  · rw [m5]
  · intro j hj
    exact memcpy_beyond h _ j (by omega)

/-- Witness of C11: an address with tag none next to a short address, in different PANs. -/
theorem zero_length_address_field_witness :
    ((⟨ADDR_MODE_NONE, 0, fun _ => 0⟩ : ieee802154_address_t).mode = ADDR_MODE_NONE ∨
      (⟨ADDR_MODE_NONE, 0, fun _ => 0⟩ : ieee802154_address_t).mode = ADDR_MODE_RESERVED) ∧
    (esp_ieee802154_create_2003_data_header 1 ⟨ADDR_MODE_NONE, 0, fun _ => 0⟩ 5 (short_addr 3) (some 7) true
        fun _ => 0).ending = call_end.returns 9 ∧
    (esp_ieee802154_create_2015_data_header 1 (short_addr 3) 5 ⟨ADDR_MODE_NONE, 0, fun _ => 0⟩ none true
        fun _ => 0).ending = call_end.returns 8 :=
  ⟨Or.inl rfl,
    (zero_length_address_field ⟨ADDR_MODE_NONE, 0, fun _ => 0⟩ (short_addr 3) 1 5 7 none true
      (fun _ => 0) (Or.inl rfl)).1.2.1,
    (zero_length_address_field ⟨ADDR_MODE_NONE, 0, fun _ => 0⟩ (short_addr 3) 1 5 7 none true
      (fun _ => 0) (Or.inl rfl)).2.2.2.2.1⟩

/-- C13: for every inbound frame, bytes 1-2 of the built acknowledgment unpack to frame type
Ack, version 2015, ack_request = secure = frame_pending = reserved =
information_elements_present = 0, the inbound compression and suppression bits, and the
inbound addressing modes with destination and source swapped. -/
theorem ack_fcf_mirrors_inbound (frame e : buffer) :
    fcf_at (esp_ieee802154_create_2015_ack_frame frame e) 1
      = { frame_type := FRAME_TYPE_ACK
          secure := 0
          frame_pending := 0
          ack_request := 0
          pan_id_compression := (fcf_at frame 1).pan_id_compression
          reserved := 0
          sequence_number_suppression := (fcf_at frame 1).sequence_number_suppression
          information_elements_present := 0
          dst_addr_mode := (fcf_at frame 1).src_addr_mode
          frame_ver := FRAME_VERSION_STD_2015
          src_addr_mode := (fcf_at frame 1).dst_addr_mode } := by
  rw [ack_fcf_at]
  rfl

/-- C14: when the inbound suppression bit is clear, byte 3 of the acknowledgment is byte 3
of the inbound frame and the PAN id and address bytes are copied from inbound index 4 on
to acknowledgment index 4 on; when the bit is set no sequence byte is copied and those
bytes are copied from index 3 on to index 3 on. -/
theorem ack_sequence_number (frame e : buffer) :
    ((fcf_at frame 1).sequence_number_suppression = 0 →
      esp_ieee802154_create_2015_ack_frame frame e 3 = frame 3 ∧
      bytes_from (esp_ieee802154_create_2015_ack_frame frame e) 4 (ack_addr_fields frame 4).length
        = ack_addr_fields frame 4) ∧
    ((fcf_at frame 1).sequence_number_suppression ≠ 0 →
      bytes_from (esp_ieee802154_create_2015_ack_frame frame e) 3 (ack_addr_fields frame 3).length
        = ack_addr_fields frame 3) := by
  constructor
  · intro h0
    have hs : ack_fields_start (fcf_at frame 1) = 4 := by simp [ack_fields_start, h0]
    constructor
    · have e1 := ack_seq_at frame e
      simp only [ack_seq_field, h0, if_true, List.length_cons, List.length_nil, bytes_from,
        List.range, List.range.loop, List.map, Nat.add_zero, List.cons.injEq, and_true] at e1
      simpa using e1
    · have e2 := ack_block_at frame e [] (ack_addr_fields frame 4) [] (by rw [hs]; simp)
      rw [hs] at e2
      simpa using e2
  · intro h0
    have hs : ack_fields_start (fcf_at frame 1) = 3 := by simp [ack_fields_start, h0]
    have e2 := ack_block_at frame e [] (ack_addr_fields frame 3) [] (by rw [hs]; simp)
    rw [hs] at e2
    simpa using e2

/-- Witness of C14: the compressed inbound frame carries sequence number 7, which the
acknowledgment repeats at index 3. -/
theorem ack_sequence_number_witness :
    (fcf_at inbound_compressed 1).sequence_number_suppression = 0 ∧
    esp_ieee802154_create_2015_ack_frame inbound_compressed (fun _ => 0) 3 = 7 :=
  ⟨by decide, ((ack_sequence_number inbound_compressed (fun _ => 0)).1 (by decide)).1⟩

/-- C15: for an inbound frame with the compression bit set and both addressing modes short
or long, the acknowledgment holds, from the index after the FCF and the optional sequence
byte on: the two bytes of the inbound PAN id, then the inbound source address (found right
after the inbound destination address) as its destination address, then the inbound
destination address as its source address, each with the length of its own mode. -/
theorem ack_fields_compressed (frame e : buffer)
    (hp : (fcf_at frame 1).pan_id_compression = 1)
    (hd : (fcf_at frame 1).dst_addr_mode = ADDR_MODE_SHORT ∨ (fcf_at frame 1).dst_addr_mode = ADDR_MODE_LONG)
    (hs : (fcf_at frame 1).src_addr_mode = ADDR_MODE_SHORT ∨ (fcf_at frame 1).src_addr_mode = ADDR_MODE_LONG) :
    bytes_from (esp_ieee802154_create_2015_ack_frame frame e) (ack_fields_start (fcf_at frame 1)) 2 = bytes_from frame (ack_fields_start (fcf_at frame 1)) 2 ∧
    bytes_from (esp_ieee802154_create_2015_ack_frame frame e) (ack_fields_start (fcf_at frame 1) + 2) (addr_len (fcf_at frame 1).src_addr_mode)
      = bytes_from frame (ack_fields_start (fcf_at frame 1) + 2 + addr_len (fcf_at frame 1).dst_addr_mode) (addr_len (fcf_at frame 1).src_addr_mode) ∧
    bytes_from (esp_ieee802154_create_2015_ack_frame frame e) (ack_fields_start (fcf_at frame 1) + 2 + addr_len (fcf_at frame 1).src_addr_mode) (addr_len (fcf_at frame 1).dst_addr_mode)
      = bytes_from frame (ack_fields_start (fcf_at frame 1) + 2) (addr_len (fcf_at frame 1).dst_addr_mode) := by
  have hf : ack_addr_fields frame (ack_fields_start (fcf_at frame 1))
      = bytes_from frame (ack_fields_start (fcf_at frame 1)) 2
        ++ bytes_from frame (ack_fields_start (fcf_at frame 1) + 2 + addr_len (fcf_at frame 1).dst_addr_mode) (addr_len (fcf_at frame 1).src_addr_mode)
        ++ bytes_from frame (ack_fields_start (fcf_at frame 1) + 2) (addr_len (fcf_at frame 1).dst_addr_mode) := by
    unfold ack_addr_fields
    rw [if_pos (by rw [hp]; decide), ack_addr_len_eq _ hd, ack_addr_len_eq _ hs]
  refine ⟨?_, ?_, ?_⟩
  · have e1 := ack_block_at frame e [] (bytes_from frame (ack_fields_start (fcf_at frame 1)) 2)
      (bytes_from frame (ack_fields_start (fcf_at frame 1) + 2 + addr_len (fcf_at frame 1).dst_addr_mode) (addr_len (fcf_at frame 1).src_addr_mode) ++ bytes_from frame (ack_fields_start (fcf_at frame 1) + 2) (addr_len (fcf_at frame 1).dst_addr_mode))
      (by rw [hf]; simp)
    simpa [bytes_from_length] using e1
  · have e1 := ack_block_at frame e (bytes_from frame (ack_fields_start (fcf_at frame 1)) 2)
      (bytes_from frame (ack_fields_start (fcf_at frame 1) + 2 + addr_len (fcf_at frame 1).dst_addr_mode) (addr_len (fcf_at frame 1).src_addr_mode)) (bytes_from frame (ack_fields_start (fcf_at frame 1) + 2) (addr_len (fcf_at frame 1).dst_addr_mode)) hf
    simpa [bytes_from_length] using e1
  · have e1 := ack_block_at frame e
      (bytes_from frame (ack_fields_start (fcf_at frame 1)) 2 ++ bytes_from frame (ack_fields_start (fcf_at frame 1) + 2 + addr_len (fcf_at frame 1).dst_addr_mode) (addr_len (fcf_at frame 1).src_addr_mode))
      (bytes_from frame (ack_fields_start (fcf_at frame 1) + 2) (addr_len (fcf_at frame 1).dst_addr_mode)) [] (by rw [hf]; simp)
    simpa [bytes_from_length, Nat.add_assoc] using e1

/-- Witness of C15: the inbound Data frame with short/short addressing and compression,
PAN 0x0001, destination 0x0002, source 0x0003: the acknowledgment carries PAN 0x0001,
destination 0x0003 and source 0x0002. -/
theorem ack_fields_compressed_witness :
    (fcf_at inbound_compressed 1).pan_id_compression = 1 ∧
    (fcf_at inbound_compressed 1).dst_addr_mode = ADDR_MODE_SHORT ∧
    (fcf_at inbound_compressed 1).src_addr_mode = ADDR_MODE_SHORT ∧
    bytes_from (esp_ieee802154_create_2015_ack_frame inbound_compressed fun _ => 0) 4 2 = [1, 0] ∧
    bytes_from (esp_ieee802154_create_2015_ack_frame inbound_compressed fun _ => 0) 6 2 = [3, 0] ∧
    bytes_from (esp_ieee802154_create_2015_ack_frame inbound_compressed fun _ => 0) 8 2 = [2, 0] :=
  ⟨by decide, by decide, by decide,
    (ack_fields_compressed inbound_compressed (fun _ => 0) (by decide)
      (Or.inl (by decide)) (Or.inl (by decide))).1,
    (ack_fields_compressed inbound_compressed (fun _ => 0) (by decide)
      (Or.inl (by decide)) (Or.inl (by decide))).2.1,
    (ack_fields_compressed inbound_compressed (fun _ => 0) (by decide)
      (Or.inl (by decide)) (Or.inl (by decide))).2.2⟩

/-- C16: for an inbound frame with the compression bit clear and both addressing modes
short or long, the acknowledgment holds, from the index after the FCF and the optional
sequence byte on: the inbound source PAN id and source address as its destination block,
then the inbound destination PAN id and destination address as its source block. -/
theorem ack_fields_uncompressed (frame e : buffer)
    (hp : (fcf_at frame 1).pan_id_compression = 0)
    (hd : (fcf_at frame 1).dst_addr_mode = ADDR_MODE_SHORT ∨ (fcf_at frame 1).dst_addr_mode = ADDR_MODE_LONG)
    (hs : (fcf_at frame 1).src_addr_mode = ADDR_MODE_SHORT ∨ (fcf_at frame 1).src_addr_mode = ADDR_MODE_LONG) :
    bytes_from (esp_ieee802154_create_2015_ack_frame frame e) (ack_fields_start (fcf_at frame 1)) 2 = bytes_from frame (ack_fields_start (fcf_at frame 1) + 2 + addr_len (fcf_at frame 1).dst_addr_mode) 2 ∧
    bytes_from (esp_ieee802154_create_2015_ack_frame frame e) (ack_fields_start (fcf_at frame 1) + 2) (addr_len (fcf_at frame 1).src_addr_mode)
      = bytes_from frame (ack_fields_start (fcf_at frame 1) + 2 + addr_len (fcf_at frame 1).dst_addr_mode + 2) (addr_len (fcf_at frame 1).src_addr_mode) ∧
    bytes_from (esp_ieee802154_create_2015_ack_frame frame e) (ack_fields_start (fcf_at frame 1) + 2 + addr_len (fcf_at frame 1).src_addr_mode) 2 = bytes_from frame (ack_fields_start (fcf_at frame 1)) 2 ∧
    bytes_from (esp_ieee802154_create_2015_ack_frame frame e) (ack_fields_start (fcf_at frame 1) + 2 + addr_len (fcf_at frame 1).src_addr_mode + 2) (addr_len (fcf_at frame 1).dst_addr_mode)
      = bytes_from frame (ack_fields_start (fcf_at frame 1) + 2) (addr_len (fcf_at frame 1).dst_addr_mode) ∧
    (fcf_at (esp_ieee802154_create_2015_ack_frame frame e) 1).frame_type = FRAME_TYPE_ACK ∧
    (fcf_at (esp_ieee802154_create_2015_ack_frame frame e) 1).frame_ver = FRAME_VERSION_STD_2015 := by
  have hf : ack_addr_fields frame (ack_fields_start (fcf_at frame 1))
      = bytes_from frame (ack_fields_start (fcf_at frame 1) + 2 + addr_len (fcf_at frame 1).dst_addr_mode) 2
        ++ bytes_from frame (ack_fields_start (fcf_at frame 1) + 2 + addr_len (fcf_at frame 1).dst_addr_mode + 2) (addr_len (fcf_at frame 1).src_addr_mode)
        ++ bytes_from frame (ack_fields_start (fcf_at frame 1)) 2
        ++ bytes_from frame (ack_fields_start (fcf_at frame 1) + 2) (addr_len (fcf_at frame 1).dst_addr_mode) := by
    unfold ack_addr_fields
    rw [if_neg (by rw [hp]; decide), ack_addr_len_eq _ hd, ack_addr_len_eq _ hs]
    simp only [bytes_from, List.range_add, List.map_append, List.map_map, List.append_assoc]
    simp only [Function.comp_def, Nat.add_assoc]
  refine ⟨?_, ?_, ?_, ?_, by rw [ack_fcf_at]; rfl, by rw [ack_fcf_at]; rfl⟩
  · have e1 := ack_block_at frame e [] (bytes_from frame (ack_fields_start (fcf_at frame 1) + 2 + addr_len (fcf_at frame 1).dst_addr_mode) 2)
      (bytes_from frame (ack_fields_start (fcf_at frame 1) + 2 + addr_len (fcf_at frame 1).dst_addr_mode + 2) (addr_len (fcf_at frame 1).src_addr_mode) ++ bytes_from frame (ack_fields_start (fcf_at frame 1)) 2
        ++ bytes_from frame (ack_fields_start (fcf_at frame 1) + 2) (addr_len (fcf_at frame 1).dst_addr_mode))
      (by rw [hf]; simp)
    simpa [bytes_from_length] using e1
  · have e1 := ack_block_at frame e (bytes_from frame (ack_fields_start (fcf_at frame 1) + 2 + addr_len (fcf_at frame 1).dst_addr_mode) 2)
      (bytes_from frame (ack_fields_start (fcf_at frame 1) + 2 + addr_len (fcf_at frame 1).dst_addr_mode + 2) (addr_len (fcf_at frame 1).src_addr_mode))
      (bytes_from frame (ack_fields_start (fcf_at frame 1)) 2 ++ bytes_from frame (ack_fields_start (fcf_at frame 1) + 2) (addr_len (fcf_at frame 1).dst_addr_mode))
      (by rw [hf]; simp)
    simpa [bytes_from_length] using e1
  · have e1 := ack_block_at frame e
      (bytes_from frame (ack_fields_start (fcf_at frame 1) + 2 + addr_len (fcf_at frame 1).dst_addr_mode) 2 ++ bytes_from frame (ack_fields_start (fcf_at frame 1) + 2 + addr_len (fcf_at frame 1).dst_addr_mode + 2) (addr_len (fcf_at frame 1).src_addr_mode))
      (bytes_from frame (ack_fields_start (fcf_at frame 1)) 2) (bytes_from frame (ack_fields_start (fcf_at frame 1) + 2) (addr_len (fcf_at frame 1).dst_addr_mode))
      (by rw [hf])
    simpa [bytes_from_length, Nat.add_assoc] using e1
  · have e1 := ack_block_at frame e
      (bytes_from frame (ack_fields_start (fcf_at frame 1) + 2 + addr_len (fcf_at frame 1).dst_addr_mode) 2 ++ bytes_from frame (ack_fields_start (fcf_at frame 1) + 2 + addr_len (fcf_at frame 1).dst_addr_mode + 2) (addr_len (fcf_at frame 1).src_addr_mode)
        ++ bytes_from frame (ack_fields_start (fcf_at frame 1)) 2)
      (bytes_from frame (ack_fields_start (fcf_at frame 1) + 2) (addr_len (fcf_at frame 1).dst_addr_mode)) [] (by rw [hf]; simp)
    simpa [bytes_from_length, Nat.add_assoc] using e1

/-- Witness of C16, the example of the claim: an inbound frame with compression clear,
destination short 0x0002 in PAN 0x0001, source short 0x0003 in PAN 0x0001 gives an
acknowledgment with destination PAN 0x0001, destination 0x0003, source PAN 0x0001,
source 0x0002. -/
theorem ack_fields_uncompressed_witness :
    (fcf_at inbound_uncompressed 1).pan_id_compression = 0 ∧
    (fcf_at inbound_uncompressed 1).dst_addr_mode = ADDR_MODE_SHORT ∧
    (fcf_at inbound_uncompressed 1).src_addr_mode = ADDR_MODE_SHORT ∧
    bytes_from (esp_ieee802154_create_2015_ack_frame inbound_uncompressed fun _ => 0) 4 2 = [1, 0] ∧
    bytes_from (esp_ieee802154_create_2015_ack_frame inbound_uncompressed fun _ => 0) 6 2 = [3, 0] ∧
    bytes_from (esp_ieee802154_create_2015_ack_frame inbound_uncompressed fun _ => 0) 8 2 = [1, 0] ∧
    bytes_from (esp_ieee802154_create_2015_ack_frame inbound_uncompressed fun _ => 0) 10 2 = [2, 0] ∧
    (fcf_at (esp_ieee802154_create_2015_ack_frame inbound_uncompressed fun _ => 0) 1).frame_type
      = FRAME_TYPE_ACK ∧
    (fcf_at (esp_ieee802154_create_2015_ack_frame inbound_uncompressed fun _ => 0) 1).frame_ver
      = FRAME_VERSION_STD_2015 :=
  ⟨by decide, by decide, by decide,
    (ack_fields_uncompressed inbound_uncompressed (fun _ => 0) (by decide)
      (Or.inl (by decide)) (Or.inl (by decide))).1,
    (ack_fields_uncompressed inbound_uncompressed (fun _ => 0) (by decide)
      (Or.inl (by decide)) (Or.inl (by decide))).2.1,
    (ack_fields_uncompressed inbound_uncompressed (fun _ => 0) (by decide)
      (Or.inl (by decide)) (Or.inl (by decide))).2.2.1,
    (ack_fields_uncompressed inbound_uncompressed (fun _ => 0) (by decide)
      (Or.inl (by decide)) (Or.inl (by decide))).2.2.2⟩

/-- C17, as the claim states it, fails: for the compressed inbound frame the builder writes
9 bytes after the length prefix (FCF 2, sequence 1, PAN 2, addresses 2 + 2) and sets the
length byte to 12, not to 9 + 2 = 11. -/
theorem ack_length_excludes_itself_counterexample :
    ack_bytes_written (fcf_at inbound_compressed 1) = 9 ∧
    esp_ieee802154_create_2015_ack_frame inbound_compressed (fun _ => 0) 0 = 12 ∧
    ¬ (esp_ieee802154_create_2015_ack_frame inbound_compressed (fun _ => 0) 0
        = ack_bytes_written (fcf_at inbound_compressed 1) + 2) := by
  have h9 : ack_bytes_written (fcf_at inbound_compressed 1) = 9 := by decide
  have h := ack_length_byte inbound_compressed (fun _ => 0)
  rw [h9] at h
  refine ⟨h9, h, ?_⟩
  rw [h, h9]
  decide

/-- C17 amended: for every inbound frame the length byte of the acknowledgment is the number
of bytes written after the length prefix, plus 1 for the length byte itself, plus 2 for the
FCS. The bytes written after the prefix are those at the indices 1 to `ack_bytes_written`:
they do not depend on the previous buffer content, and every later byte is left as it
was. -/
theorem ack_length_counts_itself (frame e : buffer) :
    esp_ieee802154_create_2015_ack_frame frame e 0 = ack_bytes_written (fcf_at frame 1) + 1 + 2 ∧
    (∀ (e2 : buffer) (j : Nat), 1 ≤ j → j ≤ ack_bytes_written (fcf_at frame 1) →
      esp_ieee802154_create_2015_ack_frame frame e j = esp_ieee802154_create_2015_ack_frame frame e2 j) ∧
    (∀ j : Nat, ack_bytes_written (fcf_at frame 1) < j → esp_ieee802154_create_2015_ack_frame frame e j = e j) := by
  refine ⟨ack_length_byte frame e, ?_, ?_⟩
  · intro e2 j h1 h2
    rw [ack_frame_memcpy, ack_frame_memcpy]
    apply memcpy_within
    rw [List.length_cons, ack_body_length]
    omega
  · intro j hj
    rw [ack_frame_memcpy]
    apply memcpy_beyond
    rw [List.length_cons, ack_body_length]
    omega

/-- C18, as the claim states it, fails: two inbound frames whose FCF announces no addressing
fields and no sequence number (header = the two FCF bytes) and that differ only in the byte
after the FCF give different acknowledgments. -/
theorem ack_depends_on_payload_counterexample :
    header_prefix_length (fcf_at (memcpy (fun _ => 0) 0 [5, 0x41, 0x21, 0xAA]) 1) = 2 ∧
    (∀ i : Nat, 1 ≤ i → i ≤ 2 →
      memcpy (fun _ => 0) 0 [5, 0x41, 0x21, 0xAA] i
        = memcpy (fun _ => 0) 0 [5, 0x41, 0x21, 0xBB] i) ∧
    esp_ieee802154_create_2015_ack_frame (memcpy (fun _ => 0) 0 [5, 0x41, 0x21, 0xAA]) (fun _ => 0)
      ≠ esp_ieee802154_create_2015_ack_frame (memcpy (fun _ => 0) 0 [5, 0x41, 0x21, 0xBB]) (fun _ => 0) := by
  refine ⟨by decide, ?_, ?_⟩
  · intro i h1 h2
    have hi : i = 1 ∨ i = 2 := by omega
    rcases hi with hi | hi <;> subst hi <;> decide
  · intro h
    have h3 := congrFun h 3
    revert h3
    decide

/-- C18 amended: for two inbound frames whose addressing modes are both short or long and
that agree on the header the FCF announces (indices 1 to `header_prefix_length`), whatever
follows that header, the built acknowledgment buffers are identical. -/
theorem ack_ignores_payload (f1 f2 e : buffer)
    (hd : (fcf_at f1 1).dst_addr_mode = ADDR_MODE_SHORT ∨
      (fcf_at f1 1).dst_addr_mode = ADDR_MODE_LONG)
    (hs : (fcf_at f1 1).src_addr_mode = ADDR_MODE_SHORT ∨
      (fcf_at f1 1).src_addr_mode = ADDR_MODE_LONG)
    (h : ∀ i : Nat, 1 ≤ i → i ≤ header_prefix_length (fcf_at f1 1) → f1 i = f2 i) :
    esp_ieee802154_create_2015_ack_frame f1 e = esp_ieee802154_create_2015_ack_frame f2 e := by
  have hle := ack_bytes_written_le_prefix (fcf_at f1 1) hd hs
  have hb : ack_body f1 = ack_body f2 :=
    ack_body_congr f1 f2 (fun i h1 h2 => h i h1 (by omega))
  rw [ack_frame_eq, ack_frame_eq, hb]

/-- Witness of C18: the compressed inbound frame with payload "Hallo" and the same header
followed by another payload give the same acknowledgment. -/
theorem ack_ignores_payload_witness :
    ((fcf_at inbound_compressed 1).dst_addr_mode = ADDR_MODE_SHORT ∨
      (fcf_at inbound_compressed 1).dst_addr_mode = ADDR_MODE_LONG) ∧
    ((fcf_at inbound_compressed 1).src_addr_mode = ADDR_MODE_SHORT ∨
      (fcf_at inbound_compressed 1).src_addr_mode = ADDR_MODE_LONG) ∧
    header_prefix_length (fcf_at inbound_compressed 1) = 9 ∧
    esp_ieee802154_create_2015_ack_frame inbound_compressed (fun _ => 0)
      = esp_ieee802154_create_2015_ack_frame (memcpy (fun _ => 0) 0 [17, 0x61, 0xA8, 7, 1, 0, 2, 0, 3, 0, 87, 101, 108, 116])
          (fun _ => 0) :=
  ⟨Or.inl (by decide), Or.inl (by decide), by decide,
    ack_ignores_payload inbound_compressed
      (memcpy (fun _ => 0) 0 [17, 0x61, 0xA8, 7, 1, 0, 2, 0, 3, 0, 87, 101, 108, 116])
      (fun _ => 0) (Or.inl (by decide)) (Or.inl (by decide))
      (by
        intro i h1 h2
        have h9 : header_prefix_length (fcf_at inbound_compressed 1) = 9 := by decide
        rw [h9] at h2
        have hi : i = 1 ∨ i = 2 ∨ i = 3 ∨ i = 4 ∨ i = 5 ∨ i = 6 ∨ i = 7 ∨ i = 8 ∨ i = 9 := by
          omega
        rcases hi with hi | hi | hi | hi | hi | hi | hi | hi | hi <;> subst hi <;> decide)⟩

/-- C12, as the claim states it, fails: a 2015 header encoded with the long source address
bytes 1, 2, …, 8 decodes to the source address 8, 7, …, 1, not to the original bytes. -/
theorem decode_reverses_long_source_counterexample :
    log_line.src_addr_long [8, 7, 6, 5, 4, 3, 2, 1] ∈
      (esp_ieee802154_print_packet (with_length 18 (esp_ieee802154_create_2015_data_header 1 (short_addr 2) 1 (long_addr fun i => i.val + 1)
        (some 7) true fun _ => 0).header)) ∧
    log_line.src_addr_long [1, 2, 3, 4, 5, 6, 7, 8] ∉
      (esp_ieee802154_print_packet (with_length 18 (esp_ieee802154_create_2015_data_header 1 (short_addr 2) 1 (long_addr fun i => i.val + 1)
        (some 7) true fun _ => 0).header)) := by
  constructor <;> decide

/-- C12 amended: for both encoders, both address modes short or long, equal or different
PAN ids and every legal sequence number choice, decoding the encoded header behind a length
byte shows the flags given to the encoder (ack request, compression = PAN ids equal,
suppression = no sequence number, the two modes, the version), the sequence number, both
PAN ids, the destination address and a short source address as given; a long source
address is shown with its bytes in reversed order. -/
theorem decode_encoded_header (dp : Nat) (da : ieee802154_address_t) (sp : Nat)
    (sa : ieee802154_address_t) (seq : Nat) (seq_nr : Option Nat) (ack : Bool) (len : Nat)
    (h : buffer)
    (hd : da.mode = ADDR_MODE_SHORT ∨ da.mode = ADDR_MODE_LONG)
    (hs : sa.mode = ADDR_MODE_SHORT ∨ sa.mode = ADDR_MODE_LONG) :
    (∃ rest : List log_line,
      esp_ieee802154_print_packet (with_length len (esp_ieee802154_create_2003_data_header dp da sp sa (some seq) ack h).header)
        = printed_flags_2003 dp da sp sa ack ++ [log_line.sequence_number seq]
          ++ printed_addressing dp da sp sa ++ rest) ∧
    (∃ rest : List log_line,
      esp_ieee802154_print_packet (with_length len (esp_ieee802154_create_2015_data_header dp da sp sa seq_nr ack h).header)
        = printed_flags_2015 dp da sp sa seq_nr ack ++ [printed_seq seq_nr]
          ++ printed_addressing dp da sp sa ++ rest) :=
  ⟨⟨_, print_packet_encoded_2003 dp da sp sa seq ack len h hd hs⟩,
    ⟨_, print_packet_encoded_2015 dp da sp sa seq_nr ack len h hd hs⟩⟩

/-- Witness of C12 amended: a short destination 0x0002 and the long source 1, 2, …, 8 in
PAN 0x0001, sequence number 7, ack requested, 2015 encoder. -/
theorem decode_encoded_header_witness :
    ((short_addr 2).mode = ADDR_MODE_SHORT ∨ (short_addr 2).mode = ADDR_MODE_LONG) ∧
    ((long_addr fun i => i.val + 1).mode = ADDR_MODE_SHORT ∨
      (long_addr fun i => i.val + 1).mode = ADDR_MODE_LONG) ∧
    ∃ rest : List log_line,
      esp_ieee802154_print_packet (with_length 18 (esp_ieee802154_create_2015_data_header 1 (short_addr 2) 1 (long_addr fun i => i.val + 1)
          (some 7) true fun _ => 0).header)
        = printed_flags_2015 1 (short_addr 2) 1 (long_addr fun i => i.val + 1) (some 7) true
          ++ [log_line.sequence_number 7]
          ++ [log_line.dst_pan 0 1, log_line.dst_addr_short 0 2 "",
              log_line.src_pan_intra 0 1, log_line.src_addr_long [8, 7, 6, 5, 4, 3, 2, 1]]
          ++ rest :=
  ⟨Or.inl rfl, Or.inr rfl,
    (decode_encoded_header 1 (short_addr 2) 1 (long_addr fun i => i.val + 1) 7 (some 7) true
      18 (fun _ => 0) (Or.inl rfl) (Or.inr rfl)).2⟩

/-- C19: for every received frame whose FCF has the security-enabled bit or the
information-elements-present bit set, the decoder prints the FCF, logs the error that
these features are not supported and returns: no sequence number, PAN id, address,
payload, RSSI or LQI line follows, and the log depends on the two FCF bytes only. -/
theorem decoder_rejects_security_and_ie (packet : buffer)
    (hu : (fcf_at packet 1).secure = 1 ∨ (fcf_at packet 1).information_elements_present = 1) :
    esp_ieee802154_print_packet packet
      = [log_line.rule] ++ print_fcf (fcf_at packet 1)
        ++ [log_line.unsupported_error, log_line.rule] ∧
    (∀ other : buffer, other 1 = packet 1 → other 2 = packet 2 →
      esp_ieee802154_print_packet other = esp_ieee802154_print_packet packet) := by
  have hc : (fcf_at packet 1).secure ≠ 0 ∨ (fcf_at packet 1).information_elements_present ≠ 0 := by
    rcases hu with hu | hu
    · exact Or.inl (by rw [hu]; decide)
    · exact Or.inr (by rw [hu]; decide)
  have e1 : ∀ q : buffer,
      ((fcf_at q 1).secure ≠ 0 ∨ (fcf_at q 1).information_elements_present ≠ 0) →
      esp_ieee802154_print_packet q = [log_line.rule] ++ print_fcf (fcf_at q 1)
        ++ [log_line.unsupported_error, log_line.rule] := by
    intro q hq
    unfold esp_ieee802154_print_packet
    simp only [if_pos hq]
  refine ⟨e1 packet hc, ?_⟩
  intro other h1 h2
  have hf : fcf_at other 1 = fcf_at packet 1 := by
    unfold fcf_at
    rw [h1, h2]
  rw [e1 packet hc, e1 other (by rw [hf]; exact hc), hf]

/-- Witness of C19: a Data frame with the security-enabled bit set. -/
theorem decoder_rejects_security_and_ie_witness :
    ((fcf_at (memcpy (fun _ => 0) 0 [17, 0x69, 0xA8, 7, 1, 0, 2, 0, 3, 0]) 1).secure = 1 ∨
      (fcf_at (memcpy (fun _ => 0) 0 [17, 0x69, 0xA8, 7, 1, 0, 2, 0, 3, 0]) 1
        ).information_elements_present = 1) ∧
    esp_ieee802154_print_packet (memcpy (fun _ => 0) 0 [17, 0x69, 0xA8, 7, 1, 0, 2, 0, 3, 0])
      = [log_line.rule]
        ++ print_fcf (fcf_at (memcpy (fun _ => 0) 0 [17, 0x69, 0xA8, 7, 1, 0, 2, 0, 3, 0]) 1)
        ++ [log_line.unsupported_error, log_line.rule] :=
  ⟨Or.inl (by decide),
    (decoder_rejects_security_and_ie
      (memcpy (fun _ => 0) 0 [17, 0x69, 0xA8, 7, 1, 0, 2, 0, 3, 0]) (Or.inl (by decide))).1⟩

/-- C20 (the code at the failing input): for every received frame with the security and
information-elements bits clear and frame type Beacon, MAC-Command, Multipurpose, Fragment
or Extended, the decoder prints the FCF and warns that printing this packet is not
supported (no error; no sequence number, PAN id, address or payload line). It then reads
the bytes at the indices 3 and 4, where the frame holds its sequence number and the first
byte of its PAN id, and logs them as RSSI and LQI: a frame with the same FCF bytes gets
the same log exactly when it agrees in these two bytes. -/
theorem decoder_unsupported_frame_type (packet : buffer)
    (hsec : (fcf_at packet 1).secure = 0)
    (hie : (fcf_at packet 1).information_elements_present = 0)
    (ht : (fcf_at packet 1).frame_type = FRAME_TYPE_BEACON ∨
      (fcf_at packet 1).frame_type = FRAME_TYPE_MAC_COMMAND ∨
      (fcf_at packet 1).frame_type = FRAME_TYPE_MULTIPURPOSE ∨
      (fcf_at packet 1).frame_type = FRAME_TYPE_FRAGMENT ∨
      (fcf_at packet 1).frame_type = FRAME_TYPE_EXTENDED) :
    esp_ieee802154_print_packet packet
      = [log_line.rule] ++ print_fcf (fcf_at packet 1)
        ++ (if (fcf_at packet 1).reserved ≠ 0 then [log_line.reserved_warning] else [])
        ++ [log_line.packet_heading (frame_type_to_string (fcf_at packet 1)),
            log_line.not_supported_warning,
            log_line.transmission_heading,
            log_line.rssi (int8_of (packet 3)),
            log_line.lqi (packet 4),
            log_line.rule] ∧
    (∀ other : buffer, other 1 = packet 1 → other 2 = packet 2 →
      (esp_ieee802154_print_packet other = esp_ieee802154_print_packet packet
        ↔ int8_of (other 3) = int8_of (packet 3) ∧ other 4 = packet 4)) := by
  refine ⟨print_packet_unsupported packet hsec hie ht, ?_⟩
  intro other h1 h2
  have hf : fcf_at other 1 = fcf_at packet 1 := by
    simp only [fcf_at, h1, h2]
  rw [print_packet_unsupported other (by rw [hf]; exact hsec) (by rw [hf]; exact hie)
      (by rw [hf]; exact ht),
    print_packet_unsupported packet hsec hie ht, hf]
  simp

/-- Witness of C20: the received MAC-Command frame with sequence number 7, PAN id 0x0001,
RSSI byte 200 at index 16 and LQI byte 255 at index 17. The decoder logs RSSI 7 and LQI 1,
the bytes at the indices 3 and 4, and the log changes when the sequence number becomes
9. -/
theorem decoder_unsupported_frame_type_witness :
    (fcf_at received_mac_command 1).secure = 0 ∧
    (fcf_at received_mac_command 1).information_elements_present = 0 ∧
    (fcf_at received_mac_command 1).frame_type = FRAME_TYPE_MAC_COMMAND ∧
    received_mac_command 0 = 17 ∧ received_mac_command 16 = 200 ∧
    received_mac_command 17 = 255 ∧
    esp_ieee802154_print_packet received_mac_command
      = [log_line.rule]
        ++ print_fcf (fcf_at received_mac_command 1)
        ++ [log_line.packet_heading "MAC CMD", log_line.not_supported_warning,
            log_line.transmission_heading, log_line.rssi 7, log_line.lqi 1,
            log_line.rule] ∧
    esp_ieee802154_print_packet (store received_mac_command 3 9)
      ≠ esp_ieee802154_print_packet received_mac_command :=
  ⟨by decide, by decide, by decide, by decide, by decide, by decide,
    (decoder_unsupported_frame_type received_mac_command
      (by decide) (by decide) (Or.inr (Or.inl (by decide)))).1,
    fun h => absurd
      (((decoder_unsupported_frame_type received_mac_command
        (by decide) (by decide) (Or.inr (Or.inl (by decide)))).2
          (store received_mac_command 3 9) (by decide) (by decide)).1 h).1
      (by decide)⟩


/-- C21: for a Data frame that is not rejected, with both addressing modes short or long and
a length byte L of at least p + 2, p being the index after the decoded header, the decoder
logs the payload length L - p - 2 and dumps exactly the L - p - 2 bytes from index p on;
it skips one byte after the payload and reads RSSI (as a signed 8-bit value) from the
next byte and LQI (unsigned) from the byte after that. -/
theorem decoder_payload_and_metadata (packet : buffer)
    (hsec : (fcf_at packet 1).secure = 0) (hie : (fcf_at packet 1).information_elements_present = 0)
    (ht : (fcf_at packet 1).frame_type = FRAME_TYPE_DATA)
    (hd : (fcf_at packet 1).dst_addr_mode = ADDR_MODE_SHORT ∨ (fcf_at packet 1).dst_addr_mode = ADDR_MODE_LONG)
    (hs : (fcf_at packet 1).src_addr_mode = ADDR_MODE_SHORT ∨ (fcf_at packet 1).src_addr_mode = ADDR_MODE_LONG)
    (hL : header_end packet + 2 ≤ packet 0 % 256) :
    esp_ieee802154_print_packet packet
      = header_lines packet
        ++ [log_line.data_length (packet 0 % 256 - header_end packet - 2)]
        ++ esp_ieee802154_data_hexdump (fun i => packet (header_end packet + i)) (packet 0 % 256 - header_end packet - 2)
        ++ [log_line.transmission_heading,
            log_line.rssi (int8_of (packet (header_end packet + (packet 0 % 256 - header_end packet - 2) + 1))),
            log_line.lqi (packet (header_end packet + (packet 0 % 256 - header_end packet - 2) + 1 + 1)),
            log_line.rule] ∧
    dumped_bytes (esp_ieee802154_data_hexdump (fun i => packet (header_end packet + i)) (packet 0 % 256 - header_end packet - 2))
      = bytes_from packet (header_end packet) (packet 0 % 256 - header_end packet - 2) ∧
    header_end packet = walk_start (fcf_at packet 1) + 2 + (if (fcf_at packet 1).dst_addr_mode = ADDR_MODE_SHORT then 2 else 8)
      + src_pan_length (fcf_at packet 1) + (if (fcf_at packet 1).src_addr_mode = ADDR_MODE_SHORT then 2 else 8) := by
  have hl : packet 0 % 256 < 256 := Nat.mod_lt _ (by decide)
  have e1 := payload_extent_length (packet 0 % 256) (header_end packet) hL hl
  have e2 := payload_extent_position (packet 0 % 256) (header_end packet) hl (by omega)
  have e3 : (packet 0 % 256 + 255) % 256 = header_end packet + (packet 0 % 256 - header_end packet - 2) + 1 := by omega
  refine ⟨?_, ?_, ?_⟩
  · rw [print_packet_data_lines packet hsec hie ht, e1, e2, e3]
  · rw [dumped_bytes_hexdump _ _ (by omega)]
    simp [bytes_from]
  · rw [header_end_eq packet hd]
    unfold after_dst_address
    rcases hd with hd | hd <;> rcases hs with hs | hs <;> simp [addr_len, hd, hs]

/-- Witness of C21: the received frame with payload "Hallo": L = 17, p = 10, payload
length 5, RSSI -56 from index 16, LQI 255 from index 17. -/
theorem decoder_payload_and_metadata_witness :
    (fcf_at received_data 1).secure = 0 ∧
    (fcf_at received_data 1).information_elements_present = 0 ∧
    (fcf_at received_data 1).frame_type = FRAME_TYPE_DATA ∧
    header_end received_data = 10 ∧
    esp_ieee802154_print_packet received_data
      = header_lines received_data
        ++ [log_line.data_length 5]
        ++ esp_ieee802154_data_hexdump (fun i => received_data (10 + i)) 5
        ++ [log_line.transmission_heading, log_line.rssi (-56), log_line.lqi 255,
            log_line.rule] ∧
    dumped_bytes (esp_ieee802154_data_hexdump (fun i => received_data (10 + i)) 5)
      = [72, 97, 108, 108, 111] :=
  ⟨by decide, by decide, by decide, by decide,
    (decoder_payload_and_metadata received_data (by decide) (by decide) (by decide)
      (Or.inl (by decide)) (Or.inl (by decide)) (by decide)).1,
    (decoder_payload_and_metadata received_data (by decide) (by decide) (by decide)
      (Or.inl (by decide)) (Or.inl (by decide)) (by decide)).2.1⟩

/-- C23, as the claim states it, fails: for a Data frame with destination mode none, the
compression bit clear and source mode short, the decoder logs that no destination address
information is present and returns from the address walk: it consumes no source PAN id
and decodes no source address, and takes the eight bytes from index 4 on as payload. -/
theorem decoder_skips_source_counterexample :
    (fcf_at (memcpy (fun _ => 0) 0 [14, 0x01, 0x80, 7, 9, 0, 3, 0, 72, 97, 108, 108, 111]) 1
      ).dst_addr_mode = ADDR_MODE_NONE ∧
    (fcf_at (memcpy (fun _ => 0) 0 [14, 0x01, 0x80, 7, 9, 0, 3, 0, 72, 97, 108, 108, 111]) 1
      ).src_addr_mode = ADDR_MODE_SHORT ∧
    (fcf_at (memcpy (fun _ => 0) 0 [14, 0x01, 0x80, 7, 9, 0, 3, 0, 72, 97, 108, 108, 111]) 1
      ).pan_id_compression = 0 ∧
    esp_ieee802154_print_packet (memcpy (fun _ => 0) 0 [14, 0x01, 0x80, 7, 9, 0, 3, 0, 72, 97, 108, 108, 111])
      = [log_line.rule, log_line.fcf_heading, log_line.frame_type "Data",
          log_line.security_enabled false, log_line.frame_pending false,
          log_line.ack_request false, log_line.pan_id_compression false,
          log_line.reserved false, log_line.dst_addr_mode "None",
          log_line.frame_version "2003", log_line.src_addr_mode "Short",
          log_line.packet_heading "Data", log_line.sequence_number 7,
          log_line.no_dst_warning, log_line.data_length 8,
          log_line.data_dump true [9, 0, 3, 0, 72, 97, 108, 108],
          log_line.transmission_heading, log_line.rssi 0, log_line.lqi 0,
          log_line.rule] := by
  refine ⟨by decide, by decide, by decide, by decide⟩

/-- C23 amended: for a Data frame that is not rejected and whose destination addressing
mode is short or long, the decoder reads the source PAN id from the two bytes after the
destination address exactly when the compression bit is clear, then decodes the source
address where the walk stands (2 bytes for short, 8 for long, none for the other modes),
and the payload starts right after it. For every other destination addressing mode (none
or reserved) it logs that no destination address information is present and decodes no
source field: the payload starts where the address walk started. -/
theorem decoder_source_fields (packet : buffer)
    (hsec : (fcf_at packet 1).secure = 0) (hie : (fcf_at packet 1).information_elements_present = 0)
    (ht : (fcf_at packet 1).frame_type = FRAME_TYPE_DATA) :
    (((fcf_at packet 1).dst_addr_mode = ADDR_MODE_SHORT ∨
        (fcf_at packet 1).dst_addr_mode = ADDR_MODE_LONG) →
      esp_ieee802154_print_packet packet
        = preamble_lines packet ++ dst_lines packet (walk_start (fcf_at packet 1))
          ++ [(if (fcf_at packet 1).pan_id_compression ≠ 0 then
                log_line.src_pan_intra (read_uint16 packet (walk_start (fcf_at packet 1)) / 256)
                  (read_uint16 packet (walk_start (fcf_at packet 1)) % 256)
              else
                log_line.src_pan_inter (read_uint16 packet (after_dst_address packet) / 256)
                  (read_uint16 packet (after_dst_address packet) % 256)),
              src_addr_line packet
                (after_dst_address packet + (if (fcf_at packet 1).pan_id_compression ≠ 0 then 0 else 2))]
          ++ printed_payload packet
              (after_dst_address packet + (if (fcf_at packet 1).pan_id_compression ≠ 0 then 0 else 2)
                + addr_len (fcf_at packet 1).src_addr_mode)) ∧
    (¬ ((fcf_at packet 1).dst_addr_mode = ADDR_MODE_SHORT ∨
        (fcf_at packet 1).dst_addr_mode = ADDR_MODE_LONG) →
      esp_ieee802154_print_packet packet
        = preamble_lines packet ++ [log_line.no_dst_warning]
          ++ printed_payload packet (walk_start (fcf_at packet 1))) := by
  constructor
  · intro hd
    rw [print_packet_data packet hsec hie ht, header_lines_eq packet hd,
      header_end_eq packet hd]
    rfl
  · intro hd
    rw [print_packet_data packet hsec hie ht, header_lines, header_end,
      address_information_none packet _ hd]

/-- Witness of C23 amended: the received frame with short addresses and compression, and
the frame with destination mode none, whose payload starts at index 4. -/
theorem decoder_source_fields_witness :
    (fcf_at received_data 1).secure = 0 ∧
    (fcf_at received_data 1).information_elements_present = 0 ∧
    (fcf_at received_data 1).frame_type = FRAME_TYPE_DATA ∧
    ((fcf_at received_data 1).dst_addr_mode = ADDR_MODE_SHORT ∨
      (fcf_at received_data 1).dst_addr_mode = ADDR_MODE_LONG) ∧
    esp_ieee802154_print_packet received_data
      = preamble_lines received_data ++ dst_lines received_data 4
        ++ [log_line.src_pan_intra 0 1, log_line.src_addr_short 0 3]
        ++ printed_payload received_data 10 ∧
    (fcf_at data_without_destination 1).dst_addr_mode = ADDR_MODE_NONE ∧
    esp_ieee802154_print_packet data_without_destination
      = preamble_lines data_without_destination ++ [log_line.no_dst_warning]
        ++ printed_payload data_without_destination 4 :=
  ⟨by decide, by decide, by decide, Or.inl (by decide),
    (decoder_source_fields received_data (by decide) (by decide) (by decide)).1
      (Or.inl (by decide)),
    by decide,
    (decoder_source_fields data_without_destination (by decide) (by decide) (by decide)).2
      (by decide)⟩

/-- C29: for every Data frame and every 2015 Ack frame that is not rejected, with length
byte L ≥ 1, the 8-bit position arithmetic of the decoder ends at L - 1 whatever the header
shape and the payload length: the log closes with the RSSI read from index L - 1 and the
LQI read from index L. -/
theorem rssi_lqi_position (packet : buffer)
    (hsec : (fcf_at packet 1).secure = 0) (hie : (fcf_at packet 1).information_elements_present = 0)
    (ht : (fcf_at packet 1).frame_type = FRAME_TYPE_DATA ∨
      ((fcf_at packet 1).frame_type = FRAME_TYPE_ACK ∧ (fcf_at packet 1).frame_ver = FRAME_VERSION_STD_2015))
    (hL : 1 ≤ packet 0 % 256) :
    (payload_extent (packet 0 % 256) (header_end packet)).2 = packet 0 % 256 - 1 ∧
    ∃ pre : List log_line,
      esp_ieee802154_print_packet packet
        = pre ++ [log_line.transmission_heading,
            log_line.rssi (int8_of (packet (packet 0 % 256 - 1))),
            log_line.lqi (packet (packet 0 % 256)),
            log_line.rule] := by
  have hl : packet 0 % 256 < 256 := Nat.mod_lt _ (by decide)
  have hp := header_end_le packet
  have e2 := payload_extent_position (packet 0 % 256) (header_end packet) hl (by omega)
  have e3 : (packet 0 % 256 + 255) % 256 = packet 0 % 256 - 1 := by omega
  have e4 : packet 0 % 256 - 1 + 1 = packet 0 % 256 := by omega
  rw [e3] at e2
  refine ⟨e2, ?_⟩
  rcases ht with ht | ⟨ht, hv⟩
  · have h := print_packet_data_lines packet hsec hie ht
    rw [e2, e4] at h
    exact ⟨_, h⟩
  · have h := print_packet_ack_2015 packet hsec hie ht hv
    rw [e2, print_transmission_info, e4] at h
    exact ⟨_, h⟩

/-- Witness of C29: the received frame with L = 17: RSSI from index 16, LQI from
index 17. -/
theorem rssi_lqi_position_witness :
    (fcf_at received_data 1).secure = 0 ∧
    (fcf_at received_data 1).information_elements_present = 0 ∧
    (fcf_at received_data 1).frame_type = FRAME_TYPE_DATA ∧
    1 ≤ received_data 0 % 256 ∧
    (payload_extent (received_data 0 % 256) (header_end received_data)).2 = 16 :=
  ⟨by decide, by decide, by decide, by decide,
    (rssi_lqi_position received_data (by decide) (by decide) (Or.inl (by decide))
      (by decide)).1⟩

/-- C30: a Data frame that is not rejected and whose length byte L is smaller than p + 2,
p being the index after the decoded header, is decoded all the same: the logged payload
length is the 8-bit value L + 256 - p - 2, which is at least 230 and equals the integer
(L - p - 2) mod 256, and that many bytes are dumped. -/
theorem short_length_wraps (packet : buffer)
    (hsec : (fcf_at packet 1).secure = 0) (hie : (fcf_at packet 1).information_elements_present = 0)
    (ht : (fcf_at packet 1).frame_type = FRAME_TYPE_DATA)
    (hL : packet 0 % 256 < header_end packet + 2) :
    esp_ieee802154_print_packet packet
      = header_lines packet
        ++ [log_line.data_length (packet 0 % 256 + 256 - header_end packet - 2)]
        ++ esp_ieee802154_data_hexdump (fun i => packet (header_end packet + i)) (packet 0 % 256 + 256 - header_end packet - 2)
        ++ print_transmission_info packet ((packet 0 % 256 + 255) % 256) ∧
    (payload_extent (packet 0 % 256) (header_end packet)).1 = (packet 0 % 256 + 256 - header_end packet - 2) % 256 ∧
    230 ≤ packet 0 % 256 + 256 - header_end packet - 2 ∧
    dumped_bytes (esp_ieee802154_data_hexdump (fun i => packet (header_end packet + i))
        (packet 0 % 256 + 256 - header_end packet - 2))
      = bytes_from packet (header_end packet) (packet 0 % 256 + 256 - header_end packet - 2) ∧
    (((payload_extent (packet 0 % 256) (header_end packet)).1 : Nat) : Int)
      = (((packet 0 % 256 : Nat) : Int) - ((header_end packet : Nat) : Int) - 2) % 256 := by
  have hl : packet 0 % 256 < 256 := Nat.mod_lt _ (by decide)
  have hp := header_end_le packet
  have e1 := payload_extent_wrapped (packet 0 % 256) (header_end packet) hL (by omega)
  have e2 := payload_extent_position (packet 0 % 256) (header_end packet) hl (by omega)
  refine ⟨?_, ?_, by omega, ?_, ?_⟩
  · rw [print_packet_data packet hsec hie ht, printed_payload, e1, e2]
    simp only [List.append_assoc]
  · rw [e1]
    exact (Nat.mod_eq_of_lt (by omega)).symm
  · rw [dumped_bytes_hexdump _ _ (by omega)]
    simp [bytes_from]
  · rw [e1]
    omega

/-- Witness of C30: the 2015 header of the example behind the length byte 9: p = 10, and
the logged payload length is 9 + 256 - 10 - 2 = 253. -/
theorem short_length_wraps_witness :
    (fcf_at (memcpy (fun _ => 0) 0 [9, 0x61, 0xA8, 7, 1, 0, 2, 0, 3, 0]) 1).secure = 0 ∧
    (fcf_at (memcpy (fun _ => 0) 0 [9, 0x61, 0xA8, 7, 1, 0, 2, 0, 3, 0]) 1
      ).information_elements_present = 0 ∧
    (fcf_at (memcpy (fun _ => 0) 0 [9, 0x61, 0xA8, 7, 1, 0, 2, 0, 3, 0]) 1).frame_type
      = FRAME_TYPE_DATA ∧
    header_end (memcpy (fun _ => 0) 0 [9, 0x61, 0xA8, 7, 1, 0, 2, 0, 3, 0]) = 10 ∧
    (payload_extent (memcpy (fun _ => 0) 0 [9, 0x61, 0xA8, 7, 1, 0, 2, 0, 3, 0] 0 % 256)
      (header_end (memcpy (fun _ => 0) 0 [9, 0x61, 0xA8, 7, 1, 0, 2, 0, 3, 0]))).1 = 253 :=
  ⟨by decide, by decide, by decide, by decide,
    (short_length_wraps (memcpy (fun _ => 0) 0 [9, 0x61, 0xA8, 7, 1, 0, 2, 0, 3, 0])
      (by decide) (by decide) (by decide) (by decide)).2.1⟩

/-- C25: let a be the acknowledgment built from an inbound frame f and b the one built
from a. Then b[0] = a[0], the FCF of b is the FCF of a with the two addressing modes set
back to those of f, and every byte of b from index 3 up to the end of its header equals
the byte of f at the same index. (Proved for every inbound frame; the header end is the
last index the builder writes.) -/
theorem ack_of_ack (f e e2 : buffer) :
    esp_ieee802154_create_2015_ack_frame (esp_ieee802154_create_2015_ack_frame f e) e2 0 = esp_ieee802154_create_2015_ack_frame f e 0 ∧
    fcf_at (esp_ieee802154_create_2015_ack_frame (esp_ieee802154_create_2015_ack_frame f e) e2) 1
      = { fcf_at (esp_ieee802154_create_2015_ack_frame f e) 1 with
          dst_addr_mode := (fcf_at f 1).dst_addr_mode
          src_addr_mode := (fcf_at f 1).src_addr_mode } ∧
    (∀ j : Nat, 3 ≤ j → j ≤ ack_bytes_written (fcf_at f 1) →
      esp_ieee802154_create_2015_ack_frame (esp_ieee802154_create_2015_ack_frame f e) e2 j = f j) := by
  have hA : fcf_at (esp_ieee802154_create_2015_ack_frame f e) 1 = ack_fcf_of (fcf_at f 1) := ack_fcf_at f e
  refine ⟨?_, ?_, ?_⟩
  · rw [ack_length_byte, ack_length_byte, hA]
    simp only [ack_bytes_written, ack_fcf_of]
    omega
  · rw [ack_fcf_at, hA]
    rfl
  · intro j h3 hj
    have ps : ack_fields_start (fcf_at (esp_ieee802154_create_2015_ack_frame f e) 1) = ack_fields_start (fcf_at f 1) := by
      rw [hA]; rfl
    have hdl : ack_addr_len (fcf_at (esp_ieee802154_create_2015_ack_frame f e) 1).dst_addr_mode
        = ack_addr_len (fcf_at f 1).src_addr_mode := by rw [hA]; rfl
    have hsl : ack_addr_len (fcf_at (esp_ieee802154_create_2015_ack_frame f e) 1).src_addr_mode
        = ack_addr_len (fcf_at f 1).dst_addr_mode := by rw [hA]; rfl
    have hpic : (fcf_at (esp_ieee802154_create_2015_ack_frame f e) 1).pan_id_compression
        = (fcf_at f 1).pan_id_compression := by rw [hA]; rfl
    have hsns : (fcf_at (esp_ieee802154_create_2015_ack_frame f e) 1).sequence_number_suppression
        = (fcf_at f 1).sequence_number_suppression := by rw [hA]; rfl
    have hstart : ack_fields_start (fcf_at f 1)
        = if (fcf_at f 1).sequence_number_suppression = 0 then 4 else 3 := rfl
    unfold ack_bytes_written at hj
    by_cases h0 : j = 3 ∧ (fcf_at f 1).sequence_number_suppression = 0
    · obtain ⟨rfl, h0⟩ := h0
      rw [ack_seq_copied _ _ (by rw [hsns]; exact h0), ack_seq_copied _ _ h0]
    · have hge : ack_fields_start (fcf_at f 1) ≤ j := by
        rw [hstart]; split_ifs with hq
        · have : j ≠ 3 := fun h => h0 ⟨h, hq⟩
          omega
        · exact h3
      by_cases hp : (fcf_at f 1).pan_id_compression ≠ 0
      · obtain ⟨a1, a2, a3⟩ := ack_apply_compressed f e hp
        obtain ⟨b1, b2, b3⟩ := ack_apply_compressed (esp_ieee802154_create_2015_ack_frame f e) e2 (by rw [hpic]; exact hp)
        rw [ps] at b1
        rw [ps, hdl, hsl] at b2 b3
        rw [if_pos hp] at hj
        generalize ack_addr_len (fcf_at f 1).src_addr_mode = sl at *
        generalize ack_addr_len (fcf_at f 1).dst_addr_mode = dl at *
        generalize ack_fields_start (fcf_at f 1) = p at *
        have hj2 : j < p + 2 + dl + sl := by
          rw [hstart]; split_ifs at hj ⊢ <;> omega
        by_cases c1 : j < p + 2
        · rw [b1 j hge c1, a1 j hge c1]
        · by_cases c2 : j < p + 2 + dl
          · rw [b2 j (by omega) c2, a3 (j + sl) (by omega) (by omega)]
            congr 1
            omega
          · rw [b3 j (by omega) hj2, a2 (j - dl) (by omega) (by omega)]
            congr 1
            omega
      · have hp0 : (fcf_at f 1).pan_id_compression = 0 := by
          by_contra hne
          exact hp hne
        obtain ⟨a1, a2⟩ := ack_apply_uncompressed f e hp0
        obtain ⟨b1, b2⟩ := ack_apply_uncompressed (esp_ieee802154_create_2015_ack_frame f e) e2 (by rw [hpic]; exact hp0)
        rw [ps, hdl, hsl] at b1 b2
        rw [if_neg hp] at hj
        generalize ack_addr_len (fcf_at f 1).src_addr_mode = sl at *
        generalize ack_addr_len (fcf_at f 1).dst_addr_mode = dl at *
        generalize ack_fields_start (fcf_at f 1) = p at *
        have hj2 : j < p + 2 + dl + 2 + sl := by
          rw [hstart]; split_ifs at hj ⊢ <;> omega
        by_cases c1 : j < p + 2 + dl
        · rw [b1 j hge c1, a2 (j + 2 + sl) (by omega) (by omega)]
          congr 1
          omega
        · rw [b2 j (by omega) hj2, a1 (j - 2 - dl) (by omega) (by omega)]
          congr 1
          omega

/-- C28: for every inbound frame the acknowledgment builder reads only the inbound indices
1 to 23 (two inbound frames that agree there give the same acknowledgment), leaves every
acknowledgment index from 24 on as it was, and sets a length byte between 11 and 26. -/
theorem ack_buffer_bounds (frame e : buffer) :
    (∀ other : buffer, (∀ i : Nat, 1 ≤ i → i ≤ 23 → other i = frame i) →
      esp_ieee802154_create_2015_ack_frame other e = esp_ieee802154_create_2015_ack_frame frame e) ∧
    (∀ j : Nat, 24 ≤ j → esp_ieee802154_create_2015_ack_frame frame e j = e j) ∧
    11 ≤ esp_ieee802154_create_2015_ack_frame frame e 0 ∧ esp_ieee802154_create_2015_ack_frame frame e 0 ≤ 26 := by
  have hb := ack_bytes_written_le (fcf_at frame 1)
  refine ⟨?_, ?_, ?_, ?_⟩
  · intro other h
    have hbody : ack_body frame = ack_body other :=
      ack_body_congr frame other (fun i h1 h2 => (h i h1 (by omega)).symm)
    rw [ack_frame_eq, ack_frame_eq, hbody]
  · intro j hj
    rw [ack_frame_memcpy]
    apply memcpy_beyond
    rw [List.length_cons, ack_body_length]
    omega
  · rw [ack_length_byte]; omega
  · rw [ack_length_byte]; omega

/-- C26: for an inbound frame with both addressing modes short or long, the decoder does
not reject the built acknowledgment (security and information-elements bits clear), takes
the 2015 Ack branch, ends its header walk at index ack[0] - 2, computes the payload length
0 and logs that the ACK contains no data. -/
theorem decode_built_ack (f e : buffer)
    (hd : (fcf_at f 1).dst_addr_mode = ADDR_MODE_SHORT ∨
      (fcf_at f 1).dst_addr_mode = ADDR_MODE_LONG)
    (hs : (fcf_at f 1).src_addr_mode = ADDR_MODE_SHORT ∨
      (fcf_at f 1).src_addr_mode = ADDR_MODE_LONG) :
    (fcf_at (esp_ieee802154_create_2015_ack_frame f e) 1).secure = 0 ∧
    (fcf_at (esp_ieee802154_create_2015_ack_frame f e) 1).information_elements_present = 0 ∧
    (fcf_at (esp_ieee802154_create_2015_ack_frame f e) 1).frame_type = FRAME_TYPE_ACK ∧
    (fcf_at (esp_ieee802154_create_2015_ack_frame f e) 1).frame_ver = FRAME_VERSION_STD_2015 ∧
    header_end (esp_ieee802154_create_2015_ack_frame f e) = (esp_ieee802154_create_2015_ack_frame f e) 0 - 2 ∧
    (payload_extent ((esp_ieee802154_create_2015_ack_frame f e) 0 % 256) (header_end (esp_ieee802154_create_2015_ack_frame f e))).1 = 0 ∧
    esp_ieee802154_print_packet (esp_ieee802154_create_2015_ack_frame f e)
      = header_lines (esp_ieee802154_create_2015_ack_frame f e) ++ [log_line.ack_contains_no_data]
        ++ print_transmission_info (esp_ieee802154_create_2015_ack_frame f e) ((esp_ieee802154_create_2015_ack_frame f e) 0 - 1) := by
  have hA : fcf_at (esp_ieee802154_create_2015_ack_frame f e) 1 = ack_fcf_of (fcf_at f 1) := ack_fcf_at f e
  have h1 : (fcf_at (esp_ieee802154_create_2015_ack_frame f e) 1).secure = 0 := by rw [hA]; rfl
  have h2 : (fcf_at (esp_ieee802154_create_2015_ack_frame f e) 1).information_elements_present = 0 := by rw [hA]; rfl
  have h3 : (fcf_at (esp_ieee802154_create_2015_ack_frame f e) 1).frame_type = FRAME_TYPE_ACK := by rw [hA]; rfl
  have h4 : (fcf_at (esp_ieee802154_create_2015_ack_frame f e) 1).frame_ver = FRAME_VERSION_STD_2015 := by rw [hA]; rfl
  have hb := ack_bytes_written_le (fcf_at f 1)
  have h0 : (esp_ieee802154_create_2015_ack_frame f e) 0 = ack_bytes_written (fcf_at f 1) + 3 := ack_length_byte f e
  have he : header_end (esp_ieee802154_create_2015_ack_frame f e) = ack_bytes_written (fcf_at f 1) + 1 := by
    rw [header_end_eq (esp_ieee802154_create_2015_ack_frame f e) (by rw [hA]; exact hs)]
    unfold after_dst_address walk_start src_pan_length ack_bytes_written
    rw [hA, ack_addr_len_eq _ hd, ack_addr_len_eq _ hs]
    simp only [ack_fcf_of]
    split_ifs <;> first | omega | simp_all
  have hz : (payload_extent ((esp_ieee802154_create_2015_ack_frame f e) 0 % 256) (header_end (esp_ieee802154_create_2015_ack_frame f e))).1 = 0 := by
    rw [he, h0]
    simp only [payload_extent]
    omega
  have hq : (payload_extent ((esp_ieee802154_create_2015_ack_frame f e) 0 % 256) (header_end (esp_ieee802154_create_2015_ack_frame f e))).2 = (esp_ieee802154_create_2015_ack_frame f e) 0 - 1 := by
    rw [payload_extent_position _ _ (Nat.mod_lt _ (by decide)) (by rw [he]; omega), h0]
    omega
  refine ⟨h1, h2, h3, h4, by rw [he, h0]; omega, hz, ?_⟩
  rw [print_packet_ack_2015 (esp_ieee802154_create_2015_ack_frame f e) h1 h2 h3 h4, hz, hq]
  rfl

/-- Witness of C26: the acknowledgment of the compressed inbound frame has length byte 12
and its header walk ends at index 10. -/
theorem decode_built_ack_witness :
    ((fcf_at inbound_compressed 1).dst_addr_mode = ADDR_MODE_SHORT ∨
      (fcf_at inbound_compressed 1).dst_addr_mode = ADDR_MODE_LONG) ∧
    ((fcf_at inbound_compressed 1).src_addr_mode = ADDR_MODE_SHORT ∨
      (fcf_at inbound_compressed 1).src_addr_mode = ADDR_MODE_LONG) ∧
    header_end (esp_ieee802154_create_2015_ack_frame inbound_compressed fun _ => 0) = 10 ∧
    (payload_extent ((esp_ieee802154_create_2015_ack_frame inbound_compressed fun _ => 0) 0 % 256)
      (header_end (esp_ieee802154_create_2015_ack_frame inbound_compressed fun _ => 0))).1 = 0 :=
  ⟨Or.inl (by decide), Or.inl (by decide),
    (decode_built_ack inbound_compressed (fun _ => 0) (Or.inl (by decide))
      (Or.inl (by decide))).2.2.2.2.1,
    (decode_built_ack inbound_compressed (fun _ => 0) (Or.inl (by decide))
      (Or.inl (by decide))).2.2.2.2.2.1⟩

/-- C24, as the claim states it, fails for the acknowledgment builder: an inbound Data
frame of version 2003 with FCF bit 8 set and the byte 7 at index 3. The decoder shows the
sequence number 7 from index 3, but the builder does not copy byte 3 as the sequence number:
it sets the suppression bit of the acknowledgment and starts the addressing fields at index
3, so the acknowledgment holds 0 at index 3 and the inbound byte 3 among its address
bytes. -/
theorem builder_ignores_version_counterexample :
    (fcf_at inbound_2003_bit8 1).frame_type = FRAME_TYPE_DATA ∧
    (fcf_at inbound_2003_bit8 1).frame_ver = FRAME_VERSION_STD_2003 ∧
    inbound_2003_bit8 3 = 7 ∧
    log_line.sequence_number 7 ∈ esp_ieee802154_print_packet inbound_2003_bit8 ∧
    esp_ieee802154_create_2015_ack_frame inbound_2003_bit8 (fun _ => 0) 3 ≠ inbound_2003_bit8 3 ∧
    (fcf_at (esp_ieee802154_create_2015_ack_frame inbound_2003_bit8 (fun _ => 0)) 1).sequence_number_suppression = 1 ∧
    bytes_from (esp_ieee802154_create_2015_ack_frame inbound_2003_bit8 (fun _ => 0)) 0 11
      = [13, 0x02, 0xA9, 0, 4, 0, 3, 7, 1, 0, 2] := by
  decide

/-- C24 amended: the decoder on a Data frame that is not rejected follows the wire-format
rule: it shows byte 3 as the sequence number and walks the addressing fields from index 4,
unless the version is 2015 and the suppression bit is set, when it walks them from index 3.
The acknowledgment builder looks only at the suppression bit (FCF bit 8) of the inbound
frame, whatever its version: with the bit clear it copies byte 3 as the sequence number of
the acknowledgment, with the bit set it copies the bit, writes no sequence number and
copies the addressing fields from index 3 on. -/
theorem sequence_number_location (packet e : buffer) :
    ((fcf_at packet 1).secure = 0 → (fcf_at packet 1).information_elements_present = 0 →
      (fcf_at packet 1).frame_type = FRAME_TYPE_DATA →
      esp_ieee802154_print_packet packet
        = [log_line.rule] ++ print_fcf (fcf_at packet 1)
          ++ (if (fcf_at packet 1).reserved ≠ 0 then [log_line.reserved_warning] else [])
          ++ [log_line.packet_heading (frame_type_to_string (fcf_at packet 1))]
          ++ (if (fcf_at packet 1).sequence_number_suppression ≠ 0
                ∧ (fcf_at packet 1).frame_ver = FRAME_VERSION_STD_2015
              then [log_line.seq_suppressed] else [log_line.sequence_number (packet 3)])
          ++ (esp_ieee802154_print_address_information packet
              (if (fcf_at packet 1).sequence_number_suppression ≠ 0
                ∧ (fcf_at packet 1).frame_ver = FRAME_VERSION_STD_2015 then 3 else 4)).1
          ++ printed_payload packet (esp_ieee802154_print_address_information packet
              (if (fcf_at packet 1).sequence_number_suppression ≠ 0
                ∧ (fcf_at packet 1).frame_ver = FRAME_VERSION_STD_2015 then 3 else 4)).2) ∧
    ((fcf_at packet 1).sequence_number_suppression = 0 →
      esp_ieee802154_create_2015_ack_frame packet e 3 = packet 3 ∧
      (fcf_at (esp_ieee802154_create_2015_ack_frame packet e) 1).sequence_number_suppression = 0 ∧
      bytes_from (esp_ieee802154_create_2015_ack_frame packet e) 4 (ack_bytes_written (fcf_at packet 1) - 3)
        = ack_addr_fields packet 4) ∧
    ((fcf_at packet 1).sequence_number_suppression ≠ 0 →
      (fcf_at (esp_ieee802154_create_2015_ack_frame packet e) 1).sequence_number_suppression
        = (fcf_at packet 1).sequence_number_suppression ∧
      bytes_from (esp_ieee802154_create_2015_ack_frame packet e) 3 (ack_bytes_written (fcf_at packet 1) - 2)
        = ack_addr_fields packet 3) := by
  have hA : fcf_at (esp_ieee802154_create_2015_ack_frame packet e) 1 = ack_fcf_of (fcf_at packet 1) := ack_fcf_at packet e
  refine ⟨?_, ?_, ?_⟩
  · intro hsec hie ht
    rw [print_packet_data packet hsec hie ht]
    rfl
  · intro h0
    have hst : ack_fields_start (fcf_at packet 1) = 4 := by simp [ack_fields_start, h0]
    have hb := ack_block_at packet e [] (ack_addr_fields packet 4) [] (by rw [hst]; simp)
    rw [hst, ack_addr_fields_length] at hb
    refine ⟨ack_seq_copied packet e h0, by rw [hA]; exact h0, ?_⟩
    have hl : ack_bytes_written (fcf_at packet 1) - 3
        = (if (fcf_at packet 1).pan_id_compression ≠ 0 then 2 else 4)
          + ack_addr_len (fcf_at packet 1).src_addr_mode
          + ack_addr_len (fcf_at packet 1).dst_addr_mode := by
      simp only [ack_bytes_written, h0, if_true]
      omega
    rw [hl]
    exact hb
  · intro h0
    have hst : ack_fields_start (fcf_at packet 1) = 3 := by simp [ack_fields_start, h0]
    have hb := ack_block_at packet e [] (ack_addr_fields packet 3) [] (by rw [hst]; simp)
    rw [hst, ack_addr_fields_length] at hb
    refine ⟨by rw [hA]; rfl, ?_⟩
    have hl : ack_bytes_written (fcf_at packet 1) - 2
        = (if (fcf_at packet 1).pan_id_compression ≠ 0 then 2 else 4)
          + ack_addr_len (fcf_at packet 1).src_addr_mode
          + ack_addr_len (fcf_at packet 1).dst_addr_mode := by
      simp only [ack_bytes_written, h0, if_false]
      omega
    rw [hl]
    exact hb

/-- Witness of C24 amended: the received 2015 Data frame with sequence number 7 is not
rejected, the decoder shows the sequence number 7, and the acknowledgment built from it
holds 7 at index 3. -/
theorem sequence_number_location_witness :
    (fcf_at received_data 1).secure = 0 ∧
    (fcf_at received_data 1).information_elements_present = 0 ∧
    (fcf_at received_data 1).frame_type = FRAME_TYPE_DATA ∧
    (fcf_at received_data 1).sequence_number_suppression = 0 ∧
    received_data 3 = 7 ∧
    esp_ieee802154_create_2015_ack_frame received_data (fun _ => 0) 3 = received_data 3 :=
  ⟨by decide, by decide, by decide, by decide, by decide,
    ((sequence_number_location received_data (fun _ => 0)).2.1 (by decide)).1⟩

/-- C27: for a destination address in short or long mode, the source address the send
function takes from the radio (short or long), a sequence number (2003) or an optional
sequence number (2015) and a payload of n bytes with 3 + hdr_len + n ≤ 127, where hdr_len is
the header length the encoder of that revision returns: the send function transmits a
frame which the decoder shows as a Data frame with the flags, sequence number and
addresses given to send, the payload length n and, from index 1 + hdr_len on, a dump whose
bytes are the n payload bytes passed to send. Each revision has its own bound. -/
theorem send_then_decode (radio : radio_state) (frame : buffer) (dp : Nat)
    (da : ieee802154_address_t) (data : buffer) (n : Nat) (seq : Nat) (seq_nr : Option Nat)
    (ack : Bool)
    (hd : da.mode = ADDR_MODE_SHORT ∨ da.mode = ADDR_MODE_LONG) :
    (3 + data_header_length true dp da radio.panid (send_src_addr radio) + n ≤ 127 →
      (esp_ieee802154_send_2003_l2_data_frame radio frame dp da data n (some seq) ack).transmitted = true ∧
      (esp_ieee802154_create_2003_data_header dp da radio.panid (send_src_addr radio) (some seq) ack
        (fun i => memset frame 0 127 (i + 1))).ending
        = call_end.returns (data_header_length true dp da radio.panid (send_src_addr radio)) ∧
      (esp_ieee802154_send_2003_l2_data_frame radio frame dp da data n (some seq) ack).frame 0 = 1 + data_header_length true dp da radio.panid (send_src_addr radio) + n + 2 ∧
      esp_ieee802154_print_packet (esp_ieee802154_send_2003_l2_data_frame radio frame dp da data n (some seq) ack).frame
        = printed_flags_2003 dp da radio.panid (send_src_addr radio) ack
          ++ [printed_seq (some seq)]
          ++ printed_addressing dp da radio.panid (send_src_addr radio)
          ++ [log_line.data_length n]
          ++ esp_ieee802154_data_hexdump
              (fun i => (esp_ieee802154_send_2003_l2_data_frame radio frame dp da data n (some seq) ack).frame (1 + data_header_length true dp da radio.panid (send_src_addr radio) + i)) n
          ++ print_transmission_info (esp_ieee802154_send_2003_l2_data_frame radio frame dp da data n (some seq) ack).frame (data_header_length true dp da radio.panid (send_src_addr radio) + n + 2) ∧
      dumped_bytes (esp_ieee802154_data_hexdump
          (fun i => (esp_ieee802154_send_2003_l2_data_frame radio frame dp da data n (some seq) ack).frame (1 + data_header_length true dp da radio.panid (send_src_addr radio) + i)) n) = bytes_from data 0 n ∧
      bytes_from (esp_ieee802154_send_2003_l2_data_frame radio frame dp da data n (some seq) ack).frame (1 + data_header_length true dp da radio.panid (send_src_addr radio)) n = bytes_from data 0 n) ∧
    (3 + data_header_length seq_nr.isSome dp da radio.panid (send_src_addr radio) + n ≤ 127 →
      (esp_ieee802154_send_2015_l2_data_frame radio frame dp da data n seq_nr ack).transmitted = true ∧
      (esp_ieee802154_create_2015_data_header dp da radio.panid (send_src_addr radio) seq_nr ack
        (fun i => memset frame 0 127 (i + 1))).ending
        = call_end.returns (data_header_length seq_nr.isSome dp da radio.panid (send_src_addr radio)) ∧
      (esp_ieee802154_send_2015_l2_data_frame radio frame dp da data n seq_nr ack).frame 0 = 1 + data_header_length seq_nr.isSome dp da radio.panid (send_src_addr radio) + n + 2 ∧
      esp_ieee802154_print_packet (esp_ieee802154_send_2015_l2_data_frame radio frame dp da data n seq_nr ack).frame
        = printed_flags_2015 dp da radio.panid (send_src_addr radio) seq_nr ack
          ++ [printed_seq seq_nr]
          ++ printed_addressing dp da radio.panid (send_src_addr radio)
          ++ [log_line.data_length n]
          ++ esp_ieee802154_data_hexdump
              (fun i => (esp_ieee802154_send_2015_l2_data_frame radio frame dp da data n seq_nr ack).frame (1 + data_header_length seq_nr.isSome dp da radio.panid (send_src_addr radio) + i)) n
          ++ print_transmission_info (esp_ieee802154_send_2015_l2_data_frame radio frame dp da data n seq_nr ack).frame (data_header_length seq_nr.isSome dp da radio.panid (send_src_addr radio) + n + 2) ∧
      dumped_bytes (esp_ieee802154_data_hexdump
          (fun i => (esp_ieee802154_send_2015_l2_data_frame radio frame dp da data n seq_nr ack).frame (1 + data_header_length seq_nr.isSome dp da radio.panid (send_src_addr radio) + i)) n) = bytes_from data 0 n ∧
      bytes_from (esp_ieee802154_send_2015_l2_data_frame radio frame dp da data n seq_nr ack).frame (1 + data_header_length seq_nr.isSome dp da radio.panid (send_src_addr radio)) n = bytes_from data 0 n) :=
  ⟨fun b3 => send_2003_decoded radio frame dp da data n seq ack hd b3,
    fun b5 => send_2015_decoded radio frame dp da data n seq_nr ack hd b5⟩

/-- Witness of C27: the payload "Hallo" sent to the short address 0x0002 with sequence
number 7 (2003) and without a sequence number (2015): the dumps of the decoder hold the
bytes of "Hallo". And the largest payload of the 2015 send function without a sequence
number, 116 bytes behind a header of 8 bytes, for which the bound of the 2003 header
fails. -/
theorem send_then_decode_witness :
    3 + data_header_length true 0x1234 (short_addr 2) example_radio.panid
      (send_src_addr example_radio) + 5 ≤ 127 ∧
    bytes_from (esp_ieee802154_send_2003_l2_data_frame example_radio (fun _ => 0) 0x1234
      (short_addr 2) hallo 5 (some 7) true).frame 10 5 = [72, 97, 108, 108, 111] ∧
    bytes_from (esp_ieee802154_send_2015_l2_data_frame example_radio (fun _ => 0) 0x1234
      (short_addr 2) hallo 5 none true).frame 9 5 = [72, 97, 108, 108, 111] ∧
    dumped_bytes (esp_ieee802154_data_hexdump
      (fun i => (esp_ieee802154_send_2015_l2_data_frame example_radio (fun _ => 0) 0x1234
        (short_addr 2) hallo 5 none true).frame (9 + i)) 5) = [72, 97, 108, 108, 111] ∧
    ¬ (3 + data_header_length true 0x1234 (short_addr 2) example_radio.panid
      (send_src_addr example_radio) + 116 ≤ 127) ∧
    3 + data_header_length (none : Option Nat).isSome 0x1234 (short_addr 2)
      example_radio.panid (send_src_addr example_radio) + 116 = 127 ∧
    bytes_from (esp_ieee802154_send_2015_l2_data_frame example_radio (fun _ => 0) 0x1234
      (short_addr 2) (fun i => i) 116 none true).frame
      (1 + data_header_length (none : Option Nat).isSome 0x1234 (short_addr 2)
        example_radio.panid (send_src_addr example_radio)) 116
      = bytes_from (fun i => i) 0 116 :=
  ⟨by decide,
    ((send_then_decode example_radio (fun _ => 0) 0x1234 (short_addr 2) hallo 5 7 none true
      (Or.inl (by decide))).1 (by decide)).2.2.2.2.2,
    ((send_then_decode example_radio (fun _ => 0) 0x1234 (short_addr 2) hallo 5 7 none true
      (Or.inl (by decide))).2 (by decide)).2.2.2.2.2,
    ((send_then_decode example_radio (fun _ => 0) 0x1234 (short_addr 2) hallo 5 7 none true
      (Or.inl (by decide))).2 (by decide)).2.2.2.2.1,
    by decide, by decide,
    ((send_then_decode example_radio (fun _ => 0) 0x1234 (short_addr 2) (fun i => i) 116 7 none
      true (Or.inl (by decide))).2 (by decide)).2.2.2.2.2⟩

/-- C31: when a sequence number is supplied, the 2003 and the 2015 encoder log no error
and return the same length (5 + destination address + optional source PAN id + source
address), and the 2015 header buffer is the 2003 header buffer with header byte 1
increased by 32: every other byte is the same, and in byte 1 the frame-version bits
(bits 4-5) are 0 for 2003 and 2 for 2015 while the bits 0-3 and 6-7 are the same. -/
theorem encoders_differ_in_version_bits (dp : Nat) (da : ieee802154_address_t) (sp : Nat)
    (sa : ieee802154_address_t) (seq : Nat) (ack : Bool) (h : buffer) :
    (esp_ieee802154_create_2003_data_header dp da sp sa (some seq) ack h).ending
      = call_end.returns (5 + addr_len da.mode + (if dp = sp then 0 else 2)
          + addr_len sa.mode) ∧
    (esp_ieee802154_create_2015_data_header dp da sp sa (some seq) ack h).ending
      = (esp_ieee802154_create_2003_data_header dp da sp sa (some seq) ack h).ending ∧
    (esp_ieee802154_create_2003_data_header dp da sp sa (some seq) ack h).error_logged = false ∧
    (esp_ieee802154_create_2015_data_header dp da sp sa (some seq) ack h).error_logged = false ∧
    (∀ j : Nat, j ≠ 1 →
      (esp_ieee802154_create_2015_data_header dp da sp sa (some seq) ack h).header j
        = (esp_ieee802154_create_2003_data_header dp da sp sa (some seq) ack h).header j) ∧
    (esp_ieee802154_create_2015_data_header dp da sp sa (some seq) ack h).header 1
      = (esp_ieee802154_create_2003_data_header dp da sp sa (some seq) ack h).header 1
        + 16 * FRAME_VERSION_STD_2015 ∧
    (esp_ieee802154_create_2003_data_header dp da sp sa (some seq) ack h).header 1 / 16 % 4
      = FRAME_VERSION_STD_2003 ∧
    (esp_ieee802154_create_2015_data_header dp da sp sa (some seq) ack h).header 1 / 16 % 4
      = FRAME_VERSION_STD_2015 ∧
    (esp_ieee802154_create_2015_data_header dp da sp sa (some seq) ack h).header 1 % 16
      = (esp_ieee802154_create_2003_data_header dp da sp sa (some seq) ack h).header 1 % 16 ∧
    (esp_ieee802154_create_2015_data_header dp da sp sa (some seq) ack h).header 1 / 64
      = (esp_ieee802154_create_2003_data_header dp da sp sa (some seq) ack h).header 1 / 64 ∧
    fcf_at (esp_ieee802154_create_2015_data_header dp da sp sa (some seq) ack h).header 0
      = { fcf_at (esp_ieee802154_create_2003_data_header dp da sp sa (some seq) ack h).header 0
          with frame_ver := FRAME_VERSION_STD_2015 } := by
  have l3 := header_2003_bytes_length dp da sp sa seq ack
  have l5 := header_2015_bytes_length dp da sp sa (some seq) ack
  rw [src_pan_field_length] at l3 l5
  have hb := memcpy_second_byte h
    (1 + 32 * (ack.toNat % 2) + 64 * ((if dp = sp then 1 else 0) % 2))
    (4 * (da.mode % 4) + 64 * (sa.mode % 4))
    (4 * (da.mode % 4) + 64 * (sa.mode % 4) + 32)
    ([seq] ++ uint16_bytes dp ++ dst_field da ++ src_pan_field dp sp ++ src_field sa)
  have h1 : memcpy h 0 (header_2003_bytes dp da sp sa seq ack) 1
      = 4 * (da.mode % 4) + 64 * (sa.mode % 4) := by
    rw [header_2003_bytes_cons, memcpy_apply]
    simp
  have h0 : memcpy h 0 (header_2015_bytes dp da sp sa (some seq) ack) 0
      = memcpy h 0 (header_2003_bytes dp da sp sa seq ack) 0 := by
    rw [header_2015_bytes_cons, hb, ← header_2003_bytes_cons]
    simp [store]
  have h5 : memcpy h 0 (header_2015_bytes dp da sp sa (some seq) ack) 1
      = 4 * (da.mode % 4) + 64 * (sa.mode % 4) + 32 := by
    rw [header_2015_bytes_cons, memcpy_apply]
    simp
  have l35 : (header_2015_bytes dp da sp sa (some seq) ack).length
      = (header_2003_bytes dp da sp sa seq ack).length := by
    rw [l3, l5]
    simp
  rw [create_2003_eq, create_2015_eq]
  simp only [fcf_at, Nat.zero_add]
  rw [h0, h1, h5, l35, l3]
  refine ⟨rfl, rfl, trivial, trivial, ?_, ?_, ?_, ?_, ?_, ?_, ?_⟩
  · intro j hj
    rw [header_2015_bytes_cons, hb, ← header_2003_bytes_cons]
    simp [store, hj]
  · simp only [FRAME_VERSION_STD_2015]
  · simp only [FRAME_VERSION_STD_2003]
    omega
  · simp only [FRAME_VERSION_STD_2015]
    omega
  · omega
  · omega
  · simp only [fcf_of_bytes, FRAME_VERSION_STD_2015]
    congr 1 <;> omega

end Ieee802154
